import Mathlib

/-!
# Verification of the picomz-80k cassette-tape subsystem

Shallow embedding of the Sharp MZ-80K/A tape handling code
(`src/cassette.c`) and the filename sanitizer (`src/miscfuncs.c`,
`src/unnamed/part_000`), together with proofs of the specification
claims about them.

Machine integers are modelled as `Nat` with explicit `% 2^w`
reductions where the C code relies on fixed-width wrap-around
(`uint8_t` buffer cells, the `uint16_t` checksum counter).  The
global mutable state of the two bit-level state machines is an
explicit `MZState` record threaded through the step functions.
-/

namespace PicoMZ

/-! ## Constants from `cassette.c` and `picomz.h` -/

def LONGPULSE : Nat := 1
def SHORTPULSE : Nat := 0
def READPT : Nat := 420
def RBGAP_L : Nat := 120
def WBGAP_L : Nat := 22000
def RSGAP_L : Nat := 120
def WSGAP_L : Nat := 11000
def BTM_L : Nat := 80
def STM_L : Nat := 40
def L_L : Nat := 1
def S256_L : Nat := 256
def HDR_L : Nat := 1024
def CHK_L : Nat := 16
def SKIP_L : Nat := 24938
def TAPEHEADERSIZE : Nat := 128
def TAPEBODYMAXSIZE : Nat := 48640

/-- Truncation to a `uint8_t` value. -/
def u8 (x : Nat) : Nat := x % 256

/-- Truncation to a `uint16_t` value. -/
def u16 (x : Nat) : Nat := x % 65536

/-- The C test `((x << bs) & 0x80) == 0x80`, as the extracted bit
(1 when the test succeeds): bit `7 - bs` of the byte `x`. -/
def srcBit (x bs : Nat) : Nat := x * 2 ^ bs / 128 % 2

/-- Index into the header/body buffer used while streaming bits:
`secbits / 8` (the C expression `header[secbits/8]`, `body[secbits/8]`). -/
def bodyIdx (secbits : Nat) : Nat := secbits / 8

/-- Body length decoded from header bytes 18 (lsb) and 19 (msb):
the C expression `((header[19]<<8)&0xFF00)|header[18]`. -/
def decodeLen (h : Nat → Nat) : Nat := u8 (h 19) * 256 + u8 (h 18)

/-- Pointwise update of a buffer modelled as a function. -/
def updf (g : Nat → Nat) (i v : Nat) : Nat → Nat :=
  fun j => if j = i then v else g j

/-! ## The shared mutable state

Fields prefixed `r` are the statics of `cread()`, fields prefixed
`w` are the statics of `cwrite()`; `crstate`, `cwstate`, `cmotor`,
`csense`, `header` and `body` are the file-level globals. -/

structure MZState where
  crstate : Nat
  cwstate : Nat
  cmotor : Nat
  csense : Nat
  header : Nat → Nat
  body : Nat → Nat
  /-- `cread` static `chkbits` (`uint16_t`). -/
  rchkbits : Nat
  /-- `cread` static `bodybytes`. -/
  rbodybytes : Nat
  /-- `cread` static `longsent`. -/
  rlongsent : Bool
  /-- `cread` static `checksum[0]`. -/
  rchecksum0 : Nat
  /-- `cread` static `checksum[1]`. -/
  rchecksum1 : Nat
  /-- `cread` static `hilo`. -/
  hilo : Nat
  /-- `cread` static `secbits`. -/
  rsecbits : Nat
  /-- `cwrite` static `bodybytes`. -/
  wbodybytes : Nat
  /-- `cwrite` static `longread`. -/
  wlongread : Bool
  /-- `cwrite` static `secbits`. -/
  wsecbits : Nat
  /-- `cwrite` static `low`. -/
  wlow : Nat
  /-- `cwrite` static `high`. -/
  whigh : Nat
  /-- `cwrite` static `hightime` (microseconds). -/
  whightime : Nat
  /-- `cwrite` static `lowtime` (microseconds). -/
  wlowtime : Nat
  /-- `cwrite` static `chkbits` (`uint16_t`). -/
  wchkbits : Nat
  /-- `cwrite` static `checksum[0]`. -/
  wchecksum0 : Nat
  /-- `cwrite` static `checksum[1]`. -/
  wchecksum1 : Nat

/-- `reset_tape()`: zero both FSM states and the motor/sense flags. -/
def reset_tape (s : MZState) : MZState :=
  { s with crstate := 0, cwstate := 0, cmotor := 0, csense := 0 }

/-! ## `cread()` — the tape read state machine

The C function is a fall-through chain of `if (crstate==k)` blocks:
when a section completes, the block updates `crstate` and control
falls into the next block within the same call.  We mirror that by
chaining the per-state functions. -/

/-- State 13 of `cread` (and the unknown-state catch-all, which
performs the same reset). -/
def creadS13 (s : MZState) : Nat × MZState :=
  if s.crstate = 13 then
    (LONGPULSE, reset_tape { s with hilo := 0 })
  else
    -- unknown state: log, reset hilo and the tape state machines
    (LONGPULSE, reset_tape { s with hilo := 0 })

/-- State 9 of `cread`: the body checksum. -/
def creadS9 (s : MZState) : Nat × MZState :=
  if s.crstate = 9 then
    if s.rsecbits < CHK_L then
      let s :=
        if s.rsecbits = 0 ∧ s.rchkbits > 0 then
          { s with rchecksum0 := s.rchkbits / 256 % 256,
                   rchecksum1 := s.rchkbits % 256,
                   rchkbits := 0 }
        else s
      if s.rsecbits % 8 = 0 ∧ s.rlongsent = false then
        (LONGPULSE, { s with rlongsent := true })
      else
        let cs := if bodyIdx s.rsecbits = 0 then s.rchecksum0 else s.rchecksum1
        let bs := s.rsecbits % 8
        let s := { s with rlongsent := false, rsecbits := s.rsecbits + 1 }
        if srcBit cs bs = 1 then (LONGPULSE, s)
        else (SHORTPULSE, s)
    else
      creadS13 { s with rsecbits := 0, crstate := 13 }
  else creadS13 s

/-- State 8 of `cread`: the tape body.  (The `mzspinny` tape-counter
display update is a pure status-area side effect and is omitted.) -/
def creadS8 (s : MZState) : Nat × MZState :=
  if s.crstate = 8 then
    if s.rsecbits < s.rbodybytes * 8 then
      if s.rsecbits % 8 = 0 ∧ s.rlongsent = false then
        (LONGPULSE, { s with rlongsent := true })
      else
        let b := u8 (s.body (bodyIdx s.rsecbits))
        let bs := s.rsecbits % 8
        let s := { s with rlongsent := false, rsecbits := s.rsecbits + 1 }
        if srcBit b bs = 1 then
          (LONGPULSE, { s with rchkbits := u16 (s.rchkbits + 1) })
        else (SHORTPULSE, s)
    else
      creadS9 { s with rsecbits := 0, crstate := 9 }
  else creadS9 s

/-- State 7 of `cread`: long pulse, small gap, small tape mark, long
pulse; computes the body length from header bytes 18/19 on exit. -/
def creadS7 (s : MZState) : Nat × MZState :=
  if s.crstate = 7 then
    if s.rsecbits < L_L then
      (LONGPULSE, { s with rsecbits := s.rsecbits + 1 })
    else if s.rsecbits < L_L + RSGAP_L then
      (SHORTPULSE, { s with rsecbits := s.rsecbits + 1 })
    else if s.rsecbits < L_L + RSGAP_L + STM_L / 2 then
      (LONGPULSE, { s with rsecbits := s.rsecbits + 1 })
    else if s.rsecbits < L_L + RSGAP_L + STM_L then
      (SHORTPULSE, { s with rsecbits := s.rsecbits + 1 })
    else if s.rsecbits < L_L + RSGAP_L + STM_L + L_L then
      (LONGPULSE, { s with rsecbits := s.rsecbits + 1 })
    else
      creadS8 { s with rsecbits := 0,
                       rbodybytes := decodeLen s.header, crstate := 8 }
  else creadS8 s

/-- State 3 of `cread`: the header checksum. -/
def creadS3 (s : MZState) : Nat × MZState :=
  if s.crstate = 3 then
    if s.rsecbits < CHK_L then
      let s :=
        if s.rsecbits = 0 ∧ s.rchkbits > 0 then
          { s with rchecksum0 := s.rchkbits / 256 % 256,
                   rchecksum1 := s.rchkbits % 256,
                   rchkbits := 0 }
        else s
      if s.rsecbits % 8 = 0 ∧ s.rlongsent = false then
        (LONGPULSE, { s with rlongsent := true })
      else
        let cs := if bodyIdx s.rsecbits = 0 then s.rchecksum0 else s.rchecksum1
        let bs := s.rsecbits % 8
        let s := { s with rlongsent := false, rsecbits := s.rsecbits + 1 }
        if srcBit cs bs = 1 then (LONGPULSE, s)
        else (SHORTPULSE, s)
    else
      creadS7 { s with rsecbits := 0, crstate := 7 }
  else creadS7 s

/-- State 2 of `cread`: the tape header. -/
def creadS2 (s : MZState) : Nat × MZState :=
  if s.crstate = 2 then
    if s.rsecbits < HDR_L then
      if s.rsecbits % 8 = 0 ∧ s.rlongsent = false then
        (LONGPULSE, { s with rlongsent := true })
      else
        let b := u8 (s.header (bodyIdx s.rsecbits))
        let bs := s.rsecbits % 8
        let s := { s with rlongsent := false, rsecbits := s.rsecbits + 1 }
        if srcBit b bs = 1 then
          (LONGPULSE, { s with rchkbits := u16 (s.rchkbits + 1) })
        else (SHORTPULSE, s)
    else
      creadS3 { s with rsecbits := 0, crstate := 3 }
  else creadS3 s

/-- State 1 of `cread`: the header preamble (big gap, big tape mark,
one long pulse); state 1 always returns within its own block. -/
def creadS1 (s : MZState) : Nat × MZState :=
  if s.crstate = 1 then
    if s.rsecbits < RBGAP_L then
      (SHORTPULSE, { s with rsecbits := s.rsecbits + 1 })
    else if s.rsecbits < RBGAP_L + BTM_L / 2 then
      (LONGPULSE, { s with rsecbits := s.rsecbits + 1 })
    else if s.rsecbits < RBGAP_L + BTM_L then
      (SHORTPULSE, { s with rsecbits := s.rsecbits + 1 })
    else
      (LONGPULSE, { s with rsecbits := 0, crstate := 2 })
  else creadS2 s

/-- The body of `cread()` after the framing logic: state 0
initialization falls straight through into state 1, and the later
states chain as in the source. -/
def creadFSM (s : MZState) : Nat × MZState :=
  creadS1 (if s.crstate = 0 then
    { s with rsecbits := 0, rchkbits := 0, rlongsent := false, crstate := 1 }
  else s)

/-- `cread()`: returns the emitted pulse and the successor state. -/
def cread (s : MZState) : Nat × MZState :=
  if s.cmotor = 0 then
    if s.crstate = 0 then (LONGPULSE, s)
    else (LONGPULSE, { s with hilo := 0 })
  else if s.cwstate > 0 then (LONGPULSE, s)
  else
    let s := { s with hilo := (s.hilo + 1) % 3 }
    if s.hilo < 2 then (s.hilo, s)
    else creadFSM s

/-! ## `cwrite()` — the tape write state machine

`cwrite` receives one bit per call together with the current value
of the monotonic microsecond clock (`get_absolute_time()` is
modelled by passing the time in as `now`).  Each call returns the
successor state and a flag that is `true` exactly when this call
invoked `tapewriter()` (the backing-store persist).  Pulse
classification compares the high-to-low elapsed time against
`READPT`; `absolute_time_diff_us` is modelled with truncated `Nat`
subtraction, which classifies a non-positive difference as short
exactly as the signed C comparison does. -/

/-- Pulse classification on a falling edge: `0` (short) when the
elapsed time since the rising edge is below `READPT`, else `1`. -/
def classify (hightime now : Nat) : Nat :=
  if now - hightime < READPT then 0 else 1

/-- `cwrite` state 0: first high bit of a write; resets the read FSM,
zeroes the counters, timestamps the rising edge and enters state 1. -/
def cwrite0 (s : MZState) (now : Nat) : MZState × Bool :=
  ({ s with crstate := 0, wsecbits := 0, wlow := 0, whigh := 0,
            whightime := now, cwstate := 1 }, false)

/-- `cwrite` state 1: the tape header preamble.  Counts classified
pulses; at exactly `WBGAP_L + BTM_L + L_L` pulses it requires
`WBGAP_L + BTM_L/2` shorts, else aborts back to state 0. -/
def cwrite1 (s : MZState) (nextbit now : Nat) : MZState × Bool :=
  let s :=
    if nextbit = 0 then
      let s := { s with wlowtime := now }
      let s :=
        if classify s.whightime now = 0 then { s with wlow := s.wlow + 1 }
        else { s with whigh := s.whigh + 1 }
      { s with wsecbits := s.wsecbits + 1 }
    else
      { s with whightime := now }
  if s.wsecbits = WBGAP_L + BTM_L + L_L then
    if s.wlow = WBGAP_L + BTM_L / 2 then
      ({ s with cwstate := 2, wsecbits := 0, wlow := 0, whigh := 0,
                wchkbits := 0 }, false)
    else
      ({ s with cwstate := 0 }, false)
  else (s, false)

/-- `cwrite` state 2: reconstructs the header bytes MSB-first,
skipping (and blanking on) the per-byte sync pulse. -/
def cwrite2 (s : MZState) (nextbit now : Nat) : MZState × Bool :=
  let s :=
    if nextbit = 0 then
      let s := { s with wlowtime := now }
      let pulse := classify s.whightime now
      if s.wsecbits % 8 = 0 ∧ s.wlongread = false then
        { s with header := updf s.header (bodyIdx s.wsecbits) 0,
                 wlongread := true }
      else
        { s with wlongread := false,
                 header := updf s.header (bodyIdx s.wsecbits)
                   (u8 (u8 (s.header (bodyIdx s.wsecbits)) * 2 + pulse)),
                 wsecbits := s.wsecbits + 1,
                 wchkbits := u16 (s.wchkbits + pulse) }
    else
      { s with whightime := now }
  if s.wsecbits = HDR_L then
    ({ s with cwstate := 3, wsecbits := 0, wlongread := false }, false)
  else (s, false)

/-- `cwrite` state 3: reconstructs the two header-checksum bytes and
(on completion) decodes the body length; the comparison of the
running count against the transmitted checksum is log-only. -/
def cwrite3 (s : MZState) (nextbit now : Nat) : MZState × Bool :=
  let s :=
    if nextbit = 0 then
      let s := { s with wlowtime := now }
      let pulse := classify s.whightime now
      if s.wsecbits % 8 = 0 ∧ s.wlongread = false then
        if bodyIdx s.wsecbits = 0 then
          { s with wchecksum0 := 0, wlongread := true }
        else
          { s with wchecksum1 := 0, wlongread := true }
      else
        let s :=
          if bodyIdx s.wsecbits = 0 then
            { s with wchecksum0 := u8 (u8 s.wchecksum0 * 2 + pulse) }
          else
            { s with wchecksum1 := u8 (u8 s.wchecksum1 * 2 + pulse) }
        { s with wlongread := false, wsecbits := s.wsecbits + 1 }
    else
      { s with whightime := now }
  if s.wsecbits = CHK_L then
    -- the checksum comparison only selects a log message
    ({ s with wbodybytes := decodeLen s.header, cwstate := 4,
              wchkbits := 0, wsecbits := 0, wlongread := false }, false)
  else (s, false)

/-- `cwrite` state 4: skip over the header copy and the body
preamble by counting `SKIP_L` raw bit-calls. -/
def cwrite4 (s : MZState) : MZState × Bool :=
  let s := { s with wsecbits := s.wsecbits + 1 }
  if s.wsecbits = SKIP_L then
    ({ s with cwstate := 8, wsecbits := 0 }, false)
  else (s, false)

/-- `cwrite` state 8: reconstructs the body bytes up to the declared
length.  (The `mzspinny` tape-counter display update is omitted.) -/
def cwrite8 (s : MZState) (nextbit now : Nat) : MZState × Bool :=
  let s :=
    if nextbit = 0 then
      let s := { s with wlowtime := now }
      let pulse := classify s.whightime now
      if s.wsecbits % 8 = 0 ∧ s.wlongread = false then
        { s with body := updf s.body (bodyIdx s.wsecbits) 0,
                 wlongread := true }
      else
        { s with wlongread := false,
                 body := updf s.body (bodyIdx s.wsecbits)
                   (u8 (u8 (s.body (bodyIdx s.wsecbits)) * 2 + pulse)),
                 wsecbits := s.wsecbits + 1,
                 wchkbits := u16 (s.wchkbits + pulse) }
    else
      { s with whightime := now }
  if s.wsecbits = s.wbodybytes * 8 then
    ({ s with cwstate := 9, wsecbits := 0, wlongread := false }, false)
  else (s, false)

/-- `cwrite` state 9: the body checksum (log-only comparison). -/
def cwrite9 (s : MZState) (nextbit now : Nat) : MZState × Bool :=
  let s :=
    if nextbit = 0 then
      let s := { s with wlowtime := now }
      let pulse := classify s.whightime now
      if s.wsecbits % 8 = 0 ∧ s.wlongread = false then
        if bodyIdx s.wsecbits = 0 then
          { s with wchecksum0 := 0, wlongread := true }
        else
          { s with wchecksum1 := 0, wlongread := true }
      else
        let s :=
          if bodyIdx s.wsecbits = 0 then
            { s with wchecksum0 := u8 (u8 s.wchecksum0 * 2 + pulse) }
          else
            { s with wchecksum1 := u8 (u8 s.wchecksum1 * 2 + pulse) }
        { s with wlongread := false, wsecbits := s.wsecbits + 1 }
    else
      { s with whightime := now }
  if s.wsecbits = CHK_L then
    ({ s with cwstate := 10, wchkbits := 0, wsecbits := 0,
              wlongread := false }, false)
  else (s, false)

/-- `cwrite` state 10: skip over the body copy by counting raw
bit-calls up to `(L_L+S256_L+bodybytes*8+bodybytes+CHK_L+2)*2`. -/
def cwrite10 (s : MZState) : MZState × Bool :=
  let s := { s with wsecbits := s.wsecbits + 1 }
  if s.wsecbits = (L_L + S256_L + s.wbodybytes * 8 + s.wbodybytes
                   + CHK_L + 2) * 2 then
    ({ s with cwstate := 13, wsecbits := 0 }, false)
  else (s, false)

/-- `cwrite` state 13: the final long pulse.  When exactly one pulse
has been counted and it classified long, `tapewriter()` persists the
header and body (signalled by the `true` flag); otherwise the write
is abandoned without touching the backing store. -/
def cwrite13 (s : MZState) (nextbit now : Nat) : MZState × Bool :=
  let s :=
    if nextbit = 0 then
      let s := { s with wlowtime := now }
      let s :=
        if classify s.whightime now = 0 then { s with wlow := s.wlow + 1 }
        else { s with whigh := s.whigh + 1 }
      { s with wsecbits := s.wsecbits + 1 }
    else
      { s with whightime := now }
  if s.wsecbits = L_L then
    if s.whigh = L_L then
      ({ s with cwstate := 0, wsecbits := 0, whigh := 0, wlow := 0 }, true)
    else
      ({ s with cwstate := 0, wsecbits := 0, whigh := 0, wlow := 0 }, false)
  else (s, false)

/-- `cwrite()`: dispatch on `cwstate`.  Every state block in the C
source ends with `return`, so the dispatch is a plain chain; the
catch-all resets `cwstate` to 0. -/
def cwrite (s : MZState) (nextbit now : Nat) : MZState × Bool :=
  if s.cwstate = 0 then cwrite0 s now
  else if s.cwstate = 1 then cwrite1 s nextbit now
  else if s.cwstate = 2 then cwrite2 s nextbit now
  else if s.cwstate = 3 then cwrite3 s nextbit now
  else if s.cwstate = 4 then cwrite4 s
  else if s.cwstate = 8 then cwrite8 s nextbit now
  else if s.cwstate = 9 then cwrite9 s nextbit now
  else if s.cwstate = 10 then cwrite10 s
  else if s.cwstate = 13 then cwrite13 s nextbit now
  else ({ s with cwstate := 0 }, false)

/-! ## `tapeloader()` — the tape catalog walker

The FatFS backing store is modelled abstractly: a directory is a
list of entries in native iteration order; `f_opendir` may fail
(`dirOk`), `f_open` of an entry may fail (`openOk`), and `f_read`
follows the FatFS contract — it copies `min(btr, bytes-left)` bytes
into the destination buffer and reports that count, so a short read
still overwrites the buffer prefix with the bytes it did read. -/

structure FsEntry where
  isDir : Bool
  openOk : Bool
  content : List Nat

structure Fs where
  dirOk : Bool
  entries : List FsEntry

/-- The directory scan loop of `tapeloader`: skip directories and
return the `(k+1)`-th regular file, or `none` at end of directory. -/
def findNth : List FsEntry → Nat → Option FsEntry
  | [], _ => none
  | e :: es, k =>
    if e.isDir then findNth es k
    else if k = 0 then some e else findNth es (k - 1)

/-- `f_read` of `n` bytes from `src` into buffer `g`: the first
`min n src.length` buffer cells receive the file bytes. -/
def fread (g : Nat → Nat) (src : List Nat) (n : Nat) : Nat × (Nat → Nat) :=
  let r := min n src.length
  (r, fun i => if i < r then src.getD i 0 else g i)

/-- `tapeloader(n)`: preload the `n`-th catalog file into the header
and body buffers.  Returns the result code together with the new
header and body buffers.  (The status-area rendering on success is
a display side effect and is omitted.) -/
def tapeloader (fs : Fs) (n : Int) (hdr bdy : Nat → Nat) :
    Int × (Nat → Nat) × (Nat → Nat) :=
  if fs.dirOk = false then (-1, hdr, bdy)
  else
    let m : Nat := if n < 0 then 0 else n.toNat
    match findNth fs.entries m with
    | none => (-1, hdr, bdy)
    | some e =>
      if e.openOk = false then (-1, hdr, bdy)
      else
        let rh := fread hdr e.content TAPEHEADERSIZE
        if rh.1 ≠ TAPEHEADERSIZE then (-1, rh.2, bdy)
        else
          let bodybytes := decodeLen rh.2
          let rb := fread bdy (e.content.drop TAPEHEADERSIZE) bodybytes
          if rb.1 ≠ bodybytes then (-1, rh.2, rb.2)
          else (m, rh.2, rb.2)

/-! ## `mzsafefilechar` — the filename sanitizers

Two versions exist in the repository: `src/miscfuncs.c` (upper case,
digits and the lower-case table only) and `src/unnamed/part_000`
(additionally passes `! # $ % & ' ( ) @` through unchanged). -/

/-- The Sharp lower-case code table shared by both versions. -/
def mzLowerTable (c : Nat) : Option Nat :=
  match c with
  | 0xa1 => some 0x61 | 0x9a => some 0x62 | 0x9f => some 0x63
  | 0x9c => some 0x64 | 0x92 => some 0x65 | 0xaa => some 0x66
  | 0x97 => some 0x67 | 0x98 => some 0x68 | 0xa6 => some 0x69
  | 0xaf => some 0x6a | 0xa9 => some 0x6b | 0xb8 => some 0x6c
  | 0xb3 => some 0x6d | 0xb0 => some 0x6e | 0xb7 => some 0x6f
  | 0x9e => some 0x70 | 0xa0 => some 0x71 | 0x9d => some 0x72
  | 0xa4 => some 0x73 | 0x96 => some 0x74 | 0xa5 => some 0x75
  | 0xab => some 0x76 | 0xa3 => some 0x77 | 0x9b => some 0x78
  | 0xbd => some 0x79 | 0xa2 => some 0x7a
  | _ => none

/-- `mzsafefilechar` as in `src/miscfuncs.c`: default dash, then the
upper-case and digit pass-through ranges, then the lower-case switch. -/
def mzsafefilechar (sharpchar : Nat) : Nat :=
  let asciichar := 0x2d
  let asciichar :=
    if 0x41 ≤ sharpchar ∧ sharpchar ≤ 0x5a then sharpchar else asciichar
  let asciichar :=
    if 0x30 ≤ sharpchar ∧ sharpchar ≤ 0x39 then sharpchar else asciichar
  match mzLowerTable sharpchar with
  | some a => a
  | none => asciichar

/-- `mzsafefilechar` as in `src/unnamed/part_000`: the switch also
passes `! # $ % & ' ( ) @` through, then the range checks. -/
def mzsafefilechar0 (sharpchar : Nat) : Nat :=
  let asciichar :=
    match mzLowerTable sharpchar with
    | some a => a
    | none =>
      if sharpchar = 0x21 ∨ sharpchar = 0x23 ∨ sharpchar = 0x24 ∨
         sharpchar = 0x25 ∨ sharpchar = 0x26 ∨ sharpchar = 0x27 ∨
         sharpchar = 0x28 ∨ sharpchar = 0x29 ∨ sharpchar = 0x40 then
        sharpchar
      else 0x2d
  let asciichar :=
    if 0x41 ≤ sharpchar ∧ sharpchar ≤ 0x5a then sharpchar else asciichar
  if 0x30 ≤ sharpchar ∧ sharpchar ≤ 0x39 then sharpchar else asciichar

/-! ## Run drivers and initial states -/

/-- Iterate `cread`, collecting the stream of returned pulses
(tail-recursively, in reverse order). -/
def creadTraceAux : Nat → MZState → List Nat → List Nat
  | 0, _, acc => acc
  | n + 1, s, acc =>
    let p := cread s
    creadTraceAux n p.2 (p.1 :: acc)

/-- The stream of pulses returned by `n` consecutive `cread` calls. -/
def creadTrace (n : Nat) (s : MZState) : List Nat :=
  (creadTraceAux n s []).reverse

/-- Iterate `cread`, returning only the final state. -/
def creadSteps : Nat → MZState → MZState
  | 0, s => s
  | n + 1, s => creadSteps n (cread s).2

/-- Duration chosen for feeding a pulse to `cwrite`: wider than
`READPT` for a long pulse, narrower for a short one. -/
def durOf (p : Nat) : Nat := if p = 1 then 600 else 100

/-- Feed one pulse to `cwrite` as a rising edge at time 0 followed
by a falling edge `durOf p` later (only the difference between the
two timestamps is ever consulted); reports whether either call
persisted a file. -/
def wfeedPulse (s : MZState) (p : Nat) : MZState × Bool :=
  let r1 := cwrite s 1 0
  let r2 := cwrite r1.1 0 (durOf p)
  (r2.1, r1.2 || r2.2)

/-- Feed a pulse sequence to `cwrite`, counting the calls that
invoked `tapewriter`. -/
def wfeedAux : MZState → List Nat → Nat → MZState × Nat
  | s, [], cnt => (s, cnt)
  | s, p :: ps, cnt =>
    let r := wfeedPulse s p
    wfeedAux r.1 ps (cnt + if r.2 then 1 else 0)

/-- Feed a pulse sequence to `cwrite` from state `s`; returns the
final state and how many `tapewriter` invocations occurred. -/
def wfeed (s : MZState) (ps : List Nat) : MZState × Nat :=
  wfeedAux s ps 0

/-- Extract the data pulse from each `1, pulse, 0` framing triple of
a `cread` call trace. -/
def deframe : List Nat → List Nat
  | _ :: b :: _ :: rest => b :: deframe rest
  | _ => []

/-- Buffer built from a byte list (zero beyond the end). -/
def mkbuf (l : List Nat) : Nat → Nat := fun i => l.getD i 0

/-- Base state: both FSMs idle, all counters and scratch zero. -/
def mzZero : MZState where
  crstate := 0
  cwstate := 0
  cmotor := 0
  csense := 0
  header := fun _ => 0
  body := fun _ => 0
  rchkbits := 0
  rbodybytes := 0
  rlongsent := false
  rchecksum0 := 0
  rchecksum1 := 0
  hilo := 0
  rsecbits := 0
  wbodybytes := 0
  wlongread := false
  wsecbits := 0
  wlow := 0
  whigh := 0
  whightime := 0
  wlowtime := 0
  wchkbits := 0
  wchecksum0 := 0
  wchecksum1 := 0

/-- Idle read state with the motor on and the given buffers loaded. -/
def readInit (h b : Nat → Nat) : MZState :=
  { mzZero with cmotor := 1, csense := 1, header := h, body := b }

/-! ## Pulse-level encodings of tape sections

These describe the byte framing of the format: each byte is sent as
one long sync pulse followed by its eight bits, most significant
first.  They are the yardstick for both state machines. -/

/-- The eight bits of a byte, most significant first. -/
def bits8 (x : Nat) : List Nat := (List.range 8).map fun k => x / 2 ^ (7 - k) % 2

/-- One byte as pulses: sync long pulse, then the bits MSB-first. -/
def encByte (x : Nat) : List Nat := 1 :: bits8 x

/-- The first `n` bytes of a buffer as pulses. -/
def encBytes (f : Nat → Nat) : Nat → List Nat
  | 0 => []
  | n + 1 => encBytes f n ++ encByte (u8 (f n))

/-- Number of 1-bits in a byte. -/
def onesByte (x : Nat) : Nat := (bits8 x).sum

/-- Section checksum: total count of 1 data bits of the first `n`
bytes (wrapped to 16 bits when transmitted). -/
def chkSum (f : Nat → Nat) : Nat → Nat
  | 0 => 0
  | n + 1 => chkSum f n + onesByte (u8 (f n))

/-- The two checksum bytes (big-endian) for a 16-bit count `v`. -/
def chkBytes (v : Nat) : Nat → Nat :=
  fun i => if i = 0 then v / 256 % 256 else v % 256

/-- The preamble pulse sequence the writer expects: `WBGAP_L`
shorts, half the big tape mark long, half short, one long. -/
def wpreamble : List Nat :=
  List.replicate WBGAP_L 0 ++ List.replicate (BTM_L / 2) 1 ++
  List.replicate (BTM_L / 2) 0 ++ [1]

/-- The claim's classification of `mzsafefilechar`, parametrised by
the punctuation pass-through set: upper-case letters, digits and the
punctuation set pass unchanged; the lower-case table maps by lookup;
everything else maps to the dash `0x2d`. -/
def safeSpecMap (punct : Nat → Bool) (c : Nat) : Nat :=
  if (0x41 ≤ c ∧ c ≤ 0x5a) ∨ (0x30 ≤ c ∧ c ≤ 0x39) ∨ punct c = true then c
  else
    match mzLowerTable c with
    | some a => a
    | none => 0x2d

/-- Punctuation pass-through set of the `src/miscfuncs.c` version:
empty (that version passes no punctuation through). -/
def punctNone : Nat → Bool := fun _ => false

/-- Punctuation pass-through set of the `src/unnamed/part_000`
version: `! # $ % & ' ( ) @`. -/
def punct700 : Nat → Bool := fun c =>
  decide (c = 0x21 ∨ c = 0x23 ∨ c = 0x24 ∨ c = 0x25 ∨ c = 0x26 ∨
          c = 0x27 ∨ c = 0x28 ∨ c = 0x29 ∨ c = 0x40)

/-- Body length declared by a file's raw content bytes 18/19. -/
def contentLen (l : List Nat) : Nat := u8 (l.getD 19 0) * 256 + u8 (l.getD 18 0)

/-- A backing store whose single regular file is 1 byte long, so the
header read is short. -/
def fsShort : Fs := ⟨true, [⟨false, true, [7]⟩]⟩

/-- A backing store with one sub-directory and one well-formed
129-byte file (128-byte header declaring a 1-byte body). -/
def fsGood : Fs :=
  ⟨true, [⟨true, true, []⟩,
          ⟨false, true,
           List.replicate 18 0 ++ [1] ++ List.replicate 109 0 ++ [171]⟩]⟩

/-! ## Pulse-level runner and the reference pulse stream -/

/-- Iterate the `cread` state-machine body (`creadFSM`) at pulse
level, collecting the emitted pulses. -/
def rrun : Nat → MZState → List Nat × MZState
  | 0, s => ([], s)
  | n + 1, s =>
    let p := creadFSM s
    let r := rrun n p.2
    (p.1 :: r.1, r.2)

/-- The `1, pulse, 0` framing the full `cread` wrapper puts around
every pulse (the modulo-3 `hilo` scheme). -/
def frame3 : List Nat → List Nat
  | [] => []
  | p :: ps => 1 :: p :: 0 :: frame3 ps

/-- The reader's header preamble pulses: `RBGAP_L` shorts, half the
big tape mark long, half short, one long. -/
def preamblePulses : List Nat :=
  List.replicate RBGAP_L 0 ++ List.replicate (BTM_L / 2) 1 ++
  List.replicate (BTM_L / 2) 0 ++ [1]

/-- The reader's body preamble pulses (state 7): one long, `RSGAP_L`
shorts, half the small tape mark long, half short, one long. -/
def bodyPrePulses : List Nat :=
  [1] ++ List.replicate RSGAP_L 0 ++ List.replicate (STM_L / 2) 1 ++
  List.replicate (STM_L / 2) 0 ++ [1]

/-- The 16-bit header checksum value `cread` transmits. -/
def hchk (h : Nat → Nat) : Nat := u16 (chkSum h TAPEHEADERSIZE)

/-- The 16-bit body checksum value `cread` transmits.  When the body
counts no long pulses the checksum scratch is not recomputed, so the
stale header checksum bytes are re-sent. -/
def bchk (h b : Nat → Nat) : Nat :=
  if u16 (chkSum b (decodeLen h)) = 0 then hchk h
  else u16 (chkSum b (decodeLen h))

/-- The complete pulse stream of one `cread` cycle for header `h`
and body `b`: preamble, header bytes, header checksum, body
preamble, body bytes, body checksum, final stop pulse. -/
def tapePulses (h b : Nat → Nat) : List Nat :=
  preamblePulses ++ encBytes h TAPEHEADERSIZE ++
  encBytes (chkBytes (hchk h)) 2 ++ bodyPrePulses ++
  encBytes b (decodeLen h) ++ encBytes (chkBytes (bchk h b)) 2 ++ [1]

/-- `tapePulses` with the gap/tape-mark/skipped-copy sections
replaced by the counts `cwrite` expects: the writer's preamble, the
identical header/checksum/body/checksum data pulses, `SKIP_L/2`
filler pulses over the skipped header copy and body preamble, the
skipped body-copy filler, and the same final long pulse. -/
def writerAdjusted (h b : Nat → Nat) : List Nat :=
  wpreamble ++ encBytes h TAPEHEADERSIZE ++
  encBytes (chkBytes (hchk h)) 2 ++
  List.replicate (SKIP_L / 2) 0 ++
  encBytes b (decodeLen h) ++ encBytes (chkBytes (bchk h b)) 2 ++
  List.replicate (L_L + S256_L + decodeLen h * 8 + decodeLen h
                  + CHK_L + 2) 0 ++ [1]

/-- Concrete header for the C1 counterexample: machine-code type,
name `A`, one-byte body. -/
def cexHeader : Nat → Nat :=
  mkbuf [1, 65, 13, 0, 0, 0, 0, 0, 0, 0, 0, 0, 0, 0, 0, 0, 0, 0, 1, 0]

/-- Concrete one-byte body for the C1 counterexample. -/
def cexBody : Nat → Nat := mkbuf [170]

/-- The first `j` slots of `g` overwritten with the truncated bytes
of `f` (the prefix a writer has reconstructed so far). -/
def wrPrefix (g f : Nat → Nat) (j : Nat) : Nat → Nat :=
  fun t => if t < j then u8 (f t) else g t

/-! ## C3, C4, C10 — single-call contracts of the two entry points -/

/-- C3: while the motor signal is 0, `cread` returns LONG, leaves
`crstate` and the section bit counter unchanged, and resets the
high/low framing toggle to 0 exactly when a read was in progress
(`crstate ≠ 0`); with no read in progress the toggle is untouched. -/
theorem spec_c3_motor_off (s : MZState) (hm : s.cmotor = 0) :
    (cread s).1 = LONGPULSE ∧
    (cread s).2.crstate = s.crstate ∧
    (cread s).2.rsecbits = s.rsecbits ∧
    (cread s).2.hilo = (if s.crstate = 0 then s.hilo else 0) ∧
    (s.crstate = 0 → (cread s).2 = s) := by
  unfold cread
  rw [hm]
  by_cases h0 : s.crstate = 0 <;> simp [h0]

/-- Witness for C3: a state with the motor off and a read in
progress keeps its FSM position but loses the framing toggle. -/
theorem spec_c3_motor_off_witness :
    (cread { mzZero with crstate := 2, rsecbits := 57, hilo := 2 }).1 = LONGPULSE ∧
    (cread { mzZero with crstate := 2, rsecbits := 57, hilo := 2 }).2.crstate = 2 ∧
    (cread { mzZero with crstate := 2, rsecbits := 57, hilo := 2 }).2.rsecbits = 57 ∧
    (cread { mzZero with crstate := 2, rsecbits := 57, hilo := 2 }).2.hilo = 0 := by
  have h := spec_c3_motor_off { mzZero with crstate := 2, rsecbits := 57, hilo := 2 } rfl
  refine ⟨h.1, h.2.1, h.2.2.1, ?_⟩
  simpa using h.2.2.2.1

/-- C4: with the motor on and no write in progress, the calls cycle
modulo 3 on the `hilo` toggle: a call with `hilo = 0` returns 1 and
only advances the toggle, a call with `hilo = 2` returns 0 and only
advances the toggle, and a call with `hilo = 1` runs the state
machine body `creadFSM` (which is where `crstate` and the section
bit counter advance and the tape data bit is produced). -/
theorem spec_c4_three_phase (s : MZState) (hm : s.cmotor ≠ 0)
    (hw : s.cwstate = 0) :
    (s.hilo = 0 → cread s = (1, { s with hilo := 1 })) ∧
    (s.hilo = 2 → cread s = (0, { s with hilo := 0 })) ∧
    (s.hilo = 1 → cread s = creadFSM { s with hilo := 2 }) := by
  unfold cread
  refine ⟨fun h0 => ?_, fun h2 => ?_, fun h1 => ?_⟩
  · simp [hm, hw, h0]
  · simp [hm, hw, h2]
  · simp [hm, hw, h1]

/-- Witness for C4: from the freshly-started read state the first
call returns the framing 1 and advances only the toggle. -/
theorem spec_c4_three_phase_witness :
    cread (readInit (fun _ => 0) (fun _ => 0)) =
      (1, { readInit (fun _ => 0) (fun _ => 0) with hilo := 1 }) := by
  exact (spec_c4_three_phase (readInit (fun _ => 0) (fun _ => 0))
    (by decide) rfl).1 rfl

/-- C10: any `cwrite` call in the Idle write state (`cwstate = 0`),
whatever the bit argument, resets the read FSM state `crstate` to 0,
zeroes the write cursor counters, records the current time as the
rising-edge timestamp, moves to write state 1, and classifies no
pulse (no file write occurs and no other field changes). -/
theorem spec_c10_idle_write (s : MZState) (b t : Nat)
    (hw : s.cwstate = 0) :
    cwrite s b t =
      ({ s with crstate := 0, wsecbits := 0, wlow := 0, whigh := 0,
                whightime := t, cwstate := 1 }, false) := by
  unfold cwrite
  simp [hw, cwrite0]

/-- Witness for C10: from a state with a half-finished read, the
first write call discards the read position and opens state 1. -/
theorem spec_c10_idle_write_witness :
    cwrite { mzZero with crstate := 8, cmotor := 1, csense := 1 } 1 777 =
      ({ mzZero with crstate := 0, cmotor := 1, csense := 1, wsecbits := 0,
                     wlow := 0, whigh := 0, whightime := 777, cwstate := 1 },
       false) := by
  exact spec_c10_idle_write { mzZero with crstate := 8, cmotor := 1, csense := 1 }
    1 777 rfl

/-! ## C2, C7 — persistence discipline and non-fatal checksums -/

lemma cwrite0_nopersist (s : MZState) (t : Nat) : (cwrite0 s t).2 = false := rfl

lemma cwrite1_nopersist (s : MZState) (b t : Nat) :
    (cwrite1 s b t).2 = false := by
  simp only [cwrite1]
  split_ifs <;> rfl

lemma cwrite2_nopersist (s : MZState) (b t : Nat) :
    (cwrite2 s b t).2 = false := by
  simp only [cwrite2]
  split_ifs <;> rfl

lemma cwrite3_nopersist (s : MZState) (b t : Nat) :
    (cwrite3 s b t).2 = false := by
  simp only [cwrite3]
  split_ifs <;> rfl

lemma cwrite4_nopersist (s : MZState) : (cwrite4 s).2 = false := by
  simp only [cwrite4]
  split_ifs <;> rfl

lemma cwrite8_nopersist (s : MZState) (b t : Nat) :
    (cwrite8 s b t).2 = false := by
  simp only [cwrite8]
  split_ifs <;> rfl

lemma cwrite9_nopersist (s : MZState) (b t : Nat) :
    (cwrite9 s b t).2 = false := by
  simp only [cwrite9]
  split_ifs <;> rfl

lemma cwrite10_nopersist (s : MZState) : (cwrite10 s).2 = false := by
  simp only [cwrite10]
  split_ifs <;> rfl

/-- C2: a `cwrite` call invokes `tapewriter` (creates/overwrites a
backing-store file) exactly when the write FSM is in the Stop state
13 and, after the call's bookkeeping, exactly one pulse has been
counted and exactly one long pulse classified.  In every other
state — abort, protocol mismatch, reset, or mid-sequence — the call
never touches the backing store. -/
theorem spec_c2_persist_only_at_stop (s : MZState) (b t : Nat) :
    (cwrite s b t).2 = true ↔
      (s.cwstate = 13 ∧
       (if b = 0 then s.wsecbits + 1 else s.wsecbits) = L_L ∧
       (if b = 0 ∧ classify s.whightime t = 1 then s.whigh + 1
        else s.whigh) = L_L) := by
  unfold cwrite
  by_cases h0 : s.cwstate = 0
  · simp [h0, cwrite0_nopersist s t]
  by_cases h1 : s.cwstate = 1
  · simp [h0, h1, cwrite1_nopersist s b t]
  by_cases h2 : s.cwstate = 2
  · simp [h0, h1, h2, cwrite2_nopersist s b t]
  by_cases h3 : s.cwstate = 3
  · simp [h0, h1, h2, h3, cwrite3_nopersist s b t]
  by_cases h4 : s.cwstate = 4
  · simp [h0, h1, h2, h3, h4, cwrite4_nopersist s]
  by_cases h8 : s.cwstate = 8
  · simp [h0, h1, h2, h3, h4, h8, cwrite8_nopersist s b t]
  by_cases h9 : s.cwstate = 9
  · simp [h0, h1, h2, h3, h4, h8, h9, cwrite9_nopersist s b t]
  by_cases h10 : s.cwstate = 10
  · simp [h0, h1, h2, h3, h4, h8, h9, h10, cwrite10_nopersist s]
  by_cases h13 : s.cwstate = 13
  · simp only [h0, h1, h2, h3, h4, h8, h9, h10, h13, if_false, if_true,
      reduceIte, cwrite13]
    by_cases hb : b = 0
    · by_cases hc : classify s.whightime t = 0
      · have hc1 : ¬ classify s.whightime t = 1 := by omega
        simp [hb, hc, hc1]
        split_ifs <;> simp_all
      · have hc1 : classify s.whightime t = 1 := by
          unfold classify at hc ⊢
          split_ifs at hc ⊢ <;> simp_all
        simp [hb, hc1, hc]
        split_ifs <;> simp_all
    · simp [hb]
      split_ifs <;> simp_all
  · simp [h0, h1, h2, h3, h4, h8, h9, h10, h13]

/-- C7: when the 16 checksum bits of the header (state 3) or body
(state 9) have been received, `cwrite` advances to the following
state (4 resp. 10) unconditionally; the running long-pulse count
`chkbits` has no influence on the successor state, and no checksum
mismatch can abort the write or persist anything in these states. -/
lemma cwrite3_cwstate (s : MZState) (b t : Nat) (h3 : s.cwstate = 3) :
    (cwrite3 s b t).1.cwstate =
      (if (if b = 0 ∧ ¬(s.wsecbits % 8 = 0 ∧ s.wlongread = false)
           then s.wsecbits + 1 else s.wsecbits) = CHK_L then 4 else 3) := by
  by_cases hb : b = 0
  · by_cases hsync : s.wsecbits % 8 = 0 ∧ s.wlongread = false
    · by_cases hidx : bodyIdx s.wsecbits = 0 <;>
        · simp only [cwrite3, hb, hsync, hidx, if_true, if_false, and_self,
            reduceIte, ite_true, ite_false]
          split_ifs <;> simp_all [h3]
    · by_cases hidx : bodyIdx s.wsecbits = 0 <;>
        · simp only [cwrite3, hb, hsync, hidx, if_true, if_false,
            reduceIte, ite_true, ite_false]
          split_ifs <;> simp_all [h3]
  · simp only [cwrite3, hb, if_false, reduceIte, ite_false]
    split_ifs <;> simp_all [h3]

lemma cwrite9_cwstate (s : MZState) (b t : Nat) (h9 : s.cwstate = 9) :
    (cwrite9 s b t).1.cwstate =
      (if (if b = 0 ∧ ¬(s.wsecbits % 8 = 0 ∧ s.wlongread = false)
           then s.wsecbits + 1 else s.wsecbits) = CHK_L then 10 else 9) := by
  by_cases hb : b = 0
  · by_cases hsync : s.wsecbits % 8 = 0 ∧ s.wlongread = false
    · by_cases hidx : bodyIdx s.wsecbits = 0 <;>
        · simp only [cwrite9, hb, hsync, hidx, if_true, if_false, and_self,
            reduceIte, ite_true, ite_false]
          split_ifs <;> simp_all [h9]
    · by_cases hidx : bodyIdx s.wsecbits = 0 <;>
        · simp only [cwrite9, hb, hsync, hidx, if_true, if_false,
            reduceIte, ite_true, ite_false]
          split_ifs <;> simp_all [h9]
  · simp only [cwrite9, hb, if_false, reduceIte, ite_false]
    split_ifs <;> simp_all [h9]

/-- C7: when the 16 checksum bits of the header (state 3) or body
(state 9) have been received, `cwrite` advances to the following
state (4 resp. 10) unconditionally; the running long-pulse count
`chkbits` has no influence on the successor state, and no checksum
mismatch can abort the write or persist anything in these states. -/
theorem spec_c7_checksum_nonfatal (s : MZState) (b t c : Nat) :
    (s.cwstate = 3 →
      (cwrite s b t).1.cwstate =
        (if (if b = 0 ∧ ¬(s.wsecbits % 8 = 0 ∧ s.wlongread = false)
             then s.wsecbits + 1 else s.wsecbits) = CHK_L then 4 else 3) ∧
      (cwrite { s with wchkbits := c } b t).1.cwstate =
        (cwrite s b t).1.cwstate ∧
      (cwrite s b t).2 = false) ∧
    (s.cwstate = 9 →
      (cwrite s b t).1.cwstate =
        (if (if b = 0 ∧ ¬(s.wsecbits % 8 = 0 ∧ s.wlongread = false)
             then s.wsecbits + 1 else s.wsecbits) = CHK_L then 10 else 9) ∧
      (cwrite { s with wchkbits := c } b t).1.cwstate =
        (cwrite s b t).1.cwstate ∧
      (cwrite s b t).2 = false) := by
  constructor
  · intro h3
    have hstep : cwrite s b t = cwrite3 s b t := by
      unfold cwrite
      simp [h3]
    have hstep' : cwrite { s with wchkbits := c } b t =
        cwrite3 { s with wchkbits := c } b t := by
      unfold cwrite
      simp [h3]
    rw [hstep, hstep', cwrite3_cwstate s b t h3,
        cwrite3_cwstate { s with wchkbits := c } b t (by simp [h3])]
    exact ⟨rfl, rfl, cwrite3_nopersist s b t⟩
  · intro h9
    have hstep : cwrite s b t = cwrite9 s b t := by
      unfold cwrite
      simp [h9]
    have hstep' : cwrite { s with wchkbits := c } b t =
        cwrite9 { s with wchkbits := c } b t := by
      unfold cwrite
      simp [h9]
    rw [hstep, hstep', cwrite9_cwstate s b t h9,
        cwrite9_cwstate { s with wchkbits := c } b t (by simp [h9])]
    exact ⟨rfl, rfl, cwrite9_nopersist s b t⟩

/-- Witness for C7: with the 16th header-checksum bit arriving and a
running count (500) that cannot match the reconstructed checksum,
the machine still advances to state 4 and persists nothing. -/
theorem spec_c7_checksum_nonfatal_witness :
    (cwrite { mzZero with cwstate := 3, wsecbits := 15, wchkbits := 500 }
       0 600).1.cwstate = 4 ∧
    (cwrite { mzZero with cwstate := 3, wsecbits := 15, wchkbits := 7 }
       0 600).1.cwstate = 4 ∧
    (cwrite { mzZero with cwstate := 3, wsecbits := 15, wchkbits := 500 }
       0 600).2 = false := by
  obtain ⟨h1, h2, h3⟩ :=
    (spec_c7_checksum_nonfatal
      { mzZero with cwstate := 3, wsecbits := 15, wchkbits := 500 } 0 600 7).1 rfl
  refine ⟨?_, ?_, h3⟩
  · rw [h1]
    decide
  · rw [h2, h1]
    decide

/-! ## C8 — totality and shape of the filename sanitizer -/

set_option maxRecDepth 8000 in
/-- C8: both versions of `mzsafefilechar` are total and
deterministic over all 256 byte values and follow the claimed
classification — upper-case letters and digits (and, in the
`part_000` version, the fixed punctuation set) pass through
unchanged, the non-contiguous lower-case codes map by table, and
every other input maps to the dash; in particular `0xA1 ↦ 0x61`,
`0x41 ↦ 0x41` and `0x00 ↦ 0x2D`. -/
theorem spec_c8_sanitizer_total :
    (∀ c : Fin 256,
      mzsafefilechar c.val = safeSpecMap punctNone c.val ∧
      mzsafefilechar0 c.val = safeSpecMap punct700 c.val) ∧
    mzsafefilechar 0xa1 = 0x61 ∧ mzsafefilechar0 0xa1 = 0x61 ∧
    mzsafefilechar 0x41 = 0x41 ∧ mzsafefilechar0 0x41 = 0x41 ∧
    mzsafefilechar 0x00 = 0x2d ∧ mzsafefilechar0 0x00 = 0x2d := by
  decide

/-! ## C5 — the catalog walker's contract -/

/-- Counterexample to C5: a short header read returns −1 but does
modify the shared header buffer — the one byte that was read (7) is
stored at offset 0, overwriting the previous value 0, because
`f_read` fills the destination with the bytes it did read before
reporting the short count. -/
theorem spec_c5_counterexample :
    (tapeloader fsShort 0 (fun _ => 0) (fun _ => 0)).1 = -1 ∧
    (tapeloader fsShort 0 (fun _ => 0) (fun _ => 0)).2.1 0 = 7 := by
  decide

set_option maxRecDepth 4000 in
/-- C5 (amended): `tapeloader` clamps negative indices to 0; it
returns −1 on directory-open error, end-of-directory and file-open
error with both buffers untouched; a short header read returns −1
with the header bytes beyond the read prefix and the whole body
untouched (the read prefix is overwritten); a short body read
returns −1 with the body bytes beyond the read prefix untouched;
on success it returns the clamped requested index. -/
theorem spec_c5_amended (fs : Fs) (n : Int) (hdr bdy : Nat → Nat) :
    (n < 0 → tapeloader fs n hdr bdy = tapeloader fs 0 hdr bdy) ∧
    (fs.dirOk = false → tapeloader fs n hdr bdy = (-1, hdr, bdy)) ∧
    (fs.dirOk = true →
      findNth fs.entries (if n < 0 then 0 else n.toNat) = none →
      tapeloader fs n hdr bdy = (-1, hdr, bdy)) ∧
    (∀ e, fs.dirOk = true →
      findNth fs.entries (if n < 0 then 0 else n.toNat) = some e →
      (e.openOk = false → tapeloader fs n hdr bdy = (-1, hdr, bdy)) ∧
      (e.openOk = true → e.content.length < TAPEHEADERSIZE →
        (tapeloader fs n hdr bdy).1 = -1 ∧
        (∀ i, e.content.length ≤ i → (tapeloader fs n hdr bdy).2.1 i = hdr i) ∧
        (∀ i, i < e.content.length →
          (tapeloader fs n hdr bdy).2.1 i = e.content.getD i 0) ∧
        (tapeloader fs n hdr bdy).2.2 = bdy) ∧
      (e.openOk = true → TAPEHEADERSIZE ≤ e.content.length →
        e.content.length < TAPEHEADERSIZE + contentLen e.content →
        (tapeloader fs n hdr bdy).1 = -1 ∧
        (∀ i, e.content.length - TAPEHEADERSIZE ≤ i →
          (tapeloader fs n hdr bdy).2.2 i = bdy i)) ∧
      (e.openOk = true →
        TAPEHEADERSIZE + contentLen e.content ≤ e.content.length →
        (tapeloader fs n hdr bdy).1 = (if n < 0 then 0 else n.toNat : Nat))) := by
  refine ⟨fun hn => ?_, fun hdirf => ?_, fun hdir hnone => ?_,
          fun e hdir hsome => ⟨fun hof => ?_, fun ho hshort => ?_,
            fun ho hlong hbshort => ?_, fun ho hok => ?_⟩⟩
  · simp only [tapeloader, hn, if_true, reduceIte]
    norm_num
  · simp [tapeloader, hdirf]
  · simp [tapeloader, hdir, hnone]
  · simp [tapeloader, hdir, hsome, hof]
  · have hr1 : min TAPEHEADERSIZE e.content.length = e.content.length :=
      Nat.min_eq_right (Nat.le_of_lt hshort)
    have hne : e.content.length ≠ TAPEHEADERSIZE := Nat.ne_of_lt hshort
    refine ⟨?_, fun i hi => ?_, fun i hi => ?_, ?_⟩
    · simp [tapeloader, hdir, hsome, ho, fread, hr1, hne]
    · simp [tapeloader, hdir, hsome, ho, fread, hr1, hne, Nat.not_lt.2 hi]
    · simp [tapeloader, hdir, hsome, ho, fread, hr1, hne, hi]
    · simp [tapeloader, hdir, hsome, ho, fread, hr1, hne]
  · have hr1 : min TAPEHEADERSIZE e.content.length = TAPEHEADERSIZE :=
      Nat.min_eq_left hlong
    have h19 : 19 < e.content.length := by
      unfold TAPEHEADERSIZE at hlong
      omega
    have h18 : 18 < e.content.length := by omega
    have hdl : decodeLen
        (fun i => if i < TAPEHEADERSIZE then e.content.getD i 0 else hdr i) =
        contentLen e.content := by
      have e19 : (19 : Nat) < TAPEHEADERSIZE := by decide
      have e18 : (18 : Nat) < TAPEHEADERSIZE := by decide
      simp [decodeLen, contentLen, e19, e18]
    have hr2 : min (contentLen e.content)
        (e.content.drop TAPEHEADERSIZE).length =
        e.content.length - TAPEHEADERSIZE := by
      simp only [List.length_drop]
      omega
    have hne2 : e.content.length - TAPEHEADERSIZE ≠ contentLen e.content := by
      omega
    refine ⟨?_, fun i hi => ?_⟩
    · simp only [tapeloader, hdir, hsome, ho, fread, hr1, hdl, hr2]
      simp [hne2]
    · simp only [tapeloader, hdir, hsome, ho, fread, hr1, hdl, hr2]
      simp [hne2, Nat.not_lt.2 hi]
  · have hr1 : min TAPEHEADERSIZE e.content.length = TAPEHEADERSIZE := by
      unfold TAPEHEADERSIZE at hok ⊢
      omega
    have hdl : decodeLen
        (fun i => if i < TAPEHEADERSIZE then e.content.getD i 0 else hdr i) =
        contentLen e.content := by
      have e19 : (19 : Nat) < TAPEHEADERSIZE := by decide
      have e18 : (18 : Nat) < TAPEHEADERSIZE := by decide
      simp [decodeLen, contentLen, e19, e18]
    have hr2 : min (contentLen e.content)
        (e.content.drop TAPEHEADERSIZE).length = contentLen e.content := by
      simp only [List.length_drop]
      omega
    simp only [tapeloader, hdir, hsome, ho, fread, hr1, hdl, hr2]
    simp

set_option maxRecDepth 4000 in
/-- Witness for C5: the index −5 behaves exactly like index 0, a
successful preload of the first regular file returns 0, and a walk
over a store whose directory cannot be opened fails cleanly. -/
theorem spec_c5_amended_witness :
    tapeloader fsGood (-5) (fun _ => 0) (fun _ => 0) =
      tapeloader fsGood 0 (fun _ => 0) (fun _ => 0) ∧
    (tapeloader fsGood 0 (fun _ => 0) (fun _ => 0)).1 = 0 ∧
    tapeloader ⟨false, []⟩ 0 (fun _ => 0) (fun _ => 0) =
      (-1, fun _ => 0, fun _ => 0) := by
  refine ⟨(spec_c5_amended fsGood (-5) (fun _ => 0) (fun _ => 0)).1
      (by decide), ?_,
    (spec_c5_amended ⟨false, []⟩ 0 (fun _ => 0) (fun _ => 0)).2.1 rfl⟩
  have h := (spec_c5_amended fsGood 0 (fun _ => 0) (fun _ => 0)).2.2.2
    ⟨false, true,
     List.replicate 18 0 ++ [1] ++ List.replicate 109 0 ++ [171]⟩
    rfl rfl
  have hs := h.2.2.2 rfl (by decide)
  rw [hs]
  decide

/-! ## C9 — implicit bounds on the body buffer -/

lemma creadS13_bodybytes (s : MZState) :
    (creadS13 s).2.rbodybytes = s.rbodybytes := by
  unfold creadS13 reset_tape
  split_ifs <;> rfl

lemma creadS9_bodybytes (s : MZState) :
    (creadS9 s).2.rbodybytes = s.rbodybytes := by
  unfold creadS9
  split_ifs <;> try simp [creadS13_bodybytes]
  all_goals split_ifs <;> simp

lemma creadS8_bodybytes (s : MZState) :
    (creadS8 s).2.rbodybytes = s.rbodybytes := by
  unfold creadS8
  split_ifs <;> try simp [creadS9_bodybytes]
  all_goals split_ifs <;> simp

/-- C9: the body buffer indices touched while streaming an `n`-byte
body — `bodyIdx k = k / 8` for the `8n` data-bit positions in
`cread` state 8 and `cwrite` state 8, and the `n` byte positions of
`tapeloader`'s body read — all stay below `TAPEBODYMAXSIZE` exactly
when `n ≤ TAPEBODYMAXSIZE`; yet the decoded length can be as large
as 65535 (e.g. an all-0xFF header) and both machines adopt it with
no check: `cread` state 7 and `cwrite` state 3 store the raw
`decodeLen` into their body-length registers. -/
theorem spec_c9_body_bounds (n : Nat) (hn : n ≤ 65535) :
    (((∀ k, k < 8 * n → bodyIdx k < TAPEBODYMAXSIZE) ∧
      (∀ i, i < n → i < TAPEBODYMAXSIZE)) ↔ n ≤ TAPEBODYMAXSIZE) ∧
    decodeLen (fun _ => 255) = 65535 ∧
    TAPEBODYMAXSIZE < decodeLen (fun _ => 255) ∧
    (∀ s : MZState, s.crstate = 7 →
      ¬ s.rsecbits < L_L + RSGAP_L + STM_L + L_L →
      (creadS7 s).2.rbodybytes = decodeLen s.header) ∧
    (∀ (s : MZState) (b t : Nat), s.cwstate = 3 →
      (if b = 0 ∧ ¬(s.wsecbits % 8 = 0 ∧ s.wlongread = false)
       then s.wsecbits + 1 else s.wsecbits) = CHK_L →
      (cwrite3 s b t).1.wbodybytes = decodeLen s.header) := by
  refine ⟨?_, by decide, by decide, ?_, ?_⟩
  · constructor
    · rintro ⟨hk, -⟩
      by_cases h0 : n = 0
      · simp [h0, TAPEBODYMAXSIZE]
      · have := hk (8 * n - 1) (by omega)
        unfold bodyIdx at this
        omega
    · intro hle
      refine ⟨fun k hk => ?_, fun i hi => by omega⟩
      unfold bodyIdx
      omega
  · intro s h7 hend
    have hc : L_L + RSGAP_L + STM_L + L_L = 162 := by decide
    have hc1 : L_L = 1 := by decide
    have hc2 : L_L + RSGAP_L = 121 := by decide
    have hc3 : L_L + RSGAP_L + STM_L / 2 = 141 := by decide
    have hc4 : L_L + RSGAP_L + STM_L = 161 := by decide
    rw [hc] at hend
    simp only [creadS7, h7, if_true, reduceIte, hc, hc1, hc2, hc3, hc4]
    rw [if_neg (by omega), if_neg (by omega), if_neg (by omega),
        if_neg (by omega), if_neg (by omega)]
    rw [creadS8_bodybytes]
  · intro s b t h3 hend
    by_cases hb : b = 0
    · by_cases hsync : s.wsecbits % 8 = 0 ∧ s.wlongread = false
      · have hs : s.wsecbits = CHK_L := by simpa [hsync] using hend
        simp only [cwrite3, hb, hsync, hs, and_self, if_true, reduceIte,
          ite_true]
        split_ifs <;> simp_all
      · have hs : s.wsecbits + 1 = CHK_L := by simpa [hb, hsync] using hend
        simp only [cwrite3, hb, hsync, if_true, if_false, reduceIte,
          ite_true, ite_false]
        split_ifs <;> simp_all
    · have hs : s.wsecbits = CHK_L := by simpa [hb] using hend
      simp [cwrite3, hb, hs]

/-- Witness for C9: at the largest declared length (65535) the
bounds equivalence reports an overflow of the 48640-byte buffer. -/
theorem spec_c9_body_bounds_witness :
    (((∀ k, k < 8 * 65535 → bodyIdx k < TAPEBODYMAXSIZE) ∧
      (∀ i, i < 65535 → i < TAPEBODYMAXSIZE)) ↔
        (65535 : Nat) ≤ TAPEBODYMAXSIZE) ∧
    decodeLen (fun _ => 255) = 65535 := by
  exact ⟨(spec_c9_body_bounds 65535 (by decide)).1,
         (spec_c9_body_bounds 65535 (by decide)).2.1⟩

/-! ## Generic run/trace infrastructure -/

attribute [ext] MZState

lemma rrun_one (s : MZState) :
    rrun 1 s = ([(creadFSM s).1], (creadFSM s).2) := rfl

lemma rrun_append (m1 m2 : Nat) (s : MZState) :
    rrun (m1 + m2) s =
      ((rrun m1 s).1 ++ (rrun m2 (rrun m1 s).2).1,
       (rrun m2 (rrun m1 s).2).2) := by
  induction m1 generalizing s with
  | zero => simp [rrun]
  | succ k ih =>
    have : k + 1 + m2 = (k + m2) + 1 := by omega
    rw [this]
    simp only [rrun]
    rw [ih]
    simp [rrun]

lemma rrun_family (m : Nat) (out : Nat → Nat) (f : Nat → MZState)
    (hstep : ∀ k, k < m → creadFSM (f k) = (out k, f (k + 1))) :
    rrun m (f 0) = ((List.range m).map out, f m) := by
  induction m generalizing out f with
  | zero => simp [rrun]
  | succ k ih =>
    have h0 := hstep 0 (by omega)
    have hrest : rrun k (f 1) =
        ((List.range k).map (fun j => out (j + 1)), f (k + 1)) := by
      simpa using ih (fun j => out (j + 1)) (fun j => f (j + 1))
        (fun j hj => hstep (j + 1) (by omega))
    simp only [rrun, h0, hrest]
    rw [List.range_succ_eq_map]
    simp [Function.comp]

lemma range_map_const (m e : Nat) :
    (List.range m).map (fun _ => e) = List.replicate m e := by
  induction m with
  | zero => simp
  | succ k ih => rw [List.range_succ, List.map_append, ih]; simp
    [List.replicate_succ']

lemma wfeedAux_append (xs ys : List Nat) (s : MZState) (c : Nat) :
    wfeedAux s (xs ++ ys) c =
      wfeedAux (wfeedAux s xs c).1 ys (wfeedAux s xs c).2 := by
  induction xs generalizing s c with
  | nil => simp [wfeedAux]
  | cons p ps ih =>
    simp only [List.cons_append, wfeedAux, List.append_eq]
    rw [ih]

lemma wfeed_chain (ps : List Nat) (f : Nat → MZState)
    (hstep : ∀ k, (hk : k < ps.length) →
      wfeedPulse (f k) (ps.get ⟨k, hk⟩) = (f (k + 1), false)) (c : Nat) :
    wfeedAux (f 0) ps c = (f ps.length, c) := by
  induction ps generalizing f c with
  | nil => simp [wfeedAux]
  | cons p rest ih =>
    have h0 := hstep 0 (by simp)
    simp only [List.get] at h0
    simp only [wfeedAux, h0]
    have := ih (fun j => f (j + 1))
      (fun j hj => by
        have := hstep (j + 1) (by simpa using Nat.succ_lt_succ hj)
        simpa using this) c
    simpa using this

lemma wfeed_replicate (m : Nat) (e : Nat) (f : Nat → MZState)
    (hstep : ∀ k, k < m → wfeedPulse (f k) e = (f (k + 1), false)) (c : Nat) :
    wfeedAux (f 0) (List.replicate m e) c = (f m, c) := by
  have := wfeed_chain (List.replicate m e) f (fun k hk => by
    have hl : (List.replicate m e).get ⟨k, hk⟩ = e := List.get_replicate e _
    rw [hl]
    exact hstep k (by simpa using hk)) c
  simpa using this

lemma creadTraceAux_acc (n : Nat) (s : MZState) (acc : List Nat) :
    creadTraceAux n s acc = creadTraceAux n s [] ++ acc := by
  induction n generalizing s acc with
  | zero => simp [creadTraceAux]
  | succ k ih =>
    simp only [creadTraceAux]
    rw [ih (cread s).2 ((cread s).1 :: acc), ih (cread s).2 [(cread s).1]]
    simp

lemma creadTrace_succ (n : Nat) (s : MZState) :
    creadTrace (n + 1) s = (cread s).1 :: creadTrace n (cread s).2 := by
  unfold creadTrace
  simp only [creadTraceAux]
  rw [creadTraceAux_acc]
  simp

lemma creadTrace_add (a b : Nat) (s : MZState) :
    creadTrace (a + b) s =
      creadTrace a s ++ creadTrace b (creadSteps a s) := by
  induction a generalizing s with
  | zero => simp [creadTrace, creadTraceAux, creadSteps]
  | succ k ih =>
    have : k + 1 + b = (k + b) + 1 := by omega
    rw [this, creadTrace_succ, creadTrace_succ, ih]
    simp [creadSteps]

lemma creadSteps_add (a b : Nat) (s : MZState) :
    creadSteps (a + b) s = creadSteps b (creadSteps a s) := by
  induction a generalizing s with
  | zero => simp [creadSteps]
  | succ k ih =>
    have : k + 1 + b = (k + b) + 1 := by omega
    rw [this]
    simp only [creadSteps]
    exact ih (cread s).2

lemma encBytes_length (f : Nat → Nat) (n : Nat) :
    (encBytes f n).length = 9 * n := by
  induction n with
  | zero => rfl
  | succ k ih =>
    simp only [encBytes, List.length_append, ih, encByte, bits8]
    simp
    omega

lemma frame3_append (a b : List Nat) :
    frame3 (a ++ b) = frame3 a ++ frame3 b := by
  induction a with
  | nil => rfl
  | cons p ps ih => simp [frame3, ih]

lemma deframe_frame3_append (l : List Nat) (x y z : Nat) :
    deframe (frame3 l ++ [x, y, z]) = l ++ [y] := by
  induction l with
  | nil => rfl
  | cons p ps ih => simp [frame3, deframe, ih]

/-! ## Per-pulse characterization of the reader FSM -/

lemma rstep0_eq (s : MZState) (h : s.crstate = 0) :
    creadFSM s = creadFSM { s with rsecbits := 0, rchkbits := 0,
                                   rlongsent := false, crstate := 1 } := by
  simp only [creadFSM]
  rw [if_pos h, if_neg (by simp)]

lemma rstepN_eq (s : MZState) (h : ¬ s.crstate = 0) :
    creadFSM s = creadS1 s := by
  simp only [creadFSM]
  rw [if_neg h]

lemma rstep1_gap (s : MZState) (h : s.crstate = 1)
    (hs : s.rsecbits < RBGAP_L) :
    creadFSM s = (SHORTPULSE, { s with rsecbits := s.rsecbits + 1 }) := by
  rw [rstepN_eq s (by simp [h])]
  simp only [creadS1]
  rw [if_pos h, if_pos hs]

lemma rstep1_m1 (s : MZState) (h : s.crstate = 1)
    (hs1 : RBGAP_L ≤ s.rsecbits) (hs2 : s.rsecbits < RBGAP_L + BTM_L / 2) :
    creadFSM s = (LONGPULSE, { s with rsecbits := s.rsecbits + 1 }) := by
  rw [rstepN_eq s (by simp [h])]
  simp only [creadS1]
  rw [if_pos h, if_neg (Nat.not_lt.2 hs1), if_pos hs2]

lemma rstep1_m0 (s : MZState) (h : s.crstate = 1)
    (hs1 : RBGAP_L + BTM_L / 2 ≤ s.rsecbits)
    (hs2 : s.rsecbits < RBGAP_L + BTM_L) :
    creadFSM s = (SHORTPULSE, { s with rsecbits := s.rsecbits + 1 }) := by
  rw [rstepN_eq s (by simp [h])]
  simp only [creadS1]
  rw [if_pos h,
      if_neg (Nat.not_lt.2 (le_trans (Nat.le_add_right _ _) hs1)),
      if_neg (Nat.not_lt.2 hs1), if_pos hs2]

lemma rstep1_fin (s : MZState) (h : s.crstate = 1)
    (hs : RBGAP_L + BTM_L ≤ s.rsecbits) :
    creadFSM s = (LONGPULSE, { s with rsecbits := 0, crstate := 2 }) := by
  rw [rstepN_eq s (by simp [h])]
  simp only [creadS1]
  rw [if_pos h,
      if_neg (Nat.not_lt.2 (le_trans (Nat.le_add_right _ _) hs)),
      if_neg (Nat.not_lt.2
        (le_trans (Nat.add_le_add_left (Nat.div_le_self _ _) _) hs)),
      if_neg (Nat.not_lt.2 hs)]

lemma rstep2_entry (s : MZState) (h : s.crstate = 2) :
    creadFSM s = creadS2 s := by
  rw [rstepN_eq s (by simp [h])]
  simp only [creadS1]
  rw [if_neg (by simp [h])]

lemma rstep3_entry (s : MZState) (h : s.crstate = 3) :
    creadFSM s = creadS3 s := by
  rw [rstepN_eq s (by simp [h])]
  simp only [creadS1]
  rw [if_neg (by simp [h])]
  simp only [creadS2]
  rw [if_neg (by simp [h])]

lemma rstep7_entry (s : MZState) (h : s.crstate = 7) :
    creadFSM s = creadS7 s := by
  rw [rstepN_eq s (by simp [h])]
  simp only [creadS1]
  rw [if_neg (by simp [h])]
  simp only [creadS2]
  rw [if_neg (by simp [h])]
  simp only [creadS3]
  rw [if_neg (by simp [h])]

lemma rstep8_entry (s : MZState) (h : s.crstate = 8) :
    creadFSM s = creadS8 s := by
  rw [rstepN_eq s (by simp [h])]
  simp only [creadS1]
  rw [if_neg (by simp [h])]
  simp only [creadS2]
  rw [if_neg (by simp [h])]
  simp only [creadS3]
  rw [if_neg (by simp [h])]
  simp only [creadS7]
  rw [if_neg (by simp [h])]

lemma rstep9_entry (s : MZState) (h : s.crstate = 9) :
    creadFSM s = creadS9 s := by
  rw [rstepN_eq s (by simp [h])]
  simp only [creadS1]
  rw [if_neg (by simp [h])]
  simp only [creadS2]
  rw [if_neg (by simp [h])]
  simp only [creadS3]
  rw [if_neg (by simp [h])]
  simp only [creadS7]
  rw [if_neg (by simp [h])]
  simp only [creadS8]
  rw [if_neg (by simp [h])]

lemma rstep13 (s : MZState) (h : s.crstate = 13) :
    creadFSM s = (LONGPULSE, reset_tape { s with hilo := 0 }) := by
  rw [rstepN_eq s (by simp [h])]
  simp only [creadS1]
  rw [if_neg (by simp [h])]
  simp only [creadS2]
  rw [if_neg (by simp [h])]
  simp only [creadS3]
  rw [if_neg (by simp [h])]
  simp only [creadS7]
  rw [if_neg (by simp [h])]
  simp only [creadS8]
  rw [if_neg (by simp [h])]
  simp only [creadS9]
  rw [if_neg (by simp [h])]
  simp only [creadS13]
  rw [if_pos h]

lemma rstep2_sync (s : MZState) (h : s.crstate = 2)
    (hlt : s.rsecbits < HDR_L) (h8 : s.rsecbits % 8 = 0)
    (hl : s.rlongsent = false) :
    creadFSM s = (LONGPULSE, { s with rlongsent := true }) := by
  rw [rstep2_entry s h]
  simp only [creadS2]
  rw [if_pos h, if_pos hlt, if_pos ⟨h8, hl⟩]

lemma rstep2_data (s : MZState) (h : s.crstate = 2)
    (hlt : s.rsecbits < HDR_L)
    (hd : ¬(s.rsecbits % 8 = 0 ∧ s.rlongsent = false))
    (hchk : s.rchkbits < 65536) :
    creadFSM s =
      (srcBit (u8 (s.header (bodyIdx s.rsecbits))) (s.rsecbits % 8),
       { s with rlongsent := false, rsecbits := s.rsecbits + 1,
                rchkbits := u16 (s.rchkbits +
                  srcBit (u8 (s.header (bodyIdx s.rsecbits)))
                    (s.rsecbits % 8)) }) := by
  rw [rstep2_entry s h]
  simp only [creadS2]
  rw [if_pos h, if_pos hlt, if_neg hd]
  have hb : srcBit (u8 (s.header (bodyIdx s.rsecbits))) (s.rsecbits % 8) = 0 ∨
      srcBit (u8 (s.header (bodyIdx s.rsecbits))) (s.rsecbits % 8) = 1 := by
    unfold srcBit
    omega
  rcases hb with hb | hb
  · rw [if_neg (by rw [hb]; decide), hb]
    simp [SHORTPULSE, u16, Nat.mod_eq_of_lt hchk]
  · rw [if_pos hb, hb]
    simp [LONGPULSE, u16]

lemma rstep2_fin (s : MZState) (h : s.crstate = 2)
    (hge : ¬ s.rsecbits < HDR_L) :
    creadFSM s = creadS3 { s with rsecbits := 0, crstate := 3 } := by
  rw [rstep2_entry s h]
  simp only [creadS2]
  rw [if_pos h, if_neg hge]

lemma rstep3_sync0 (s : MZState) (h : s.crstate = 3)
    (hs : s.rsecbits = 0) (hl : s.rlongsent = false) :
    creadFSM s = (LONGPULSE,
      if 0 < s.rchkbits then
        { s with rchecksum0 := s.rchkbits / 256 % 256,
                 rchecksum1 := s.rchkbits % 256, rchkbits := 0,
                 rlongsent := true }
      else { s with rlongsent := true }) := by
  rw [rstep3_entry s h]
  simp only [creadS3]
  rw [if_pos h, if_pos (by rw [hs]; decide)]
  by_cases hc : 0 < s.rchkbits
  · rw [if_pos (show s.rsecbits = 0 ∧ s.rchkbits > 0 from ⟨hs, hc⟩),
        if_pos (by simp [hs, hl]), if_pos hc]
  · rw [if_neg (show ¬(s.rsecbits = 0 ∧ s.rchkbits > 0) from
          fun x => hc x.2),
        if_pos (show s.rsecbits % 8 = 0 ∧ s.rlongsent = false from
          ⟨by rw [hs], hl⟩),
        if_neg hc]

lemma rstep3_sync8 (s : MZState) (h : s.crstate = 3)
    (hs : s.rsecbits = 8) (hl : s.rlongsent = false) :
    creadFSM s = (LONGPULSE, { s with rlongsent := true }) := by
  rw [rstep3_entry s h]
  simp only [creadS3]
  rw [if_pos h, if_pos (by rw [hs]; decide),
      if_neg (show ¬(s.rsecbits = 0 ∧ s.rchkbits > 0) from
        fun x => by have h0 := x.1; rw [hs] at h0; exact absurd h0 (by decide)),
      if_pos (show s.rsecbits % 8 = 0 ∧ s.rlongsent = false from
        ⟨by rw [hs], hl⟩)]

lemma rstep3_data (s : MZState) (h : s.crstate = 3)
    (hlt : s.rsecbits < CHK_L)
    (hng : ¬(s.rsecbits = 0 ∧ 0 < s.rchkbits))
    (hd : ¬(s.rsecbits % 8 = 0 ∧ s.rlongsent = false)) :
    creadFSM s =
      (srcBit (if bodyIdx s.rsecbits = 0 then s.rchecksum0 else s.rchecksum1)
         (s.rsecbits % 8),
       { s with rlongsent := false, rsecbits := s.rsecbits + 1 }) := by
  rw [rstep3_entry s h]
  simp only [creadS3]
  rw [if_pos h, if_pos hlt, if_neg hng, if_neg hd]
  have hb : srcBit (if bodyIdx s.rsecbits = 0 then s.rchecksum0
      else s.rchecksum1) (s.rsecbits % 8) = 0 ∨
      srcBit (if bodyIdx s.rsecbits = 0 then s.rchecksum0 else s.rchecksum1)
        (s.rsecbits % 8) = 1 := by
    unfold srcBit
    omega
  rcases hb with hb | hb
  · rw [if_neg (by rw [hb]; decide), hb]
    rfl
  · rw [if_pos hb, hb]
    rfl

lemma rstep3_fin (s : MZState) (h : s.crstate = 3)
    (hge : ¬ s.rsecbits < CHK_L) :
    creadFSM s = creadS7 { s with rsecbits := 0, crstate := 7 } := by
  rw [rstep3_entry s h]
  simp only [creadS3]
  rw [if_pos h, if_neg hge]

lemma rstep7_l1 (s : MZState) (h : s.crstate = 7)
    (hs : s.rsecbits < L_L) :
    creadFSM s = (LONGPULSE, { s with rsecbits := s.rsecbits + 1 }) := by
  rw [rstep7_entry s h]
  simp only [creadS7]
  rw [if_pos h, if_pos hs]

lemma rstep7_gap (s : MZState) (h : s.crstate = 7)
    (hs1 : L_L ≤ s.rsecbits) (hs2 : s.rsecbits < L_L + RSGAP_L) :
    creadFSM s = (SHORTPULSE, { s with rsecbits := s.rsecbits + 1 }) := by
  rw [rstep7_entry s h]
  simp only [creadS7]
  rw [if_pos h, if_neg (Nat.not_lt.2 hs1), if_pos hs2]

lemma rstep7_m1 (s : MZState) (h : s.crstate = 7)
    (hs1 : L_L + RSGAP_L ≤ s.rsecbits)
    (hs2 : s.rsecbits < L_L + RSGAP_L + STM_L / 2) :
    creadFSM s = (LONGPULSE, { s with rsecbits := s.rsecbits + 1 }) := by
  rw [rstep7_entry s h]
  simp only [creadS7]
  rw [if_pos h,
      if_neg (Nat.not_lt.2 (le_trans (Nat.le_add_right _ _) hs1)),
      if_neg (Nat.not_lt.2 hs1), if_pos hs2]

lemma rstep7_m0 (s : MZState) (h : s.crstate = 7)
    (hs1 : L_L + RSGAP_L + STM_L / 2 ≤ s.rsecbits)
    (hs2 : s.rsecbits < L_L + RSGAP_L + STM_L) :
    creadFSM s = (SHORTPULSE, { s with rsecbits := s.rsecbits + 1 }) := by
  rw [rstep7_entry s h]
  simp only [creadS7]
  rw [if_pos h,
      if_neg (by simp only [L_L, RSGAP_L, STM_L] at hs1 ⊢; omega),
      if_neg (by simp only [L_L, RSGAP_L, STM_L] at hs1 ⊢; omega),
      if_neg (Nat.not_lt.2 hs1), if_pos hs2]

lemma rstep7_l2 (s : MZState) (h : s.crstate = 7)
    (hs1 : L_L + RSGAP_L + STM_L ≤ s.rsecbits)
    (hs2 : s.rsecbits < L_L + RSGAP_L + STM_L + L_L) :
    creadFSM s = (LONGPULSE, { s with rsecbits := s.rsecbits + 1 }) := by
  rw [rstep7_entry s h]
  simp only [creadS7]
  rw [if_pos h,
      if_neg (by simp only [L_L, RSGAP_L, STM_L] at hs1 ⊢; omega),
      if_neg (by simp only [L_L, RSGAP_L, STM_L] at hs1 ⊢; omega),
      if_neg (by simp only [L_L, RSGAP_L, STM_L] at hs1 ⊢; omega),
      if_neg (Nat.not_lt.2 hs1), if_pos hs2]

lemma rstep7_fin (s : MZState) (h : s.crstate = 7)
    (hs : L_L + RSGAP_L + STM_L + L_L ≤ s.rsecbits) :
    creadFSM s = creadS8 { s with rsecbits := 0,
                                  rbodybytes := decodeLen s.header,
                                  crstate := 8 } := by
  rw [rstep7_entry s h]
  simp only [creadS7]
  rw [if_pos h,
      if_neg (by simp only [L_L, RSGAP_L, STM_L] at hs ⊢; omega),
      if_neg (by simp only [L_L, RSGAP_L, STM_L] at hs ⊢; omega),
      if_neg (by simp only [L_L, RSGAP_L, STM_L] at hs ⊢; omega),
      if_neg (by simp only [L_L, RSGAP_L, STM_L] at hs ⊢; omega),
      if_neg (Nat.not_lt.2 hs)]

lemma rstep8_sync (s : MZState) (h : s.crstate = 8)
    (hlt : s.rsecbits < s.rbodybytes * 8) (h8 : s.rsecbits % 8 = 0)
    (hl : s.rlongsent = false) :
    creadFSM s = (LONGPULSE, { s with rlongsent := true }) := by
  rw [rstep8_entry s h]
  simp only [creadS8]
  rw [if_pos h, if_pos hlt, if_pos ⟨h8, hl⟩]

lemma rstep8_data (s : MZState) (h : s.crstate = 8)
    (hlt : s.rsecbits < s.rbodybytes * 8)
    (hd : ¬(s.rsecbits % 8 = 0 ∧ s.rlongsent = false))
    (hchk : s.rchkbits < 65536) :
    creadFSM s =
      (srcBit (u8 (s.body (bodyIdx s.rsecbits))) (s.rsecbits % 8),
       { s with rlongsent := false, rsecbits := s.rsecbits + 1,
                rchkbits := u16 (s.rchkbits +
                  srcBit (u8 (s.body (bodyIdx s.rsecbits)))
                    (s.rsecbits % 8)) }) := by
  rw [rstep8_entry s h]
  simp only [creadS8]
  rw [if_pos h, if_pos hlt, if_neg hd]
  have hb : srcBit (u8 (s.body (bodyIdx s.rsecbits))) (s.rsecbits % 8) = 0 ∨
      srcBit (u8 (s.body (bodyIdx s.rsecbits))) (s.rsecbits % 8) = 1 := by
    unfold srcBit
    omega
  rcases hb with hb | hb
  · rw [if_neg (by rw [hb]; decide), hb]
    simp [SHORTPULSE, u16, Nat.mod_eq_of_lt hchk]
  · rw [if_pos hb, hb]
    simp [LONGPULSE, u16]

lemma rstep8_fin (s : MZState) (h : s.crstate = 8)
    (hge : ¬ s.rsecbits < s.rbodybytes * 8) :
    creadFSM s = creadS9 { s with rsecbits := 0, crstate := 9 } := by
  rw [rstep8_entry s h]
  simp only [creadS8]
  rw [if_pos h, if_neg hge]

lemma rstep9_sync0 (s : MZState) (h : s.crstate = 9)
    (hs : s.rsecbits = 0) (hl : s.rlongsent = false) :
    creadFSM s = (LONGPULSE,
      if 0 < s.rchkbits then
        { s with rchecksum0 := s.rchkbits / 256 % 256,
                 rchecksum1 := s.rchkbits % 256, rchkbits := 0,
                 rlongsent := true }
      else { s with rlongsent := true }) := by
  rw [rstep9_entry s h]
  simp only [creadS9]
  rw [if_pos h, if_pos (by rw [hs]; decide)]
  by_cases hc : 0 < s.rchkbits
  · rw [if_pos (show s.rsecbits = 0 ∧ s.rchkbits > 0 from ⟨hs, hc⟩),
        if_pos (by simp [hs, hl]), if_pos hc]
  · rw [if_neg (show ¬(s.rsecbits = 0 ∧ s.rchkbits > 0) from
          fun x => hc x.2),
        if_pos (show s.rsecbits % 8 = 0 ∧ s.rlongsent = false from
          ⟨by rw [hs], hl⟩),
        if_neg hc]

lemma rstep9_sync8 (s : MZState) (h : s.crstate = 9)
    (hs : s.rsecbits = 8) (hl : s.rlongsent = false) :
    creadFSM s = (LONGPULSE, { s with rlongsent := true }) := by
  rw [rstep9_entry s h]
  simp only [creadS9]
  rw [if_pos h, if_pos (by rw [hs]; decide),
      if_neg (show ¬(s.rsecbits = 0 ∧ s.rchkbits > 0) from
        fun x => by have h0 := x.1; rw [hs] at h0; exact absurd h0 (by decide)),
      if_pos (show s.rsecbits % 8 = 0 ∧ s.rlongsent = false from
        ⟨by rw [hs], hl⟩)]

lemma rstep9_data (s : MZState) (h : s.crstate = 9)
    (hlt : s.rsecbits < CHK_L)
    (hng : ¬(s.rsecbits = 0 ∧ 0 < s.rchkbits))
    (hd : ¬(s.rsecbits % 8 = 0 ∧ s.rlongsent = false)) :
    creadFSM s =
      (srcBit (if bodyIdx s.rsecbits = 0 then s.rchecksum0 else s.rchecksum1)
         (s.rsecbits % 8),
       { s with rlongsent := false, rsecbits := s.rsecbits + 1 }) := by
  rw [rstep9_entry s h]
  simp only [creadS9]
  rw [if_pos h, if_pos hlt, if_neg hng, if_neg hd]
  have hb : srcBit (if bodyIdx s.rsecbits = 0 then s.rchecksum0
      else s.rchecksum1) (s.rsecbits % 8) = 0 ∨
      srcBit (if bodyIdx s.rsecbits = 0 then s.rchecksum0 else s.rchecksum1)
        (s.rsecbits % 8) = 1 := by
    unfold srcBit
    omega
  rcases hb with hb | hb
  · rw [if_neg (by rw [hb]; decide), hb]
    rfl
  · rw [if_pos hb, hb]
    rfl

lemma rstep9_fin (s : MZState) (h : s.crstate = 9)
    (hge : ¬ s.rsecbits < CHK_L) :
    creadFSM s = creadS13 { s with rsecbits := 0, crstate := 13 } := by
  rw [rstep9_entry s h]
  simp only [creadS9]
  rw [if_pos h, if_neg hge]

/-! ## Byte/bit arithmetic facts -/

set_option maxRecDepth 8000 in
lemma srcBit_eq (x k : Nat) (hx : x < 256) (hk : k < 8) :
    srcBit x k = x / 2 ^ (7 - k) % 2 := by
  have : ∀ x : Fin 256, ∀ k : Fin 8,
      srcBit x.val k.val = x.val / 2 ^ (7 - k.val) % 2 := by decide
  exact this ⟨x, hx⟩ ⟨k, hk⟩

set_option maxRecDepth 8000 in
lemma onesByte_step (x k : Nat) (hx : x < 256) (hk : k < 8) :
    onesByte (x / 2 ^ (8 - (k + 1))) =
      onesByte (x / 2 ^ (8 - k)) + x / 2 ^ (7 - k) % 2 := by
  have : ∀ x : Fin 256, ∀ k : Fin 8,
      onesByte (x.val / 2 ^ (8 - (k.val + 1))) =
        onesByte (x.val / 2 ^ (8 - k.val)) + x.val / 2 ^ (7 - k.val) % 2 := by
    decide
  exact this ⟨x, hx⟩ ⟨k, hk⟩

lemma u8_lt (x : Nat) : u8 x < 256 := Nat.mod_lt _ (by decide)

lemma u16_lt (x : Nat) : u16 x < 65536 := Nat.mod_lt _ (by decide)

lemma u8_div256 (x : Nat) : u8 x / 2 ^ 8 = 0 :=
  Nat.div_eq_of_lt (u8_lt x)

lemma onesByte_zero : onesByte 0 = 0 := by decide

/-! ## Section runs of the reader -/

lemma rrun_bump (m e j : Nat) (s : MZState)
    (hstep : ∀ k, k < m →
      creadFSM { s with rsecbits := j + k } =
        (e, { s with rsecbits := j + k + 1 })) :
    rrun m { s with rsecbits := j } =
      (List.replicate m e, { s with rsecbits := j + m }) := by
  have h := rrun_family m (fun _ => e) (fun k => { s with rsecbits := j + k })
    (fun k hk => hstep k hk)
  rw [range_map_const] at h
  exact h

lemma rrun_preamble (s : MZState) (h : s.crstate = 1) (hs : s.rsecbits = 0) :
    rrun 201 s = (preamblePulses, { s with rsecbits := 0, crstate := 2 }) := by
  have hrw : s = { s with rsecbits := 0 } := by
    ext <;> simp [hs]
  rw [hrw]
  have b1 : rrun 120 { s with rsecbits := 0 } =
      (List.replicate 120 SHORTPULSE, { s with rsecbits := 120 }) := by
    have := rrun_bump 120 SHORTPULSE 0 s (fun k hk => by
      exact rstep1_gap { s with rsecbits := 0 + k } (by simp [h])
        (by simp [RBGAP_L]; try omega))
    simpa using this
  have b2 : rrun 40 { s with rsecbits := 120 } =
      (List.replicate 40 LONGPULSE, { s with rsecbits := 160 }) := by
    have := rrun_bump 40 LONGPULSE 120 s (fun k hk => by
      exact rstep1_m1 { s with rsecbits := 120 + k } (by simp [h])
        (by simp [RBGAP_L]; try omega)
        (by simp [RBGAP_L, BTM_L]; try omega))
    simpa using this
  have b3 : rrun 40 { s with rsecbits := 160 } =
      (List.replicate 40 SHORTPULSE, { s with rsecbits := 200 }) := by
    have := rrun_bump 40 SHORTPULSE 160 s (fun k hk => by
      exact rstep1_m0 { s with rsecbits := 160 + k } (by simp [h])
        (by simp [RBGAP_L, BTM_L]; try omega)
        (by simp [RBGAP_L, BTM_L]; try omega))
    simpa using this
  have b4 : rrun 1 { s with rsecbits := 200 } =
      ([LONGPULSE], { s with rsecbits := 0, crstate := 2 }) := by
    rw [rrun_one, rstep1_fin { s with rsecbits := 200 } (by simp [h])
      (by simp [RBGAP_L, BTM_L])]
  have h201 : (201 : Nat) = 120 + (40 + (40 + 1)) := by decide
  rw [h201, rrun_append, b1, rrun_append, b2, rrun_append, b3, b4]
  simp [preamblePulses, RBGAP_L, BTM_L, LONGPULSE, SHORTPULSE]

lemma rrun_hdr_byte (s : MZState) (i : Nat) (h2 : s.crstate = 2)
    (hs : s.rsecbits = 8 * i) (hl : s.rlongsent = false) (hi : i < 128)
    (hchk : s.rchkbits < 65536) :
    rrun 9 s = (encByte (u8 (s.header i)),
      { s with rlongsent := false, rsecbits := 8 * i + 8,
               rchkbits := u16 (s.rchkbits + onesByte (u8 (s.header i))) }) := by
  have hxlt : u8 (s.header i) < 256 := u8_lt _
  have hsync : creadFSM s = (LONGPULSE, { s with rlongsent := true }) :=
    rstep2_sync s h2 (by rw [hs]; simp only [HDR_L]; omega)
      (by rw [hs]; omega) hl
  have hfam := rrun_family 8 (fun k => u8 (s.header i) / 2 ^ (7 - k) % 2)
    (fun k => { s with rlongsent := if k = 0 then true else false,
                       rsecbits := 8 * i + k,
                       rchkbits := u16 (s.rchkbits +
                         onesByte (u8 (s.header i) / 2 ^ (8 - k))) })
    (fun k hk => by
      have hstep := rstep2_data
        { s with rlongsent := if k = 0 then true else false,
                 rsecbits := 8 * i + k,
                 rchkbits := u16 (s.rchkbits +
                   onesByte (u8 (s.header i) / 2 ^ (8 - k))) }
        (by simp [h2])
        (by show 8 * i + k < HDR_L; simp only [HDR_L]; omega)
        (by
          rintro ⟨ha, hb⟩
          simp at ha hb
          rcases Nat.eq_zero_or_pos k with hk0 | hk0
          · simp [hk0] at hb
          · omega)
        (by show u16 _ < 65536; exact u16_lt _)
      have hmod : (8 * i + k) % 8 = k := by omega
      have hidx : bodyIdx (8 * i + k) = i := by unfold bodyIdx; omega
      rw [hstep, Prod.mk.injEq]
      refine ⟨?_, ?_⟩
      · show srcBit (u8 (s.header (bodyIdx (8 * i + k)))) ((8 * i + k) % 8) =
          u8 (s.header i) / 2 ^ (7 - k) % 2
        rw [hidx, hmod, srcBit_eq _ k hxlt hk]
      · ext
        all_goals try rfl
        show u16 (u16 (s.rchkbits + onesByte (u8 (s.header i) / 2 ^ (8 - k))) +
            srcBit (u8 (s.header (bodyIdx (8 * i + k)))) ((8 * i + k) % 8)) =
          u16 (s.rchkbits + onesByte (u8 (s.header i) / 2 ^ (8 - (k + 1))))
        rw [hidx, hmod, srcBit_eq _ k hxlt hk]
        simp only [u16, Nat.mod_add_mod]
        rw [Nat.add_assoc, ← onesByte_step _ k hxlt hk])
  have hf0 : ({ s with rlongsent := true } : MZState) =
      { s with rlongsent := if 0 = 0 then true else false,
               rsecbits := 8 * i + 0,
               rchkbits := u16 (s.rchkbits +
                 onesByte (u8 (s.header i) / 2 ^ (8 - 0))) } := by
    ext <;> simp [hs, Nat.div_eq_of_lt hxlt, onesByte_zero, u16,
      Nat.mod_eq_of_lt hchk]
  have h9 : (9 : Nat) = 1 + 8 := by decide
  rw [h9, rrun_append, rrun_one, hsync]
  simp only []
  rw [hf0, hfam, Prod.ext_iff]
  refine ⟨?_, ?_⟩
  · simp [encByte, bits8, LONGPULSE]
  · show ({ s with
        rlongsent := (if 8 = 0 then true else false),
        rsecbits := 8 * i + 8,
        rchkbits := u16 (s.rchkbits +
          onesByte (u8 (s.header i) / 2 ^ (8 - 8))) } : MZState) = _
    ext <;> simp

lemma rrun_hdr_upto (s : MZState) (h2 : s.crstate = 2)
    (hl : s.rlongsent = false) (hs : s.rsecbits = 0) (hchk : s.rchkbits = 0) :
    ∀ j, j ≤ 128 →
    rrun (9 * j) s = (encBytes s.header j,
      { s with rlongsent := false, rsecbits := 8 * j,
               rchkbits := u16 (chkSum s.header j) }) := by
  intro j
  induction j with
  | zero =>
    intro _
    simp only [Nat.mul_zero, rrun, encBytes]
    rw [Prod.mk.injEq]
    refine ⟨rfl, ?_⟩
    ext <;> simp [hl, hs, hchk, u16, chkSum]
  | succ j ih =>
    intro hj1
    have hbyte := rrun_hdr_byte
      { s with rlongsent := false, rsecbits := 8 * j,
               rchkbits := u16 (chkSum s.header j) } j
      (by simp [h2]) (by simp) (by simp) (by omega) (by simp [u16_lt])
    have h9j : 9 * (j + 1) = 9 * j + 9 := by omega
    rw [h9j, rrun_append, ih (by omega)]
    simp only []
    rw [hbyte, Prod.mk.injEq]
    refine ⟨rfl, ?_⟩
    ext <;> simp [chkSum, u16, Nat.mod_add_mod]
    omega

lemma rrun_chk_bits3 (s : MZState) (b8 : Nat) (h3 : s.crstate = 3)
    (hs : s.rsecbits = 8 * b8) (hb : b8 < 2) (hl : s.rlongsent = true)
    (hchk0 : s.rchkbits = 0)
    (hsel : (if b8 = 0 then s.rchecksum0 else s.rchecksum1) < 256) :
    rrun 8 s = (bits8 (if b8 = 0 then s.rchecksum0 else s.rchecksum1),
      { s with rlongsent := false, rsecbits := 8 * b8 + 8 }) := by
  have hfam := rrun_family 8
    (fun k => (if b8 = 0 then s.rchecksum0 else s.rchecksum1) / 2 ^ (7 - k) % 2)
    (fun k => { s with rlongsent := (if k = 0 then true else false),
                       rsecbits := 8 * b8 + k })
    (fun k hk => by
      have hstep := rstep3_data
        { s with rlongsent := (if k = 0 then true else false),
                 rsecbits := 8 * b8 + k }
        (by simp [h3])
        (by show 8 * b8 + k < CHK_L; simp only [CHK_L]; omega)
        (by
          rintro ⟨ha, hb2⟩
          simp only at ha hb2
          rw [hchk0] at hb2
          exact absurd hb2 (by decide))
        (by
          rintro ⟨ha, hb2⟩
          simp only at ha hb2
          rcases Nat.eq_zero_or_pos k with hk0 | hk0
          · simp [hk0] at hb2
          · omega)
      have hmod : (8 * b8 + k) % 8 = k := by omega
      have hidx : bodyIdx (8 * b8 + k) = b8 := by unfold bodyIdx; omega
      rw [hstep, Prod.mk.injEq]
      refine ⟨?_, ?_⟩
      · show srcBit (if bodyIdx (8 * b8 + k) = 0 then s.rchecksum0
            else s.rchecksum1) ((8 * b8 + k) % 8) = _
        rw [hidx, hmod]
        rcases (by omega : b8 = 0 ∨ b8 = 1) with h0 | h1
        · simp only [h0, if_pos rfl]
          rw [srcBit_eq _ k (by simpa [h0] using hsel) hk]
        · simp only [h1]
          norm_num
          rw [srcBit_eq _ k (by simpa [h1] using hsel) hk]
      · ext <;> rfl)
  have hf0 : s = { s with rlongsent := (if 0 = 0 then true else false),
                          rsecbits := 8 * b8 + 0 } := by
    ext <;> simp [hl, hs]
  rw [hf0]
  rw [hfam]
  rfl

lemma rrun_chk_byte3 (s : MZState) (b8 : Nat) (h3 : s.crstate = 3)
    (hs : s.rsecbits = 8 * b8) (hb : b8 < 2) (hl : s.rlongsent = false)
    (hchk0 : s.rchkbits = 0)
    (hsel : (if b8 = 0 then s.rchecksum0 else s.rchecksum1) < 256) :
    rrun 9 s = (encByte (if b8 = 0 then s.rchecksum0 else s.rchecksum1),
      { s with rlongsent := false, rsecbits := 8 * b8 + 8 }) := by
  have hsync : creadFSM s = (LONGPULSE, { s with rlongsent := true }) := by
    rcases (by omega : b8 = 0 ∨ b8 = 1) with h0 | h1
    · have := rstep3_sync0 s h3 (by rw [hs, h0]) hl
      rw [this, if_neg (by rw [hchk0]; decide)]
    · exact rstep3_sync8 s h3 (by rw [hs, h1]) hl
  have hbits := rrun_chk_bits3 { s with rlongsent := true } b8
    (by simp [h3]) (by simp [hs]) hb (by simp) (by simp [hchk0])
    (by simpa using hsel)
  have h9 : (9 : Nat) = 1 + 8 := by decide
  rw [h9, rrun_append, rrun_one, hsync]
  simp only []
  rw [hbits, Prod.mk.injEq]
  refine ⟨rfl, ?_⟩
  ext <;> rfl

lemma encBytes_two (f : Nat → Nat) :
    encBytes f 2 = encByte (u8 (f 0)) ++ encByte (u8 (f 1)) := by
  simp [encBytes]

lemma rrun_chk3 (s : MZState) (v : Nat) (h3 : s.crstate = 3)
    (hs : s.rsecbits = 0) (hl : s.rlongsent = false)
    (hc0 : s.rchecksum0 < 256) (hc1 : s.rchecksum1 < 256)
    (hchkb : s.rchkbits < 65536)
    (hv : v = if s.rchkbits = 0 then s.rchecksum0 * 256 + s.rchecksum1
              else s.rchkbits) :
    rrun 18 s = (encBytes (chkBytes v) 2,
      { s with rchecksum0 := v / 256 % 256, rchecksum1 := v % 256,
               rchkbits := 0, rlongsent := false, rsecbits := 16 }) := by
  by_cases hz : s.rchkbits = 0
  · rw [if_pos hz] at hv
    subst hv
    have hb0 := rrun_chk_byte3 s 0 h3 (by rw [hs]) (by decide) hl hz
      (by simpa using hc0)
    have hb1 := rrun_chk_byte3
      { s with rlongsent := false, rsecbits := 8 * 0 + 8 } 1
      (by simp [h3]) (by simp) (by decide) (by simp) (by simp [hz])
      (by simpa using hc1)
    have h18 : (18 : Nat) = 9 + 9 := by decide
    rw [h18, rrun_append, hb0]
    simp only []
    rw [hb1, Prod.mk.injEq]
    constructor
    · rw [encBytes_two]
      have e0 : u8 (chkBytes (s.rchecksum0 * 256 + s.rchecksum1) 0) =
          s.rchecksum0 := by
        show (s.rchecksum0 * 256 + s.rchecksum1) / 256 % 256 % 256 =
          s.rchecksum0
        omega
      have e1 : u8 (chkBytes (s.rchecksum0 * 256 + s.rchecksum1) 1) =
          s.rchecksum1 := by
        show (s.rchecksum0 * 256 + s.rchecksum1) % 256 % 256 = s.rchecksum1
        omega
      rw [e0, e1]
      norm_num
    · ext <;> first
        | rfl
        | (simp only []; omega)
        | omega
  · rw [if_neg hz] at hv
    subst hv
    have hsync := rstep3_sync0 s h3 hs hl
    rw [if_pos (by omega)] at hsync
    have hbits := rrun_chk_bits3
      { s with rchecksum0 := s.rchkbits / 256 % 256,
               rchecksum1 := s.rchkbits % 256, rchkbits := 0,
               rlongsent := true } 0
      (by simp [h3]) (by simp [hs]) (by decide) (by simp) (by simp)
      (by simp; exact Nat.mod_lt _ (by decide))
    have hb1 := rrun_chk_byte3
      { s with rchecksum0 := s.rchkbits / 256 % 256,
               rchecksum1 := s.rchkbits % 256, rchkbits := 0,
               rlongsent := false, rsecbits := 8 * 0 + 0 + 8 } 1
      (by simp [h3]) (by simp) (by decide) (by simp) (by simp)
      (by simp; exact Nat.mod_lt _ (by decide))
    have h18 : (18 : Nat) = 1 + (8 + 9) := by decide
    rw [h18, rrun_append, rrun_one, hsync]
    simp only []
    rw [rrun_append, hbits]
    simp only []
    rw [hb1, Prod.mk.injEq]
    constructor
    · rw [encBytes_two]
      have e0 : u8 (chkBytes s.rchkbits 0) = s.rchkbits / 256 % 256 := by
        show s.rchkbits / 256 % 256 % 256 = s.rchkbits / 256 % 256
        omega
      have e1 : u8 (chkBytes s.rchkbits 1) = s.rchkbits % 256 := by
        show s.rchkbits % 256 % 256 = s.rchkbits % 256
        omega
      rw [e0, e1]
      simp [encByte, LONGPULSE]
    · ext <;> first
        | rfl
        | (simp only []; omega)
        | omega

lemma rrun_congr_step (s s' : MZState) (h : creadFSM s = creadFSM s')
    (k : Nat) : rrun (k + 1) s = rrun (k + 1) s' := by
  simp only [rrun, h]

lemma rrun_congr (s s' : MZState) (h : creadFSM s = creadFSM s')
    (m : Nat) (hm : 0 < m) : rrun m s = rrun m s' := by
  cases m with
  | zero => exact absurd hm (by decide)
  | succ k => exact rrun_congr_step s s' h k

lemma rrun_append_eq (a b : Nat) (sa sb sc : MZState) (la lb : List Nat)
    (hA : rrun a sa = (la, sb)) (hB : rrun b sb = (lb, sc)) :
    rrun (a + b) sa = (la ++ lb, sc) := by
  rw [rrun_append, hA]
  simp only []
  rw [hB]

lemma creadS13_eval (x : MZState) :
    creadS13 x = (LONGPULSE, reset_tape { x with hilo := 0 }) := by
  unfold creadS13
  split <;> rfl

lemma rrun_chk_bits9 (s : MZState) (b8 : Nat) (h9 : s.crstate = 9)
    (hs : s.rsecbits = 8 * b8) (hb : b8 < 2) (hl : s.rlongsent = true)
    (hchk0 : s.rchkbits = 0)
    (hsel : (if b8 = 0 then s.rchecksum0 else s.rchecksum1) < 256) :
    rrun 8 s = (bits8 (if b8 = 0 then s.rchecksum0 else s.rchecksum1),
      { s with rlongsent := false, rsecbits := 8 * b8 + 8 }) := by
  have hfam := rrun_family 8
    (fun k => (if b8 = 0 then s.rchecksum0 else s.rchecksum1) / 2 ^ (7 - k) % 2)
    (fun k => { s with rlongsent := (if k = 0 then true else false),
                       rsecbits := 8 * b8 + k })
    (fun k hk => by
      have hstep := rstep9_data
        { s with rlongsent := (if k = 0 then true else false),
                 rsecbits := 8 * b8 + k }
        (by simp [h9])
        (by show 8 * b8 + k < CHK_L; simp only [CHK_L]; omega)
        (by
          rintro ⟨ha, hb2⟩
          simp only at ha hb2
          rw [hchk0] at hb2
          exact absurd hb2 (by decide))
        (by
          rintro ⟨ha, hb2⟩
          simp only at ha hb2
          rcases Nat.eq_zero_or_pos k with hk0 | hk0
          · simp [hk0] at hb2
          · omega)
      have hmod : (8 * b8 + k) % 8 = k := by omega
      have hidx : bodyIdx (8 * b8 + k) = b8 := by unfold bodyIdx; omega
      rw [hstep, Prod.mk.injEq]
      refine ⟨?_, ?_⟩
      · show srcBit (if bodyIdx (8 * b8 + k) = 0 then s.rchecksum0
            else s.rchecksum1) ((8 * b8 + k) % 8) = _
        rw [hidx, hmod]
        rcases (by omega : b8 = 0 ∨ b8 = 1) with h0 | h1
        · simp only [h0, if_pos rfl]
          rw [srcBit_eq _ k (by simpa [h0] using hsel) hk]
        · simp only [h1]
          norm_num
          rw [srcBit_eq _ k (by simpa [h1] using hsel) hk]
      · ext <;> rfl)
  have hf0 : s = { s with rlongsent := (if 0 = 0 then true else false),
                          rsecbits := 8 * b8 + 0 } := by
    ext <;> simp [hl, hs]
  rw [hf0]
  rw [hfam]
  rfl

lemma rrun_chk_byte9 (s : MZState) (b8 : Nat) (h9 : s.crstate = 9)
    (hs : s.rsecbits = 8 * b8) (hb : b8 < 2) (hl : s.rlongsent = false)
    (hchk0 : s.rchkbits = 0)
    (hsel : (if b8 = 0 then s.rchecksum0 else s.rchecksum1) < 256) :
    rrun 9 s = (encByte (if b8 = 0 then s.rchecksum0 else s.rchecksum1),
      { s with rlongsent := false, rsecbits := 8 * b8 + 8 }) := by
  have hsync : creadFSM s = (LONGPULSE, { s with rlongsent := true }) := by
    rcases (by omega : b8 = 0 ∨ b8 = 1) with h0 | h1
    · have := rstep9_sync0 s h9 (by rw [hs, h0]) hl
      rw [this, if_neg (by rw [hchk0]; decide)]
    · exact rstep9_sync8 s h9 (by rw [hs, h1]) hl
  have hbits := rrun_chk_bits9 { s with rlongsent := true } b8
    (by simp [h9]) (by simp [hs]) hb (by simp) (by simp [hchk0])
    (by simpa using hsel)
  have h9' : (9 : Nat) = 1 + 8 := by decide
  rw [h9', rrun_append, rrun_one, hsync]
  simp only []
  rw [hbits, Prod.mk.injEq]
  refine ⟨rfl, ?_⟩
  ext <;> rfl

lemma rrun_chk9 (s : MZState) (v : Nat) (h9 : s.crstate = 9)
    (hs : s.rsecbits = 0) (hl : s.rlongsent = false)
    (hc0 : s.rchecksum0 < 256) (hc1 : s.rchecksum1 < 256)
    (hchkb : s.rchkbits < 65536)
    (hv : v = if s.rchkbits = 0 then s.rchecksum0 * 256 + s.rchecksum1
              else s.rchkbits) :
    rrun 18 s = (encBytes (chkBytes v) 2,
      { s with rchecksum0 := v / 256 % 256, rchecksum1 := v % 256,
               rchkbits := 0, rlongsent := false, rsecbits := 16 }) := by
  by_cases hz : s.rchkbits = 0
  · rw [if_pos hz] at hv
    subst hv
    have hb0 := rrun_chk_byte9 s 0 h9 (by rw [hs]) (by decide) hl hz
      (by simpa using hc0)
    have hb1 := rrun_chk_byte9
      { s with rlongsent := false, rsecbits := 8 * 0 + 8 } 1
      (by simp [h9]) (by simp) (by decide) (by simp) (by simp [hz])
      (by simpa using hc1)
    have h18 : (18 : Nat) = 9 + 9 := by decide
    rw [h18, rrun_append, hb0]
    simp only []
    rw [hb1, Prod.mk.injEq]
    constructor
    · rw [encBytes_two]
      have e0 : u8 (chkBytes (s.rchecksum0 * 256 + s.rchecksum1) 0) =
          s.rchecksum0 := by
        show (s.rchecksum0 * 256 + s.rchecksum1) / 256 % 256 % 256 =
          s.rchecksum0
        omega
      have e1 : u8 (chkBytes (s.rchecksum0 * 256 + s.rchecksum1) 1) =
          s.rchecksum1 := by
        show (s.rchecksum0 * 256 + s.rchecksum1) % 256 % 256 = s.rchecksum1
        omega
      rw [e0, e1]
      norm_num
    · ext <;> first
        | rfl
        | (simp only []; omega)
        | omega
  · rw [if_neg hz] at hv
    subst hv
    have hsync := rstep9_sync0 s h9 hs hl
    rw [if_pos (by omega)] at hsync
    have hbits := rrun_chk_bits9
      { s with rchecksum0 := s.rchkbits / 256 % 256,
               rchecksum1 := s.rchkbits % 256, rchkbits := 0,
               rlongsent := true } 0
      (by simp [h9]) (by simp [hs]) (by decide) (by simp) (by simp)
      (by simp; exact Nat.mod_lt _ (by decide))
    have hb1 := rrun_chk_byte9
      { s with rchecksum0 := s.rchkbits / 256 % 256,
               rchecksum1 := s.rchkbits % 256, rchkbits := 0,
               rlongsent := false, rsecbits := 8 * 0 + 0 + 8 } 1
      (by simp [h9]) (by simp) (by decide) (by simp) (by simp)
      (by simp; exact Nat.mod_lt _ (by decide))
    have h18 : (18 : Nat) = 1 + (8 + 9) := by decide
    rw [h18, rrun_append, rrun_one, hsync]
    simp only []
    rw [rrun_append, hbits]
    simp only []
    rw [hb1, Prod.mk.injEq]
    constructor
    · rw [encBytes_two]
      have e0 : u8 (chkBytes s.rchkbits 0) = s.rchkbits / 256 % 256 := by
        show s.rchkbits / 256 % 256 % 256 = s.rchkbits / 256 % 256
        omega
      have e1 : u8 (chkBytes s.rchkbits 1) = s.rchkbits % 256 := by
        show s.rchkbits % 256 % 256 = s.rchkbits % 256
        omega
      rw [e0, e1]
      simp [encByte, LONGPULSE]
    · ext <;> first
        | rfl
        | (simp only []; omega)
        | omega

lemma rrun_bodypre (s : MZState) (h : s.crstate = 7) (hs : s.rsecbits = 0) :
    rrun 162 s = (bodyPrePulses, { s with rsecbits := 162 }) := by
  have hrw : s = { s with rsecbits := 0 } := by
    ext <;> simp [hs]
  rw [hrw]
  have b0 : rrun 1 { s with rsecbits := 0 } =
      ([LONGPULSE], { s with rsecbits := 1 }) := by
    rw [rrun_one, rstep7_l1 { s with rsecbits := 0 } (by simp [h])
      (by simp [L_L])]
  have b1 : rrun 120 { s with rsecbits := 1 } =
      (List.replicate 120 SHORTPULSE, { s with rsecbits := 121 }) := by
    have := rrun_bump 120 SHORTPULSE 1 s (fun k hk => by
      exact rstep7_gap { s with rsecbits := 1 + k } (by simp [h])
        (by simp [L_L]; try omega)
        (by simp [L_L, RSGAP_L]; try omega))
    simpa using this
  have b2 : rrun 20 { s with rsecbits := 121 } =
      (List.replicate 20 LONGPULSE, { s with rsecbits := 141 }) := by
    have := rrun_bump 20 LONGPULSE 121 s (fun k hk => by
      exact rstep7_m1 { s with rsecbits := 121 + k } (by simp [h])
        (by simp [L_L, RSGAP_L]; try omega)
        (by simp [L_L, RSGAP_L, STM_L]; try omega))
    simpa using this
  have b3 : rrun 20 { s with rsecbits := 141 } =
      (List.replicate 20 SHORTPULSE, { s with rsecbits := 161 }) := by
    have := rrun_bump 20 SHORTPULSE 141 s (fun k hk => by
      exact rstep7_m0 { s with rsecbits := 141 + k } (by simp [h])
        (by simp [L_L, RSGAP_L, STM_L]; try omega)
        (by simp [L_L, RSGAP_L, STM_L]; try omega))
    simpa using this
  have b4 : rrun 1 { s with rsecbits := 161 } =
      ([LONGPULSE], { s with rsecbits := 162 }) := by
    rw [rrun_one, rstep7_l2 { s with rsecbits := 161 } (by simp [h])
      (by simp [L_L, RSGAP_L, STM_L]) (by simp [L_L, RSGAP_L, STM_L])]
  have h162 : (162 : Nat) = 1 + (120 + (20 + (20 + 1))) := by decide
  rw [h162, rrun_append, b0]
  simp only []
  rw [rrun_append, b1]
  simp only []
  rw [rrun_append, b2]
  simp only []
  rw [rrun_append, b3]
  simp only []
  rw [b4]
  simp [bodyPrePulses, RSGAP_L, STM_L, LONGPULSE, SHORTPULSE]

lemma rrun_body_byte (s : MZState) (i : Nat) (h8 : s.crstate = 8)
    (hs : s.rsecbits = 8 * i) (hl : s.rlongsent = false)
    (hi : i < s.rbodybytes) (hchk : s.rchkbits < 65536) :
    rrun 9 s = (encByte (u8 (s.body i)),
      { s with rlongsent := false, rsecbits := 8 * i + 8,
               rchkbits := u16 (s.rchkbits + onesByte (u8 (s.body i))) }) := by
  have hxlt : u8 (s.body i) < 256 := u8_lt _
  have hsync : creadFSM s = (LONGPULSE, { s with rlongsent := true }) :=
    rstep8_sync s h8 (by rw [hs]; omega) (by rw [hs]; omega) hl
  have hfam := rrun_family 8 (fun k => u8 (s.body i) / 2 ^ (7 - k) % 2)
    (fun k => { s with rlongsent := if k = 0 then true else false,
                       rsecbits := 8 * i + k,
                       rchkbits := u16 (s.rchkbits +
                         onesByte (u8 (s.body i) / 2 ^ (8 - k))) })
    (fun k hk => by
      have hstep := rstep8_data
        { s with rlongsent := if k = 0 then true else false,
                 rsecbits := 8 * i + k,
                 rchkbits := u16 (s.rchkbits +
                   onesByte (u8 (s.body i) / 2 ^ (8 - k))) }
        (by simp [h8])
        (by show 8 * i + k < s.rbodybytes * 8; omega)
        (by
          rintro ⟨ha, hb⟩
          simp at ha hb
          rcases Nat.eq_zero_or_pos k with hk0 | hk0
          · simp [hk0] at hb
          · omega)
        (by show u16 _ < 65536; exact u16_lt _)
      have hmod : (8 * i + k) % 8 = k := by omega
      have hidx : bodyIdx (8 * i + k) = i := by unfold bodyIdx; omega
      rw [hstep, Prod.mk.injEq]
      refine ⟨?_, ?_⟩
      · show srcBit (u8 (s.body (bodyIdx (8 * i + k)))) ((8 * i + k) % 8) =
          u8 (s.body i) / 2 ^ (7 - k) % 2
        rw [hidx, hmod, srcBit_eq _ k hxlt hk]
      · ext
        all_goals try rfl
        show u16 (u16 (s.rchkbits + onesByte (u8 (s.body i) / 2 ^ (8 - k))) +
            srcBit (u8 (s.body (bodyIdx (8 * i + k)))) ((8 * i + k) % 8)) =
          u16 (s.rchkbits + onesByte (u8 (s.body i) / 2 ^ (8 - (k + 1))))
        rw [hidx, hmod, srcBit_eq _ k hxlt hk]
        simp only [u16, Nat.mod_add_mod]
        rw [Nat.add_assoc, ← onesByte_step _ k hxlt hk])
  have hf0 : ({ s with rlongsent := true } : MZState) =
      { s with rlongsent := if 0 = 0 then true else false,
               rsecbits := 8 * i + 0,
               rchkbits := u16 (s.rchkbits +
                 onesByte (u8 (s.body i) / 2 ^ (8 - 0))) } := by
    ext <;> simp [hs, Nat.div_eq_of_lt hxlt, onesByte_zero, u16,
      Nat.mod_eq_of_lt hchk]
  have h9 : (9 : Nat) = 1 + 8 := by decide
  rw [h9, rrun_append, rrun_one, hsync]
  simp only []
  rw [hf0, hfam, Prod.ext_iff]
  refine ⟨?_, ?_⟩
  · simp [encByte, bits8, LONGPULSE]
  · show ({ s with
        rlongsent := (if 8 = 0 then true else false),
        rsecbits := 8 * i + 8,
        rchkbits := u16 (s.rchkbits +
          onesByte (u8 (s.body i) / 2 ^ (8 - 8))) } : MZState) = _
    ext <;> simp

lemma rrun_body_upto (s : MZState) (h8 : s.crstate = 8)
    (hl : s.rlongsent = false) (hs : s.rsecbits = 0) (hchk : s.rchkbits = 0) :
    ∀ j, j ≤ s.rbodybytes →
    rrun (9 * j) s = (encBytes s.body j,
      { s with rlongsent := false, rsecbits := 8 * j,
               rchkbits := u16 (chkSum s.body j) }) := by
  intro j
  induction j with
  | zero =>
    intro _
    simp only [Nat.mul_zero, rrun, encBytes]
    rw [Prod.mk.injEq]
    refine ⟨rfl, ?_⟩
    ext <;> simp [hl, hs, hchk, u16, chkSum]
  | succ j ih =>
    intro hj2
    have hbyte := rrun_body_byte
      { s with rlongsent := false, rsecbits := 8 * j,
               rchkbits := u16 (chkSum s.body j) } j
      (by simp [h8]) (by simp) (by simp) (by simp; omega) (by simp [u16_lt])
    have h9j : 9 * (j + 1) = 9 * j + 9 := by omega
    rw [h9j, rrun_append, ih (by omega)]
    simp only []
    rw [hbyte, Prod.mk.injEq]
    refine ⟨rfl, ?_⟩
    ext <;> simp [chkSum, u16, Nat.mod_add_mod]
    omega

lemma rrun_prestop (s : MZState) (h0 : s.crstate = 0)
    (hc0 : s.rchecksum0 = 0) (hc1 : s.rchecksum1 = 0) :
    rrun (1551 + 9 * decodeLen s.header) s =
      (preamblePulses ++ encBytes s.header 128 ++
       encBytes (chkBytes (hchk s.header)) 2 ++ bodyPrePulses ++
       encBytes s.body (decodeLen s.header) ++
       encBytes (chkBytes (bchk s.header s.body)) 2,
       { s with rchecksum0 := bchk s.header s.body / 256 % 256,
                rchecksum1 := bchk s.header s.body % 256, rchkbits := 0,
                rlongsent := false, rsecbits := 16, crstate := 9,
                rbodybytes := decodeLen s.header }) := by
  -- body checksum section
  have p6 : rrun 18
      { s with rchecksum0 := hchk s.header / 256 % 256,
               rchecksum1 := hchk s.header % 256, rchkbits :=
                 u16 (chkSum s.body (decodeLen s.header)),
               rlongsent := false, rsecbits := 0, crstate := 9,
               rbodybytes := decodeLen s.header } =
      (encBytes (chkBytes (bchk s.header s.body)) 2,
       { s with rchecksum0 := bchk s.header s.body / 256 % 256,
                rchecksum1 := bchk s.header s.body % 256, rchkbits := 0,
                rlongsent := false, rsecbits := 16, crstate := 9,
                rbodybytes := decodeLen s.header }) := by
    have hlt : hchk s.header < 65536 := u16_lt _
    have := rrun_chk9
      { s with rchecksum0 := hchk s.header / 256 % 256,
               rchecksum1 := hchk s.header % 256, rchkbits :=
                 u16 (chkSum s.body (decodeLen s.header)),
               rlongsent := false, rsecbits := 0, crstate := 9,
               rbodybytes := decodeLen s.header }
      (bchk s.header s.body)
      (by simp) (by simp) (by simp)
      (by show hchk s.header / 256 % 256 < 256; omega)
      (by show hchk s.header % 256 < 256; omega)
      (by show u16 _ < 65536; exact u16_lt _)
      (by
        show bchk s.header s.body =
          if u16 (chkSum s.body (decodeLen s.header)) = 0 then
            hchk s.header / 256 % 256 * 256 + hchk s.header % 256
          else u16 (chkSum s.body (decodeLen s.header))
        unfold bchk
        rcases eq_or_ne (u16 (chkSum s.body (decodeLen s.header))) 0 with
          hz | hz
        · rw [if_pos hz, if_pos hz]
          omega
        · rw [if_neg hz, if_neg hz])
    rw [this, Prod.mk.injEq]
    exact ⟨rfl, by ext <;> rfl⟩
  -- boundary: end of body falls through into state 9
  have hb6 : creadFSM
      { s with rchecksum0 := hchk s.header / 256 % 256,
               rchecksum1 := hchk s.header % 256, rchkbits :=
                 u16 (chkSum s.body (decodeLen s.header)),
               rlongsent := false, rsecbits := 8 * decodeLen s.header,
               crstate := 8, rbodybytes := decodeLen s.header } =
      creadFSM
      { s with rchecksum0 := hchk s.header / 256 % 256,
               rchecksum1 := hchk s.header % 256, rchkbits :=
                 u16 (chkSum s.body (decodeLen s.header)),
               rlongsent := false, rsecbits := 0, crstate := 9,
               rbodybytes := decodeLen s.header } := by
    rw [rstep8_fin _ (by simp)
        (by show ¬ 8 * decodeLen s.header < decodeLen s.header * 8; omega),
        rstep9_entry _ (by simp)]
  -- body bytes section
  have p5 : rrun (9 * decodeLen s.header)
      { s with rchecksum0 := hchk s.header / 256 % 256,
               rchecksum1 := hchk s.header % 256, rchkbits := 0,
               rlongsent := false, rsecbits := 0, crstate := 8,
               rbodybytes := decodeLen s.header } =
      (encBytes s.body (decodeLen s.header),
       { s with rchecksum0 := hchk s.header / 256 % 256,
                rchecksum1 := hchk s.header % 256, rchkbits :=
                  u16 (chkSum s.body (decodeLen s.header)),
                rlongsent := false, rsecbits := 8 * decodeLen s.header,
                crstate := 8, rbodybytes := decodeLen s.header }) := by
    have := rrun_body_upto
      { s with rchecksum0 := hchk s.header / 256 % 256,
               rchecksum1 := hchk s.header % 256, rchkbits := 0,
               rlongsent := false, rsecbits := 0, crstate := 8,
               rbodybytes := decodeLen s.header }
      (by simp) (by simp) (by simp) (by simp)
      (decodeLen s.header) (by simp)
    rw [this, Prod.mk.injEq]
    exact ⟨rfl, by ext <;> rfl⟩
  -- boundary: end of the body preamble computes the body length and
  -- falls through into state 8
  have hb5 : creadFSM
      { s with rchecksum0 := hchk s.header / 256 % 256,
               rchecksum1 := hchk s.header % 256, rchkbits := 0,
               rlongsent := false, rsecbits := 162, crstate := 7 } =
      creadFSM
      { s with rchecksum0 := hchk s.header / 256 % 256,
               rchecksum1 := hchk s.header % 256, rchkbits := 0,
               rlongsent := false, rsecbits := 0, crstate := 8,
               rbodybytes := decodeLen s.header } := by
    rw [rstep7_fin _ (by simp)
        (by show L_L + RSGAP_L + STM_L + L_L ≤ 162; decide),
        rstep8_entry _ (by simp)]
  -- body preamble section
  have p4 : rrun 162
      { s with rchecksum0 := hchk s.header / 256 % 256,
               rchecksum1 := hchk s.header % 256, rchkbits := 0,
               rlongsent := false, rsecbits := 0, crstate := 7 } =
      (bodyPrePulses,
       { s with rchecksum0 := hchk s.header / 256 % 256,
                rchecksum1 := hchk s.header % 256, rchkbits := 0,
                rlongsent := false, rsecbits := 162, crstate := 7 }) := by
    rw [rrun_bodypre _ (by simp) (by simp), Prod.mk.injEq]
    exact ⟨rfl, by ext <;> rfl⟩
  -- boundary: end of the header checksum falls through into state 7
  have hb4 : creadFSM
      { s with rchecksum0 := hchk s.header / 256 % 256,
               rchecksum1 := hchk s.header % 256, rchkbits := 0,
               rlongsent := false, rsecbits := 16, crstate := 3 } =
      creadFSM
      { s with rchecksum0 := hchk s.header / 256 % 256,
               rchecksum1 := hchk s.header % 256, rchkbits := 0,
               rlongsent := false, rsecbits := 0, crstate := 7 } := by
    rw [rstep3_fin _ (by simp) (by show ¬ (16 < CHK_L); decide),
        rstep7_entry _ (by simp)]
  -- header checksum section
  have p3 : rrun 18
      { s with rchkbits := hchk s.header, rlongsent := false,
               rsecbits := 0, crstate := 3 } =
      (encBytes (chkBytes (hchk s.header)) 2,
       { s with rchecksum0 := hchk s.header / 256 % 256,
                rchecksum1 := hchk s.header % 256, rchkbits := 0,
                rlongsent := false, rsecbits := 16, crstate := 3 }) := by
    have := rrun_chk3
      { s with rchkbits := hchk s.header, rlongsent := false,
               rsecbits := 0, crstate := 3 }
      (hchk s.header)
      (by simp) (by simp) (by simp)
      (by show s.rchecksum0 < 256; omega)
      (by show s.rchecksum1 < 256; omega)
      (by show hchk s.header < 65536; exact u16_lt _)
      (by
        show hchk s.header =
          if hchk s.header = 0 then s.rchecksum0 * 256 + s.rchecksum1
          else hchk s.header
        rcases eq_or_ne (hchk s.header) 0 with hz | hz
        · rw [if_pos hz, hz, hc0, hc1]
        · rw [if_neg hz])
    rw [this, Prod.mk.injEq]
    exact ⟨rfl, by ext <;> rfl⟩
  -- boundary: end of the header falls through into state 3
  have hb3 : creadFSM
      { s with rchkbits := hchk s.header, rlongsent := false,
               rsecbits := 1024, crstate := 2 } =
      creadFSM
      { s with rchkbits := hchk s.header, rlongsent := false,
               rsecbits := 0, crstate := 3 } := by
    rw [rstep2_fin _ (by simp) (by show ¬ (1024 < HDR_L); decide),
        rstep3_entry _ (by simp)]
  -- header bytes section
  have p2 : rrun (9 * 128)
      { s with rchkbits := 0, rlongsent := false, rsecbits := 0,
               crstate := 2 } =
      (encBytes s.header 128,
       { s with rchkbits := hchk s.header, rlongsent := false,
                rsecbits := 1024, crstate := 2 }) := by
    have := rrun_hdr_upto
      { s with rchkbits := 0, rlongsent := false, rsecbits := 0,
               crstate := 2 }
      (by simp) (by simp) (by simp) (by simp) 128 (by omega)
    rw [this, Prod.mk.injEq]
    exact ⟨rfl, by ext <;> rfl⟩
  -- header preamble section
  have p1 : rrun 201
      { s with rsecbits := 0, rchkbits := 0, rlongsent := false,
               crstate := 1 } =
      (preamblePulses,
       { s with rchkbits := 0, rlongsent := false, rsecbits := 0,
                crstate := 2 }) := by
    rw [rrun_preamble _ (by simp) (by simp), Prod.mk.injEq]
    exact ⟨rfl, by ext <;> rfl⟩
  -- chain all sections together, tail first
  have t5 := rrun_append_eq (9 * decodeLen s.header) 18 _ _ _ _ _ p5
    ((rrun_congr _ _ hb6 18 (by omega)).trans p6)
  have t4 := rrun_append_eq 162 (9 * decodeLen s.header + 18) _ _ _ _ _
    p4 ((rrun_congr _ _ hb5 _ (by omega)).trans t5)
  have t3 := rrun_append_eq 18 (162 + (9 * decodeLen s.header + 18))
    _ _ _ _ _ p3 ((rrun_congr _ _ hb4 _ (by omega)).trans t4)
  have t2 := rrun_append_eq (9 * 128)
    (18 + (162 + (9 * decodeLen s.header + 18))) _ _ _ _ _ p2
    ((rrun_congr _ _ hb3 _ (by omega)).trans t3)
  have t1 := rrun_append_eq 201
    (9 * 128 + (18 + (162 + (9 * decodeLen s.header + 18))))
    _ _ _ _ _ p1 t2
  have t0 := (rrun_congr s _ (rstep0_eq s h0)
    (201 + (9 * 128 + (18 + (162 + (9 * decodeLen s.header + 18)))))
    (by omega)).trans t1
  have e1 : 1551 + 9 * decodeLen s.header =
      201 + (9 * 128 + (18 + (162 + (9 * decodeLen s.header + 18)))) :=
    by omega
  rw [e1, t0, Prod.mk.injEq]
  refine ⟨?_, rfl⟩
  simp [List.append_assoc]

lemma rrun_stop (s : MZState) (h9 : s.crstate = 9)
    (hs : ¬ s.rsecbits < CHK_L) :
    rrun 1 s = ([1], reset_tape { s with rsecbits := 0, hilo := 0 }) := by
  rw [rrun_one, rstep9_fin s h9 hs, creadS13_eval, Prod.mk.injEq]
  exact ⟨rfl, by ext <;> rfl⟩

lemma rrun_cycle (s : MZState) (h0 : s.crstate = 0)
    (hc0 : s.rchecksum0 = 0) (hc1 : s.rchecksum1 = 0) :
    rrun (1552 + 9 * decodeLen s.header) s =
      (tapePulses s.header s.body,
       { s with crstate := 0, cwstate := 0, cmotor := 0, csense := 0,
                hilo := 0, rchkbits := 0, rlongsent := false, rsecbits := 0,
                rbodybytes := decodeLen s.header,
                rchecksum0 := bchk s.header s.body / 256 % 256,
                rchecksum1 := bchk s.header s.body % 256 }) := by
  have hstop := rrun_stop
    { s with rchecksum0 := bchk s.header s.body / 256 % 256,
             rchecksum1 := bchk s.header s.body % 256, rchkbits := 0,
             rlongsent := false, rsecbits := 16, crstate := 9,
             rbodybytes := decodeLen s.header }
    (by simp) (by show ¬ (16 < CHK_L); decide)
  have hcomb := rrun_append_eq (1551 + 9 * decodeLen s.header) 1 _ _ _ _ _
    (rrun_prestop s h0 hc0 hc1) hstop
  have e1 : 1552 + 9 * decodeLen s.header =
      1551 + 9 * decodeLen s.header + 1 := by omega
  rw [e1, hcomb, Prod.mk.injEq]
  constructor
  · show _ = tapePulses s.header s.body
    rfl
  · ext <;> rfl

lemma frame_s13 (x : MZState) :
    (creadS13 x).2.crstate = 0 ∧ (creadS13 x).2.cmotor = 0 ∧
    (creadS13 x).2.cwstate = 0 ∧ (creadS13 x).2.hilo = 0 := by
  rw [creadS13_eval]
  exact ⟨rfl, rfl, rfl, rfl⟩

lemma frame_s9 (t : MZState) :
    ((creadS9 t).2.crstate = 0 ∧ (creadS9 t).2.cmotor = 0 ∧
     (creadS9 t).2.cwstate = 0 ∧ (creadS9 t).2.hilo = 0) ∨
    ((creadS9 t).2.crstate ≠ 0 ∧ (creadS9 t).2.cmotor = t.cmotor ∧
     (creadS9 t).2.cwstate = t.cwstate ∧ (creadS9 t).2.hilo = t.hilo) := by
  unfold creadS9
  dsimp only
  split_ifs <;> first
    | exact Or.inl (frame_s13 _)
    | (right; simp_all)

lemma frame_s8 (t : MZState) :
    ((creadS8 t).2.crstate = 0 ∧ (creadS8 t).2.cmotor = 0 ∧
     (creadS8 t).2.cwstate = 0 ∧ (creadS8 t).2.hilo = 0) ∨
    ((creadS8 t).2.crstate ≠ 0 ∧ (creadS8 t).2.cmotor = t.cmotor ∧
     (creadS8 t).2.cwstate = t.cwstate ∧ (creadS8 t).2.hilo = t.hilo) := by
  by_cases h : t.crstate = 8
  · by_cases hlt : t.rsecbits < t.rbodybytes * 8
    · by_cases hd : t.rsecbits % 8 = 0 ∧ t.rlongsent = false
      · right; simp [creadS8, h, hlt, hd]
      · by_cases hb :
            srcBit (u8 (t.body (bodyIdx t.rsecbits))) (t.rsecbits % 8) = 1
        · right; simp [creadS8, h, hlt, hd, hb]
        · right; simp [creadS8, h, hlt, hd, hb]
    · have he : creadS8 t = creadS9 { t with rsecbits := 0, crstate := 9 } := by
        unfold creadS8
        rw [if_pos h, if_neg hlt]
      rw [he]
      exact frame_s9 _
  · have he : creadS8 t = creadS9 t := by
      unfold creadS8
      rw [if_neg h]
    rw [he]
    exact frame_s9 _

lemma frame_s7 (t : MZState) :
    ((creadS7 t).2.crstate = 0 ∧ (creadS7 t).2.cmotor = 0 ∧
     (creadS7 t).2.cwstate = 0 ∧ (creadS7 t).2.hilo = 0) ∨
    ((creadS7 t).2.crstate ≠ 0 ∧ (creadS7 t).2.cmotor = t.cmotor ∧
     (creadS7 t).2.cwstate = t.cwstate ∧ (creadS7 t).2.hilo = t.hilo) := by
  unfold creadS7
  split_ifs <;> first
    | exact frame_s8 _
    | (right; simp_all)

lemma frame_s3 (t : MZState) :
    ((creadS3 t).2.crstate = 0 ∧ (creadS3 t).2.cmotor = 0 ∧
     (creadS3 t).2.cwstate = 0 ∧ (creadS3 t).2.hilo = 0) ∨
    ((creadS3 t).2.crstate ≠ 0 ∧ (creadS3 t).2.cmotor = t.cmotor ∧
     (creadS3 t).2.cwstate = t.cwstate ∧ (creadS3 t).2.hilo = t.hilo) := by
  unfold creadS3
  dsimp only
  split_ifs <;> first
    | exact frame_s7 _
    | (right; simp_all)

lemma frame_s2 (t : MZState) :
    ((creadS2 t).2.crstate = 0 ∧ (creadS2 t).2.cmotor = 0 ∧
     (creadS2 t).2.cwstate = 0 ∧ (creadS2 t).2.hilo = 0) ∨
    ((creadS2 t).2.crstate ≠ 0 ∧ (creadS2 t).2.cmotor = t.cmotor ∧
     (creadS2 t).2.cwstate = t.cwstate ∧ (creadS2 t).2.hilo = t.hilo) := by
  by_cases h : t.crstate = 2
  · by_cases hlt : t.rsecbits < HDR_L
    · by_cases hd : t.rsecbits % 8 = 0 ∧ t.rlongsent = false
      · right; simp [creadS2, h, hlt, hd]
      · by_cases hb :
            srcBit (u8 (t.header (bodyIdx t.rsecbits))) (t.rsecbits % 8) = 1
        · right; simp [creadS2, h, hlt, hd, hb]
        · right; simp [creadS2, h, hlt, hd, hb]
    · have he : creadS2 t = creadS3 { t with rsecbits := 0, crstate := 3 } := by
        unfold creadS2
        rw [if_pos h, if_neg hlt]
      rw [he]
      exact frame_s3 _
  · have he : creadS2 t = creadS3 t := by
      unfold creadS2
      rw [if_neg h]
    rw [he]
    exact frame_s3 _

lemma frame_s1 (t : MZState) :
    ((creadS1 t).2.crstate = 0 ∧ (creadS1 t).2.cmotor = 0 ∧
     (creadS1 t).2.cwstate = 0 ∧ (creadS1 t).2.hilo = 0) ∨
    ((creadS1 t).2.crstate ≠ 0 ∧ (creadS1 t).2.cmotor = t.cmotor ∧
     (creadS1 t).2.cwstate = t.cwstate ∧ (creadS1 t).2.hilo = t.hilo) := by
  unfold creadS1
  split_ifs <;> first
    | exact frame_s2 _
    | (right; simp_all)

lemma hilo_s13 (t : MZState) (hm : Nat) :
    creadS13 { t with hilo := hm } =
      ((creadS13 t).1,
       if (creadS13 t).2.crstate = 0 then (creadS13 t).2
       else { (creadS13 t).2 with hilo := hm }) := by
  rw [creadS13_eval, creadS13_eval,
      if_pos (show (reset_tape { t with hilo := 0 }).crstate = 0 from rfl)]

lemma hilo_s9 (t : MZState) (hm : Nat) :
    creadS9 { t with hilo := hm } =
      ((creadS9 t).1,
       if (creadS9 t).2.crstate = 0 then (creadS9 t).2
       else { (creadS9 t).2 with hilo := hm }) := by
  by_cases h : t.crstate = 9
  · by_cases hlt : t.rsecbits < CHK_L
    · by_cases hc : t.rsecbits = 0 ∧ t.rchkbits > 0
      · by_cases hd : t.rsecbits % 8 = 0 ∧ t.rlongsent = false
        · simp_all [creadS9, CHK_L, bodyIdx]
        · by_cases hb : srcBit (if bodyIdx t.rsecbits = 0 then
              t.rchkbits / 256 % 256 else t.rchkbits % 256)
              (t.rsecbits % 8) = 1
          · simp_all [creadS9, CHK_L, bodyIdx]
          · simp_all [creadS9, CHK_L, bodyIdx]
      · by_cases hd : t.rsecbits % 8 = 0 ∧ t.rlongsent = false
        · simp [creadS9, h, hlt, hc, hd]
        · by_cases hb : srcBit (if bodyIdx t.rsecbits = 0 then
              t.rchecksum0 else t.rchecksum1) (t.rsecbits % 8) = 1
          · simp [creadS9, h, hlt, hc, hd, hb]
          · simp [creadS9, h, hlt, hc, hd, hb]
    · have he : ∀ x : MZState, x.crstate = 9 → ¬ x.rsecbits < CHK_L →
          creadS9 x = creadS13 { x with rsecbits := 0, crstate := 13 } :=
        fun x hx hl => by
          unfold creadS9
          rw [if_pos hx, if_neg hl]
      rw [he { t with hilo := hm } (by simp [h]) (by simp [hlt]), he t h hlt]
      exact hilo_s13 { t with rsecbits := 0, crstate := 13 } hm
  · have he : ∀ x : MZState, ¬ x.crstate = 9 → creadS9 x = creadS13 x :=
      fun x hx => by
        unfold creadS9
        rw [if_neg hx]
    rw [he { t with hilo := hm } (by simp [h]), he t h]
    exact hilo_s13 t hm

lemma hilo_s8 (t : MZState) (hm : Nat) :
    creadS8 { t with hilo := hm } =
      ((creadS8 t).1,
       if (creadS8 t).2.crstate = 0 then (creadS8 t).2
       else { (creadS8 t).2 with hilo := hm }) := by
  by_cases h : t.crstate = 8
  · by_cases hlt : t.rsecbits < t.rbodybytes * 8
    · by_cases hd : t.rsecbits % 8 = 0 ∧ t.rlongsent = false
      · simp [creadS8, h, hlt, hd]
      · by_cases hb :
            srcBit (u8 (t.body (bodyIdx t.rsecbits))) (t.rsecbits % 8) = 1
        · simp [creadS8, h, hlt, hd, hb]
        · simp [creadS8, h, hlt, hd, hb]
    · have he : ∀ x : MZState, x.crstate = 8 → ¬ x.rsecbits < x.rbodybytes * 8 →
          creadS8 x = creadS9 { x with rsecbits := 0, crstate := 9 } :=
        fun x hx hl => by
          unfold creadS8
          rw [if_pos hx, if_neg hl]
      rw [he { t with hilo := hm } (by simp [h]) (by simp [hlt]), he t h hlt]
      exact hilo_s9 { t with rsecbits := 0, crstate := 9 } hm
  · have he : ∀ x : MZState, ¬ x.crstate = 8 → creadS8 x = creadS9 x :=
      fun x hx => by
        unfold creadS8
        rw [if_neg hx]
    rw [he { t with hilo := hm } (by simp [h]), he t h]
    exact hilo_s9 t hm

lemma hilo_s7 (t : MZState) (hm : Nat) :
    creadS7 { t with hilo := hm } =
      ((creadS7 t).1,
       if (creadS7 t).2.crstate = 0 then (creadS7 t).2
       else { (creadS7 t).2 with hilo := hm }) := by
  by_cases h : t.crstate = 7
  · by_cases c1 : t.rsecbits < L_L
    · simp [creadS7, h, c1]
    · by_cases c2 : t.rsecbits < L_L + RSGAP_L
      · simp [creadS7, h, c1, c2]
      · by_cases c3 : t.rsecbits < L_L + RSGAP_L + STM_L / 2
        · simp [creadS7, h, c1, c2, c3]
        · by_cases c4 : t.rsecbits < L_L + RSGAP_L + STM_L
          · simp [creadS7, h, c1, c2, c3, c4]
          · by_cases c5 : t.rsecbits < L_L + RSGAP_L + STM_L + L_L
            · simp [creadS7, h, c1, c2, c3, c4, c5]
            · have he : ∀ x : MZState, x.crstate = 7 →
                  ¬ x.rsecbits < L_L → ¬ x.rsecbits < L_L + RSGAP_L →
                  ¬ x.rsecbits < L_L + RSGAP_L + STM_L / 2 →
                  ¬ x.rsecbits < L_L + RSGAP_L + STM_L →
                  ¬ x.rsecbits < L_L + RSGAP_L + STM_L + L_L →
                  creadS7 x = creadS8 { x with
                    rsecbits := 0,
                    rbodybytes := decodeLen x.header,
                    crstate := 8 } :=
                fun x hx h1 h2 h3 h4 h5 => by
                  unfold creadS7
                  rw [if_pos hx, if_neg h1, if_neg h2, if_neg h3, if_neg h4,
                      if_neg h5]
              rw [he { t with hilo := hm } (by simp [h]) (by simp [c1])
                    (by simp [c2]) (by simp [c3]) (by simp [c4])
                    (by simp [c5]),
                  he t h c1 c2 c3 c4 c5]
              exact hilo_s8 { t with
                rsecbits := 0,
                rbodybytes := decodeLen t.header,
                crstate := 8 } hm
  · have he : ∀ x : MZState, ¬ x.crstate = 7 → creadS7 x = creadS8 x :=
      fun x hx => by
        unfold creadS7
        rw [if_neg hx]
    rw [he { t with hilo := hm } (by simp [h]), he t h]
    exact hilo_s8 t hm

lemma hilo_s3 (t : MZState) (hm : Nat) :
    creadS3 { t with hilo := hm } =
      ((creadS3 t).1,
       if (creadS3 t).2.crstate = 0 then (creadS3 t).2
       else { (creadS3 t).2 with hilo := hm }) := by
  by_cases h : t.crstate = 3
  · by_cases hlt : t.rsecbits < CHK_L
    · by_cases hc : t.rsecbits = 0 ∧ t.rchkbits > 0
      · by_cases hd : t.rsecbits % 8 = 0 ∧ t.rlongsent = false
        · simp_all [creadS3, CHK_L, bodyIdx]
        · by_cases hb : srcBit (if bodyIdx t.rsecbits = 0 then
              t.rchkbits / 256 % 256 else t.rchkbits % 256)
              (t.rsecbits % 8) = 1
          · simp_all [creadS3, CHK_L, bodyIdx]
          · simp_all [creadS3, CHK_L, bodyIdx]
      · by_cases hd : t.rsecbits % 8 = 0 ∧ t.rlongsent = false
        · simp [creadS3, h, hlt, hc, hd]
        · by_cases hb : srcBit (if bodyIdx t.rsecbits = 0 then
              t.rchecksum0 else t.rchecksum1) (t.rsecbits % 8) = 1
          · simp [creadS3, h, hlt, hc, hd, hb]
          · simp [creadS3, h, hlt, hc, hd, hb]
    · have he : ∀ x : MZState, x.crstate = 3 → ¬ x.rsecbits < CHK_L →
          creadS3 x = creadS7 { x with rsecbits := 0, crstate := 7 } :=
        fun x hx hl => by
          unfold creadS3
          rw [if_pos hx, if_neg hl]
      rw [he { t with hilo := hm } (by simp [h]) (by simp [hlt]), he t h hlt]
      exact hilo_s7 { t with rsecbits := 0, crstate := 7 } hm
  · have he : ∀ x : MZState, ¬ x.crstate = 3 → creadS3 x = creadS7 x :=
      fun x hx => by
        unfold creadS3
        rw [if_neg hx]
    rw [he { t with hilo := hm } (by simp [h]), he t h]
    exact hilo_s7 t hm

lemma hilo_s2 (t : MZState) (hm : Nat) :
    creadS2 { t with hilo := hm } =
      ((creadS2 t).1,
       if (creadS2 t).2.crstate = 0 then (creadS2 t).2
       else { (creadS2 t).2 with hilo := hm }) := by
  by_cases h : t.crstate = 2
  · by_cases hlt : t.rsecbits < HDR_L
    · by_cases hd : t.rsecbits % 8 = 0 ∧ t.rlongsent = false
      · simp [creadS2, h, hlt, hd]
      · by_cases hb :
            srcBit (u8 (t.header (bodyIdx t.rsecbits))) (t.rsecbits % 8) = 1
        · simp [creadS2, h, hlt, hd, hb]
        · simp [creadS2, h, hlt, hd, hb]
    · have he : ∀ x : MZState, x.crstate = 2 → ¬ x.rsecbits < HDR_L →
          creadS2 x = creadS3 { x with rsecbits := 0, crstate := 3 } :=
        fun x hx hl => by
          unfold creadS2
          rw [if_pos hx, if_neg hl]
      rw [he { t with hilo := hm } (by simp [h]) (by simp [hlt]), he t h hlt]
      exact hilo_s3 { t with rsecbits := 0, crstate := 3 } hm
  · have he : ∀ x : MZState, ¬ x.crstate = 2 → creadS2 x = creadS3 x :=
      fun x hx => by
        unfold creadS2
        rw [if_neg hx]
    rw [he { t with hilo := hm } (by simp [h]), he t h]
    exact hilo_s3 t hm

lemma hilo_s1 (t : MZState) (hm : Nat) :
    creadS1 { t with hilo := hm } =
      ((creadS1 t).1,
       if (creadS1 t).2.crstate = 0 then (creadS1 t).2
       else { (creadS1 t).2 with hilo := hm }) := by
  by_cases h : t.crstate = 1
  · by_cases c1 : t.rsecbits < RBGAP_L
    · simp [creadS1, h, c1]
    · by_cases c2 : t.rsecbits < RBGAP_L + BTM_L / 2
      · simp [creadS1, h, c1, c2]
      · by_cases c3 : t.rsecbits < RBGAP_L + BTM_L
        · simp [creadS1, h, c1, c2, c3]
        · simp [creadS1, h, c1, c2, c3]
  · have he : ∀ x : MZState, ¬ x.crstate = 1 → creadS1 x = creadS2 x :=
      fun x hx => by
        unfold creadS1
        rw [if_neg hx]
    rw [he { t with hilo := hm } (by simp [h]), he t h]
    exact hilo_s2 t hm

lemma creadFSM_hilo (t : MZState) (hm : Nat) :
    creadFSM { t with hilo := hm } =
      ((creadFSM t).1,
       if (creadFSM t).2.crstate = 0 then (creadFSM t).2
       else { (creadFSM t).2 with hilo := hm }) := by
  by_cases h0 : t.crstate = 0
  · rw [rstep0_eq { t with hilo := hm } (by simp [h0]), rstep0_eq t h0,
        rstepN_eq { t with
          hilo := hm,
          rsecbits := 0,
          rchkbits := 0,
          rlongsent := false,
          crstate := 1 } (by simp),
        rstepN_eq { t with
          rsecbits := 0,
          rchkbits := 0,
          rlongsent := false,
          crstate := 1 } (by simp)]
    exact hilo_s1 { t with
      rsecbits := 0,
      rchkbits := 0,
      rlongsent := false,
      crstate := 1 } hm
  · rw [rstepN_eq { t with hilo := hm } (by simp [h0]), rstepN_eq t h0]
    exact hilo_s1 t hm

lemma creadFSM_frame (t : MZState) :
    ((creadFSM t).2.crstate = 0 ∧ (creadFSM t).2.cmotor = 0 ∧
     (creadFSM t).2.cwstate = 0 ∧ (creadFSM t).2.hilo = 0) ∨
    ((creadFSM t).2.crstate ≠ 0 ∧ (creadFSM t).2.cmotor = t.cmotor ∧
     (creadFSM t).2.cwstate = t.cwstate ∧ (creadFSM t).2.hilo = t.hilo) := by
  unfold creadFSM
  by_cases h0 : t.crstate = 0
  · rw [if_pos h0]
    exact frame_s1 _
  · rw [if_neg h0]
    exact frame_s1 _

lemma rrun_snd_succ (m : Nat) (s : MZState) :
    (rrun (m + 1) s).2 = (creadFSM (rrun m s).2).2 := by
  rw [rrun_append m 1]
  rfl

lemma rrun_fst_succ (m : Nat) (s : MZState) :
    (rrun (m + 1) s).1 = (rrun m s).1 ++ [(creadFSM (rrun m s).2).1] := by
  rw [rrun_append m 1]
  rfl

lemma rrun_motor_succ (m : Nat) (s : MZState)
    (h : (rrun (m + 1) s).2.cmotor = 1) : (rrun m s).2.cmotor = 1 := by
  rw [rrun_snd_succ] at h
  rcases creadFSM_frame (rrun m s).2 with ⟨_, h2, _⟩ | ⟨_, h2, _⟩
  · rw [h2] at h
    exact absurd h (by decide)
  · rw [h2] at h
    exact h

lemma rrun_motor_back (s : MZState) (k : Nat) :
    ∀ d, (rrun (k + d) s).2.cmotor = 1 → (rrun k s).2.cmotor = 1 := by
  intro d
  induction d with
  | zero => exact fun h => h
  | succ e ih =>
    intro h
    have : k + (e + 1) = (k + e) + 1 := by omega
    rw [this] at h
    exact ih (rrun_motor_succ _ _ h)

lemma rrun_cw0 (s : MZState) (hw : s.cwstate = 0) :
    ∀ m, (rrun m s).2.cwstate = 0 := by
  intro m
  induction m with
  | zero => exact hw
  | succ e ih =>
    rw [rrun_snd_succ]
    rcases creadFSM_frame (rrun e s).2 with ⟨_, _, h3, _⟩ | ⟨_, _, h3, _⟩
    · exact h3
    · rw [h3]
      exact ih

lemma rrun_nonreset (m : Nat) (s : MZState)
    (h : (rrun (m + 1) s).2.cmotor = 1) :
    (creadFSM (rrun m s).2).2.crstate ≠ 0 := by
  rw [rrun_snd_succ] at h
  rcases creadFSM_frame (rrun m s).2 with ⟨_, h2, _⟩ | ⟨h1, _⟩
  · rw [h2] at h
    exact absurd h (by decide)
  · exact h1

lemma cread_call1 (R : MZState) (hm : R.cmotor = 1) (hw : R.cwstate = 0) :
    cread { R with hilo := 0 } = (1, { R with hilo := 1 }) := by
  simp [cread, hm, hw]

lemma cread_call2 (R : MZState) (hm : R.cmotor = 1) (hw : R.cwstate = 0) :
    cread { R with hilo := 1 } =
      ((creadFSM R).1,
       if (creadFSM R).2.crstate = 0 then (creadFSM R).2
       else { (creadFSM R).2 with hilo := 2 }) := by
  have h2 : cread { R with hilo := 1 } = creadFSM { R with hilo := 2 } := by
    simp [cread, hm, hw]
  rw [h2]
  exact creadFSM_hilo R 2

lemma cread_call3 (R : MZState) (hm : R.cmotor = 1) (hw : R.cwstate = 0) :
    cread { R with hilo := 2 } = (0, { R with hilo := 0 }) := by
  simp [cread, hm, hw]

lemma cread_triple (R : MZState) (hm : R.cmotor = 1) (hw : R.cwstate = 0)
    (hnr : (creadFSM R).2.crstate ≠ 0) :
    creadTrace 3 { R with hilo := 0 } = [1, (creadFSM R).1, 0] ∧
    creadSteps 3 { R with hilo := 0 } =
      { (creadFSM R).2 with hilo := 0 } := by
  have c1 := cread_call1 R hm hw
  have c2 := cread_call2 R hm hw
  rw [if_neg hnr] at c2
  have hm2 : (creadFSM R).2.cmotor = 1 := by
    rcases creadFSM_frame R with ⟨h1, _⟩ | ⟨_, h2', _⟩
    · exact absurd h1 hnr
    · rw [h2', hm]
  have hw2 : (creadFSM R).2.cwstate = 0 := by
    rcases creadFSM_frame R with ⟨_, _, h3, _⟩ | ⟨_, _, h3, _⟩
    · exact h3
    · rw [h3, hw]
  have c3 := cread_call3 (creadFSM R).2 hm2 hw2
  constructor
  · rw [show (3 : Nat) = 2 + 1 from rfl, creadTrace_succ, c1]
    simp only []
    rw [show (2 : Nat) = 1 + 1 from rfl, creadTrace_succ, c2]
    simp only []
    rw [creadTrace_succ, c3]
    rfl
  · show creadSteps 2 (cread { R with hilo := 0 }).2 = _
    rw [c1]
    show creadSteps 1 (cread { R with hilo := 1 }).2 = _
    rw [c2]
    show (cread { (creadFSM R).2 with hilo := 2 }).2 = _
    rw [c3]

lemma cread_triple_stop (R : MZState) (hm : R.cmotor = 1) (hw : R.cwstate = 0)
    (hr : (creadFSM R).2.crstate = 0) (hrm : (creadFSM R).2.cmotor = 0) :
    creadTrace 3 { R with hilo := 0 } = [1, (creadFSM R).1, 1] ∧
    creadSteps 3 { R with hilo := 0 } = (creadFSM R).2 := by
  have c1 := cread_call1 R hm hw
  have c2 := cread_call2 R hm hw
  rw [if_pos hr] at c2
  have c3 : cread (creadFSM R).2 = (1, (creadFSM R).2) := by
    unfold cread
    rw [if_pos hrm, if_pos hr]
    rfl
  constructor
  · rw [show (3 : Nat) = 2 + 1 from rfl, creadTrace_succ, c1]
    simp only []
    rw [show (2 : Nat) = 1 + 1 from rfl, creadTrace_succ, c2]
    simp only []
    rw [creadTrace_succ, c3]
    rfl
  · show creadSteps 2 (cread { R with hilo := 0 }).2 = _
    rw [c1]
    show creadSteps 1 (cread { R with hilo := 1 }).2 = _
    rw [c2]
    show (cread (creadFSM R).2).2 = _
    rw [c3]

lemma trace_frame3 (s : MZState) (hm : s.cmotor = 1) (hw : s.cwstate = 0) :
    ∀ m, (rrun m s).2.cmotor = 1 →
    creadTrace (3 * m) { s with hilo := 0 } = frame3 (rrun m s).1 ∧
    creadSteps (3 * m) { s with hilo := 0 } =
      { (rrun m s).2 with hilo := 0 } := by
  intro m
  induction m with
  | zero => exact fun _ => ⟨rfl, rfl⟩
  | succ e ih =>
    intro hmot
    have hRm : (rrun e s).2.cmotor = 1 := rrun_motor_succ e s hmot
    have hRw : (rrun e s).2.cwstate = 0 := rrun_cw0 s hw e
    have hnr := rrun_nonreset e s hmot
    obtain ⟨iht, ihs⟩ := ih hRm
    have htrip := cread_triple (rrun e s).2 hRm hRw hnr
    have e3 : 3 * (e + 1) = 3 * e + 3 := by omega
    constructor
    · rw [e3, creadTrace_add, iht, ihs, htrip.1, rrun_fst_succ,
          frame3_append]
      rfl
    · rw [e3, creadSteps_add, ihs, htrip.2, rrun_snd_succ]

lemma cread_emits (s : MZState) (h0 : s.crstate = 0) (hm : s.cmotor = 1)
    (hw : s.cwstate = 0) (hh : s.hilo = 0)
    (hc0 : s.rchecksum0 = 0) (hc1 : s.rchecksum1 = 0) :
    deframe (creadTrace (3 * (1552 + 9 * decodeLen s.header)) s) =
      tapePulses s.header s.body ∧
    creadSteps (3 * (1552 + 9 * decodeLen s.header)) s =
      { s with crstate := 0, cwstate := 0, cmotor := 0, csense := 0,
               hilo := 0, rchkbits := 0, rlongsent := false, rsecbits := 0,
               rbodybytes := decodeLen s.header,
               rchecksum0 := bchk s.header s.body / 256 % 256,
               rchecksum1 := bchk s.header s.body % 256 } := by
  have hpre := rrun_prestop s h0 hc0 hc1
  have hmot : (rrun (1551 + 9 * decodeLen s.header) s).2.cmotor = 1 := by
    rw [hpre]
    exact hm
  have hfr := trace_frame3 s hm hw (1551 + 9 * decodeLen s.header) hmot
  have hhilo0 : ({ s with hilo := 0 } : MZState) = s := by
    ext <;> simp [hh]
  rw [hhilo0] at hfr
  obtain ⟨ht1, hs1⟩ := hfr
  have hfsm : creadFSM
      { s with rchecksum0 := bchk s.header s.body / 256 % 256,
               rchecksum1 := bchk s.header s.body % 256, rchkbits := 0,
               rlongsent := false, rsecbits := 16, crstate := 9,
               rbodybytes := decodeLen s.header } =
      (1, { s with crstate := 0, cwstate := 0, cmotor := 0, csense := 0,
                   hilo := 0, rchkbits := 0, rlongsent := false,
                   rsecbits := 0, rbodybytes := decodeLen s.header,
                   rchecksum0 := bchk s.header s.body / 256 % 256,
                   rchecksum1 := bchk s.header s.body % 256 }) := by
    rw [rstep9_fin _ (by simp) (by show ¬ (16 < CHK_L); decide),
        creadS13_eval, Prod.mk.injEq]
    refine ⟨rfl, ?_⟩
    ext <;> first
      | rfl
      | (show _ = s.cmotor; rw [hm])
      | skip
    all_goals simp [reset_tape, hm, hw]
  have htrip := cread_triple_stop
      { s with rchecksum0 := bchk s.header s.body / 256 % 256,
               rchecksum1 := bchk s.header s.body % 256, rchkbits := 0,
               rlongsent := false, rsecbits := 16, crstate := 9,
               rbodybytes := decodeLen s.header }
      (by show s.cmotor = 1; exact hm) (by show s.cwstate = 0; exact hw)
      (by rw [hfsm]) (by rw [hfsm])
  have htrip1 : creadTrace 3
      { s with rchecksum0 := bchk s.header s.body / 256 % 256,
               rchecksum1 := bchk s.header s.body % 256, rchkbits := 0,
               rlongsent := false, rsecbits := 16, crstate := 9,
               rbodybytes := decodeLen s.header, hilo := 0 } = [1, 1, 1] := by
    have h1 := htrip.1
    rw [hfsm] at h1
    exact h1
  have htrip2 : creadSteps 3
      { s with rchecksum0 := bchk s.header s.body / 256 % 256,
               rchecksum1 := bchk s.header s.body % 256, rchkbits := 0,
               rlongsent := false, rsecbits := 16, crstate := 9,
               rbodybytes := decodeLen s.header, hilo := 0 } =
      { s with crstate := 0, cwstate := 0, cmotor := 0, csense := 0,
               hilo := 0, rchkbits := 0, rlongsent := false, rsecbits := 0,
               rbodybytes := decodeLen s.header,
               rchecksum0 := bchk s.header s.body / 256 % 256,
               rchecksum1 := bchk s.header s.body % 256 } := by
    have h2 := htrip.2
    rw [hfsm] at h2
    exact h2
  have e3 : 3 * (1552 + 9 * decodeLen s.header) =
      3 * (1551 + 9 * decodeLen s.header) + 3 := by omega
  constructor
  · rw [e3, creadTrace_add, ht1, hs1, hpre]
    show deframe
      (frame3 (preamblePulses ++ encBytes s.header 128 ++
        encBytes (chkBytes (hchk s.header)) 2 ++ bodyPrePulses ++
        encBytes s.body (decodeLen s.header) ++
        encBytes (chkBytes (bchk s.header s.body)) 2) ++
       creadTrace 3
        { s with rchecksum0 := bchk s.header s.body / 256 % 256,
                 rchecksum1 := bchk s.header s.body % 256, rchkbits := 0,
                 rlongsent := false, rsecbits := 16, crstate := 9,
                 rbodybytes := decodeLen s.header, hilo := 0 }) =
      tapePulses s.header s.body
    rw [htrip1, deframe_frame3_append]
    rfl
  · rw [e3, creadSteps_add, hs1, hpre]
    show creadSteps 3
      { s with rchecksum0 := bchk s.header s.body / 256 % 256,
               rchecksum1 := bchk s.header s.body % 256, rchkbits := 0,
               rlongsent := false, rsecbits := 16, crstate := 9,
               rbodybytes := decodeLen s.header, hilo := 0 } = _
    exact htrip2

/-! ## Per-pulse characterization of the writer FSM -/

lemma wstep0 (s : MZState) (h0 : s.cwstate = 0) :
    wfeedPulse s 0 =
      ({ s with crstate := 0, whightime := 0, wlowtime := 100,
                wlow := 1, whigh := 0, wsecbits := 1, cwstate := 1 },
       false) := by
  simp [wfeedPulse, cwrite, cwrite0, cwrite1, h0, classify, durOf, READPT,
        WBGAP_L, BTM_L, L_L]

lemma wstep1_zero (s : MZState) (h1 : s.cwstate = 1)
    (hlt : ¬ s.wsecbits = 22081) (hlt1 : ¬ s.wsecbits + 1 = 22081) :
    wfeedPulse s 0 =
      ({ s with whightime := 0, wlowtime := 100,
                wlow := s.wlow + 1, wsecbits := s.wsecbits + 1 }, false) := by
  simp [wfeedPulse, cwrite, cwrite1, h1, classify, durOf, READPT,
        WBGAP_L, BTM_L, L_L, hlt, hlt1]

lemma wstep1_one (s : MZState) (h1 : s.cwstate = 1)
    (hlt : ¬ s.wsecbits = 22081) (hlt1 : ¬ s.wsecbits + 1 = 22081) :
    wfeedPulse s 1 =
      ({ s with whightime := 0, wlowtime := 600,
                whigh := s.whigh + 1, wsecbits := s.wsecbits + 1 }, false) := by
  simp [wfeedPulse, cwrite, cwrite1, h1, classify, durOf, READPT,
        WBGAP_L, BTM_L, L_L, hlt, hlt1]

lemma wstep1_fin (s : MZState) (h1 : s.cwstate = 1)
    (hs : s.wsecbits = 22080) (hlow : s.wlow = 22040) :
    wfeedPulse s 1 =
      ({ s with whightime := 0, wlowtime := 600, cwstate := 2,
                wsecbits := 0, wlow := 0, whigh := 0, wchkbits := 0 },
       false) := by
  simp [wfeedPulse, cwrite, cwrite1, h1, classify, durOf, READPT,
        WBGAP_L, BTM_L, L_L, hs, hlow]

lemma wstep2_sync (s : MZState) (h2 : s.cwstate = 2)
    (hd : s.wsecbits % 8 = 0) (hl : s.wlongread = false)
    (hne : ¬ s.wsecbits = 1024) :
    wfeedPulse s 1 =
      ({ s with whightime := 0, wlowtime := 600,
                header := updf s.header (bodyIdx s.wsecbits) 0,
                wlongread := true }, false) := by
  simp [wfeedPulse, cwrite, cwrite2, h2, classify, durOf, READPT,
        HDR_L, hd, hl, hne]

lemma wstep2_bit (s : MZState) (p : Nat) (h2 : s.cwstate = 2)
    (hd : ¬ (s.wsecbits % 8 = 0 ∧ s.wlongread = false))
    (hne : ¬ s.wsecbits = 1024) (hne1 : ¬ s.wsecbits + 1 = 1024)
    (hp : p = 0 ∨ p = 1) :
    wfeedPulse s p =
      ({ s with whightime := 0, wlowtime := durOf p, wlongread := false,
                header := updf s.header (bodyIdx s.wsecbits)
                  (u8 (u8 (s.header (bodyIdx s.wsecbits)) * 2 + p)),
                wsecbits := s.wsecbits + 1,
                wchkbits := u16 (s.wchkbits + p) }, false) := by
  rcases hp with hp | hp <;> subst hp <;>
    simp [wfeedPulse, cwrite, cwrite2, h2, classify, durOf, READPT,
          HDR_L, hd, hne, hne1]

lemma wstep2_fin (s : MZState) (p : Nat) (h2 : s.cwstate = 2)
    (hd : ¬ (s.wsecbits % 8 = 0 ∧ s.wlongread = false))
    (hend : s.wsecbits + 1 = 1024) (hp : p = 0 ∨ p = 1) :
    wfeedPulse s p =
      ({ s with whightime := 0, wlowtime := durOf p,
                header := updf s.header (bodyIdx s.wsecbits)
                  (u8 (u8 (s.header (bodyIdx s.wsecbits)) * 2 + p)),
                wchkbits := u16 (s.wchkbits + p),
                cwstate := 3, wsecbits := 0, wlongread := false },
       false) := by
  have hne : ¬ s.wsecbits = 1024 := by omega
  rcases hp with hp | hp <;> subst hp <;>
    simp [wfeedPulse, cwrite, cwrite2, h2, classify, durOf, READPT,
          HDR_L, hd, hne, hend]

lemma wstep3_sync0 (s : MZState) (h3 : s.cwstate = 3)
    (hs : s.wsecbits = 0) (hl : s.wlongread = false) :
    wfeedPulse s 1 =
      ({ s with whightime := 0, wlowtime := 600,
                wchecksum0 := 0, wlongread := true }, false) := by
  simp [wfeedPulse, cwrite, cwrite3, h3, classify, durOf, READPT,
        CHK_L, bodyIdx, hs, hl]

lemma wstep3_sync1 (s : MZState) (h3 : s.cwstate = 3)
    (hs : s.wsecbits = 8) (hl : s.wlongread = false) :
    wfeedPulse s 1 =
      ({ s with whightime := 0, wlowtime := 600,
                wchecksum1 := 0, wlongread := true }, false) := by
  simp [wfeedPulse, cwrite, cwrite3, h3, classify, durOf, READPT,
        CHK_L, bodyIdx, hs, hl]

lemma wstep3_bit0 (s : MZState) (p : Nat) (h3 : s.cwstate = 3)
    (hidx : bodyIdx s.wsecbits = 0)
    (hd : ¬ (s.wsecbits % 8 = 0 ∧ s.wlongread = false))
    (hne1 : ¬ s.wsecbits + 1 = 16) (hp : p = 0 ∨ p = 1) :
    wfeedPulse s p =
      ({ s with whightime := 0, wlowtime := durOf p,
                wchecksum0 := u8 (u8 s.wchecksum0 * 2 + p),
                wlongread := false, wsecbits := s.wsecbits + 1 },
       false) := by
  have hne : ¬ s.wsecbits = 16 := by
    intro hx
    rw [hx] at hidx
    exact absurd hidx (by decide)
  rcases hp with hp | hp <;> subst hp <;>
    simp [wfeedPulse, cwrite, cwrite3, h3, classify, durOf, READPT,
          CHK_L, hidx, hd, hne, hne1]

lemma wstep3_bit1 (s : MZState) (p : Nat) (h3 : s.cwstate = 3)
    (hidx : ¬ bodyIdx s.wsecbits = 0)
    (hd : ¬ (s.wsecbits % 8 = 0 ∧ s.wlongread = false))
    (hne : ¬ s.wsecbits = 16) (hne1 : ¬ s.wsecbits + 1 = 16)
    (hp : p = 0 ∨ p = 1) :
    wfeedPulse s p =
      ({ s with whightime := 0, wlowtime := durOf p,
                wchecksum1 := u8 (u8 s.wchecksum1 * 2 + p),
                wlongread := false, wsecbits := s.wsecbits + 1 },
       false) := by
  rcases hp with hp | hp <;> subst hp <;>
    simp [wfeedPulse, cwrite, cwrite3, h3, classify, durOf, READPT,
          CHK_L, hidx, hd, hne, hne1]

lemma wstep3_fin (s : MZState) (p : Nat) (h3 : s.cwstate = 3)
    (hidx : ¬ bodyIdx s.wsecbits = 0)
    (hd : ¬ (s.wsecbits % 8 = 0 ∧ s.wlongread = false))
    (hend : s.wsecbits + 1 = 16) (hp : p = 0 ∨ p = 1) :
    wfeedPulse s p =
      ({ s with whightime := 0, wlowtime := durOf p,
                wchecksum1 := u8 (u8 s.wchecksum1 * 2 + p),
                wbodybytes := decodeLen s.header, cwstate := 4,
                wchkbits := 0, wsecbits := 0, wlongread := false },
       false) := by
  have hne : ¬ s.wsecbits = 16 := by omega
  rcases hp with hp | hp <;> subst hp <;>
    simp [wfeedPulse, cwrite, cwrite3, h3, classify, durOf, READPT,
          CHK_L, hidx, hd, hne, hend]

lemma wstep4 (s : MZState) (p : Nat) (h4 : s.cwstate = 4)
    (hne1 : ¬ s.wsecbits + 1 = 24938) (hne2 : ¬ s.wsecbits + 2 = 24938) :
    wfeedPulse s p = ({ s with wsecbits := s.wsecbits + 2 }, false) := by
  simp [wfeedPulse, cwrite, cwrite4, h4, SKIP_L, hne1, hne2]

lemma wstep4_fin (s : MZState) (p : Nat) (h4 : s.cwstate = 4)
    (hend : s.wsecbits + 2 = 24938) :
    wfeedPulse s p = ({ s with cwstate := 8, wsecbits := 0 }, false) := by
  have hne1 : ¬ s.wsecbits + 1 = 24938 := by omega
  simp [wfeedPulse, cwrite, cwrite4, h4, SKIP_L, hne1, hend]

lemma wstep8_sync (s : MZState) (h8 : s.cwstate = 8)
    (hd : s.wsecbits % 8 = 0) (hl : s.wlongread = false)
    (hne : ¬ s.wsecbits = s.wbodybytes * 8) :
    wfeedPulse s 1 =
      ({ s with whightime := 0, wlowtime := 600,
                body := updf s.body (bodyIdx s.wsecbits) 0,
                wlongread := true }, false) := by
  simp [wfeedPulse, cwrite, cwrite8, h8, classify, durOf, READPT,
        hd, hl, hne]

lemma wstep8_bit (s : MZState) (p : Nat) (h8 : s.cwstate = 8)
    (hd : ¬ (s.wsecbits % 8 = 0 ∧ s.wlongread = false))
    (hne : ¬ s.wsecbits = s.wbodybytes * 8)
    (hne1 : ¬ s.wsecbits + 1 = s.wbodybytes * 8) (hp : p = 0 ∨ p = 1) :
    wfeedPulse s p =
      ({ s with whightime := 0, wlowtime := durOf p, wlongread := false,
                body := updf s.body (bodyIdx s.wsecbits)
                  (u8 (u8 (s.body (bodyIdx s.wsecbits)) * 2 + p)),
                wsecbits := s.wsecbits + 1,
                wchkbits := u16 (s.wchkbits + p) }, false) := by
  rcases hp with hp | hp <;> subst hp <;>
    simp [wfeedPulse, cwrite, cwrite8, h8, classify, durOf, READPT,
          hd, hne, hne1]

lemma wstep8_fin (s : MZState) (p : Nat) (h8 : s.cwstate = 8)
    (hd : ¬ (s.wsecbits % 8 = 0 ∧ s.wlongread = false))
    (hend : s.wsecbits + 1 = s.wbodybytes * 8) (hp : p = 0 ∨ p = 1) :
    wfeedPulse s p =
      ({ s with whightime := 0, wlowtime := durOf p,
                body := updf s.body (bodyIdx s.wsecbits)
                  (u8 (u8 (s.body (bodyIdx s.wsecbits)) * 2 + p)),
                wchkbits := u16 (s.wchkbits + p),
                cwstate := 9, wsecbits := 0, wlongread := false },
       false) := by
  have hne : ¬ s.wsecbits = s.wbodybytes * 8 := by omega
  rcases hp with hp | hp <;> subst hp <;>
    simp [wfeedPulse, cwrite, cwrite8, h8, classify, durOf, READPT,
          hd, hne, hend]

lemma wstep8_empty (s : MZState) (h8 : s.cwstate = 8)
    (hz : s.wbodybytes = 0) (hs : s.wsecbits = 0) :
    wfeedPulse s 1 =
      ({ s with whightime := 0, wlowtime := 600, cwstate := 9,
                wsecbits := 0, wlongread := true, wchecksum0 := 0 },
       false) := by
  simp [wfeedPulse, cwrite, cwrite8, cwrite9, h8, classify, durOf, READPT,
        CHK_L, bodyIdx, hz, hs]

lemma wstep9_sync0 (s : MZState) (h9 : s.cwstate = 9)
    (hs : s.wsecbits = 0) (hl : s.wlongread = false) :
    wfeedPulse s 1 =
      ({ s with whightime := 0, wlowtime := 600,
                wchecksum0 := 0, wlongread := true }, false) := by
  simp [wfeedPulse, cwrite, cwrite9, h9, classify, durOf, READPT,
        CHK_L, bodyIdx, hs, hl]

lemma wstep9_sync1 (s : MZState) (h9 : s.cwstate = 9)
    (hs : s.wsecbits = 8) (hl : s.wlongread = false) :
    wfeedPulse s 1 =
      ({ s with whightime := 0, wlowtime := 600,
                wchecksum1 := 0, wlongread := true }, false) := by
  simp [wfeedPulse, cwrite, cwrite9, h9, classify, durOf, READPT,
        CHK_L, bodyIdx, hs, hl]

lemma wstep9_bit0 (s : MZState) (p : Nat) (h9 : s.cwstate = 9)
    (hidx : bodyIdx s.wsecbits = 0)
    (hd : ¬ (s.wsecbits % 8 = 0 ∧ s.wlongread = false))
    (hne1 : ¬ s.wsecbits + 1 = 16) (hp : p = 0 ∨ p = 1) :
    wfeedPulse s p =
      ({ s with whightime := 0, wlowtime := durOf p,
                wchecksum0 := u8 (u8 s.wchecksum0 * 2 + p),
                wlongread := false, wsecbits := s.wsecbits + 1 },
       false) := by
  have hne : ¬ s.wsecbits = 16 := by
    intro hx
    rw [hx] at hidx
    exact absurd hidx (by decide)
  rcases hp with hp | hp <;> subst hp <;>
    simp [wfeedPulse, cwrite, cwrite9, h9, classify, durOf, READPT,
          CHK_L, hidx, hd, hne, hne1]

lemma wstep9_bit1 (s : MZState) (p : Nat) (h9 : s.cwstate = 9)
    (hidx : ¬ bodyIdx s.wsecbits = 0)
    (hd : ¬ (s.wsecbits % 8 = 0 ∧ s.wlongread = false))
    (hne : ¬ s.wsecbits = 16) (hne1 : ¬ s.wsecbits + 1 = 16)
    (hp : p = 0 ∨ p = 1) :
    wfeedPulse s p =
      ({ s with whightime := 0, wlowtime := durOf p,
                wchecksum1 := u8 (u8 s.wchecksum1 * 2 + p),
                wlongread := false, wsecbits := s.wsecbits + 1 },
       false) := by
  rcases hp with hp | hp <;> subst hp <;>
    simp [wfeedPulse, cwrite, cwrite9, h9, classify, durOf, READPT,
          CHK_L, hidx, hd, hne, hne1]

lemma wstep9_fin (s : MZState) (p : Nat) (h9 : s.cwstate = 9)
    (hidx : ¬ bodyIdx s.wsecbits = 0)
    (hd : ¬ (s.wsecbits % 8 = 0 ∧ s.wlongread = false))
    (hend : s.wsecbits + 1 = 16) (hp : p = 0 ∨ p = 1) :
    wfeedPulse s p =
      ({ s with whightime := 0, wlowtime := durOf p,
                wchecksum1 := u8 (u8 s.wchecksum1 * 2 + p),
                cwstate := 10, wchkbits := 0, wsecbits := 0,
                wlongread := false }, false) := by
  have hne : ¬ s.wsecbits = 16 := by omega
  rcases hp with hp | hp <;> subst hp <;>
    simp [wfeedPulse, cwrite, cwrite9, h9, classify, durOf, READPT,
          CHK_L, hidx, hd, hne, hend]

lemma wstep10 (s : MZState) (p : Nat) (h10 : s.cwstate = 10)
    (hne1 : ¬ s.wsecbits + 1 =
      (L_L + S256_L + s.wbodybytes * 8 + s.wbodybytes + CHK_L + 2) * 2)
    (hne2 : ¬ s.wsecbits + 2 =
      (L_L + S256_L + s.wbodybytes * 8 + s.wbodybytes + CHK_L + 2) * 2) :
    wfeedPulse s p = ({ s with wsecbits := s.wsecbits + 2 }, false) := by
  simp [wfeedPulse, cwrite, cwrite10, h10, hne1, hne2]

lemma wstep10_fin (s : MZState) (p : Nat) (h10 : s.cwstate = 10)
    (hend : s.wsecbits + 2 =
      (L_L + S256_L + s.wbodybytes * 8 + s.wbodybytes + CHK_L + 2) * 2) :
    wfeedPulse s p = ({ s with cwstate := 13, wsecbits := 0 }, false) := by
  have hne1 : ¬ s.wsecbits + 1 =
      (L_L + S256_L + s.wbodybytes * 8 + s.wbodybytes + CHK_L + 2) * 2 := by
    simp only [L_L, S256_L, CHK_L] at hend ⊢
    omega
  simp [wfeedPulse, cwrite, cwrite10, h10, hne1, hend]

lemma wstep13_fin (s : MZState) (h13 : s.cwstate = 13)
    (hs : s.wsecbits = 0) (hh : s.whigh = 0) :
    wfeedPulse s 1 =
      ({ s with whightime := 0, wlowtime := 600, cwstate := 0,
                wsecbits := 0, whigh := 0, wlow := 0 }, true) := by
  simp [wfeedPulse, cwrite, cwrite13, h13, classify, durOf, READPT,
        L_L, hs, hh]

/-! ## Writer byte reconstruction -/

lemma updf_self (g : Nat → Nat) (i v : Nat) : updf g i v i = v := by
  simp [updf]

lemma updf_updf (g : Nat → Nat) (i a b : Nat) :
    updf (updf g i a) i b = updf g i b := by
  funext j
  simp only [updf]
  split <;> rfl

set_option maxRecDepth 8000 in
lemma shiftacc_step (x k : Nat) (hx : x < 256) (hk : k < 8) :
    u8 (u8 (x / 2 ^ (8 - k)) * 2 + x / 2 ^ (7 - k) % 2) =
      x / 2 ^ (8 - (k + 1)) := by
  have : ∀ x : Fin 256, ∀ k : Fin 8,
      u8 (u8 (x.val / 2 ^ (8 - k.val)) * 2 + x.val / 2 ^ (7 - k.val) % 2) =
        x.val / 2 ^ (8 - (k.val + 1)) := by decide
  exact this ⟨x, hx⟩ ⟨k, hk⟩

lemma bit01 (x k : Nat) : x / 2 ^ (7 - k) % 2 = 0 ∨ x / 2 ^ (7 - k) % 2 = 1 :=
  Nat.mod_two_eq_zero_or_one _

lemma bits8_length (x : Nat) : (bits8 x).length = 8 := by
  simp [bits8]

lemma bits8_get (x k : Nat) (hk : k < (bits8 x).length) :
    (bits8 x).get ⟨k, hk⟩ = x / 2 ^ (7 - k) % 2 := by
  simp [bits8]

lemma bits8_split (x : Nat) :
    bits8 x = (List.range 7).map (fun k => x / 2 ^ (7 - k) % 2) ++
      [x / 2 ^ (7 - 7) % 2] := by
  simp [bits8, List.range_succ]

lemma range_map_get (m : Nat) (f : Nat → Nat) (k : Nat)
    (hk : k < ((List.range m).map f).length) :
    ((List.range m).map f).get ⟨k, hk⟩ = f k := by
  simp

lemma wbits2 (s : MZState) (i x : Nat) (h2 : s.cwstate = 2)
    (hs : s.wsecbits = 8 * i) (hl : s.wlongread = true) (hi1 : i + 1 < 128)
    (hx : x < 256) (hchk : s.wchkbits < 65536) (hz : s.header i = 0)
    (hht : s.whightime = 0) (c : Nat) :
    wfeedAux s (bits8 x) c =
      ({ s with whightime := 0, wlowtime := durOf (x / 2 ^ (7 - 7) % 2),
                header := updf s.header i x, wlongread := false,
                wsecbits := 8 * i + 8,
                wchkbits := u16 (s.wchkbits + onesByte x) }, c) := by
  have hchain := wfeed_chain (bits8 x)
    (fun k => { s with
      wlowtime := (if k = 0 then s.wlowtime else durOf (x / 2 ^ (8 - k) % 2)),
      wlongread := (if k = 0 then true else false),
      header := updf s.header i (x / 2 ^ (8 - k)),
      wsecbits := 8 * i + k, whightime := 0,
      wchkbits := u16 (s.wchkbits + onesByte (x / 2 ^ (8 - k))) })
    (fun k hk => by
      have hk8 : k < 8 := by simpa [bits8_length] using hk
      rw [bits8_get x k hk]
      have hstep := wstep2_bit
        { s with
          wlowtime :=
            (if k = 0 then s.wlowtime else durOf (x / 2 ^ (8 - k) % 2)),
          wlongread := (if k = 0 then true else false),
          header := updf s.header i (x / 2 ^ (8 - k)),
          wsecbits := 8 * i + k, whightime := 0,
          wchkbits := u16 (s.wchkbits + onesByte (x / 2 ^ (8 - k))) }
        (x / 2 ^ (7 - k) % 2) (by simp [h2])
        (by
          rintro ⟨ha, hb⟩
          simp only at ha hb
          rcases Nat.eq_zero_or_pos k with hk0 | hk0
          · rw [if_pos hk0] at hb
            exact absurd hb (by decide)
          · omega)
        (by show ¬ 8 * i + k = 1024; omega)
        (by show ¬ 8 * i + k + 1 = 1024; omega)
        (bit01 x k)
      rw [hstep, Prod.mk.injEq]
      refine ⟨?_, rfl⟩
      have hidx : bodyIdx (8 * i + k) = i := by unfold bodyIdx; omega
      have h78 : 8 - (k + 1) = 7 - k := by omega
      have hhead : updf (updf s.header i (x / 2 ^ (8 - k)))
          (bodyIdx (8 * i + k))
          (u8 (u8 (updf s.header i (x / 2 ^ (8 - k))
            (bodyIdx (8 * i + k))) * 2 + x / 2 ^ (7 - k) % 2)) =
          updf s.header i (x / 2 ^ (8 - (k + 1))) := by
        rw [hidx, updf_self, shiftacc_step x k hx hk8, updf_updf]
      ext
      all_goals try rfl
      · exact congrFun hhead _
      · show durOf (x / 2 ^ (7 - k) % 2) =
          (if k + 1 = 0 then s.wlowtime
           else durOf (x / 2 ^ (8 - (k + 1)) % 2))
        simp [h78]
      · show u16 (u16 (s.wchkbits + onesByte (x / 2 ^ (8 - k))) +
            x / 2 ^ (7 - k) % 2) =
          u16 (s.wchkbits + onesByte (x / 2 ^ (8 - (k + 1))))
        simp only [u16, Nat.mod_add_mod]
        rw [Nat.add_assoc, ← onesByte_step _ k hx hk8]) c
  have hx0 : x / 2 ^ (8 - 0) = 0 := Nat.div_eq_of_lt (by omega)
  have hx0n : x / 256 = 0 := Nat.div_eq_of_lt hx
  have hf0 : s = { s with
      wlowtime := (if 0 = 0 then s.wlowtime else durOf (x / 2 ^ (8 - 0) % 2)),
      wlongread := (if 0 = 0 then true else false),
      header := updf s.header i (x / 2 ^ (8 - 0)),
      wsecbits := 8 * i + 0, whightime := 0,
      wchkbits := u16 (s.wchkbits + onesByte (x / 2 ^ (8 - 0))) } := by
    ext
    all_goals first
      | rfl
      | exact hht
      | (simp only [updf, hx0, hx0n]
         split <;> simp_all [hz])
      | (simp [hx0, hx0n, onesByte_zero, u16, Nat.mod_eq_of_lt hchk, hl, hs]
         done)
  have hrun : wfeedAux s (bits8 x) c =
      ({ s with
         wlowtime :=
           (if 8 = 0 then s.wlowtime else durOf (x / 2 ^ (8 - 8) % 2)),
         wlongread := (if 8 = 0 then true else false),
         header := updf s.header i (x / 2 ^ (8 - 8)),
         wsecbits := 8 * i + 8, whightime := 0,
         wchkbits := u16 (s.wchkbits + onesByte (x / 2 ^ (8 - 8))) }, c) := by
    conv_lhs => rw [hf0]
    rw [hchain, bits8_length]
  rw [hrun, Prod.mk.injEq]
  refine ⟨?_, rfl⟩
  ext
  all_goals try rfl
  · exact congrFun (show updf s.header i (x / 2 ^ (8 - 8)) =
      updf s.header i x by norm_num) _
  · show u16 (s.wchkbits + onesByte (x / 2 ^ (8 - 8))) =
      u16 (s.wchkbits + onesByte x)
    norm_num
lemma wfeedAux_nil (s : MZState) (c : Nat) : wfeedAux s [] c = (s, c) := rfl

lemma wfeedAux_cons_np (s : MZState) (p : Nat) (ps : List Nat) (c : Nat)
    (s' : MZState) (h : wfeedPulse s p = (s', false)) :
    wfeedAux s (p :: ps) c = wfeedAux s' ps c := by
  simp [wfeedAux, h]

lemma wfeedAux_cons_persist (s : MZState) (p : Nat) (ps : List Nat) (c : Nat)
    (s' : MZState) (h : wfeedPulse s p = (s', true)) :
    wfeedAux s (p :: ps) c = wfeedAux s' ps (c + 1) := by
  simp [wfeedAux, h]

lemma wfeedAux_append_eq (xs ys : List Nat) (s s1 s2 : MZState)
    (c c1 c2 : Nat) (hx : wfeedAux s xs c = (s1, c1))
    (hy : wfeedAux s1 ys c1 = (s2, c2)) :
    wfeedAux s (xs ++ ys) c = (s2, c2) := by
  rw [wfeedAux_append, hx]
  simp only []
  rw [hy]

lemma wbyte2 (s : MZState) (i x : Nat) (h2 : s.cwstate = 2)
    (hs : s.wsecbits = 8 * i) (hl : s.wlongread = false) (hi1 : i + 1 < 128)
    (hx : x < 256) (hchk : s.wchkbits < 65536) (c : Nat) :
    wfeedAux s (encByte x) c =
      ({ s with whightime := 0, wlowtime := durOf (x / 2 ^ (7 - 7) % 2),
                header := updf s.header i x, wlongread := false,
                wsecbits := 8 * i + 8,
                wchkbits := u16 (s.wchkbits + onesByte x) }, c) := by
  have hidx : bodyIdx s.wsecbits = i := by unfold bodyIdx; omega
  have hsync := wstep2_sync s h2 (by omega) hl (by omega)
  show wfeedAux s (1 :: bits8 x) c = _
  rw [wfeedAux_cons_np s 1 (bits8 x) c _ hsync]
  have hbits := wbits2
    { s with whightime := 0, wlowtime := 600,
             header := updf s.header (bodyIdx s.wsecbits) 0,
             wlongread := true }
    i x (by simp [h2]) (by simp [hs]) (by simp) hi1 hx (by simp [hchk])
    (by show updf s.header (bodyIdx s.wsecbits) 0 i = 0
        rw [hidx, updf_self])
    (by simp) c
  rw [hbits, Prod.mk.injEq]
  refine ⟨?_, rfl⟩
  ext
  all_goals try rfl
  exact congrFun (by rw [hidx, updf_updf]) _

lemma wbits2_last7 (s : MZState) (x : Nat) (h2 : s.cwstate = 2)
    (hs : s.wsecbits = 8 * 127) (hl : s.wlongread = true)
    (hx : x < 256) (hchk : s.wchkbits < 65536) (hz : s.header 127 = 0)
    (hht : s.whightime = 0) (c : Nat) :
    wfeedAux s ((List.range 7).map fun k => x / 2 ^ (7 - k) % 2) c =
      ({ s with whightime := 0, wlowtime := durOf (x / 2 ^ (8 - 7) % 2),
                header := updf s.header 127 (x / 2 ^ (8 - 7)),
                wlongread := false, wsecbits := 8 * 127 + 7,
                wchkbits := u16 (s.wchkbits +
                  onesByte (x / 2 ^ (8 - 7))) }, c) := by
  have hchain := wfeed_chain ((List.range 7).map fun k => x / 2 ^ (7 - k) % 2)
    (fun k => { s with
      wlowtime := (if k = 0 then s.wlowtime else durOf (x / 2 ^ (8 - k) % 2)),
      wlongread := (if k = 0 then true else false),
      header := updf s.header 127 (x / 2 ^ (8 - k)),
      wsecbits := 8 * 127 + k, whightime := 0,
      wchkbits := u16 (s.wchkbits + onesByte (x / 2 ^ (8 - k))) })
    (fun k hk => by
      have hk7 : k < 7 := by simpa using hk
      rw [range_map_get 7 _ k hk]
      have hstep := wstep2_bit
        { s with
          wlowtime :=
            (if k = 0 then s.wlowtime else durOf (x / 2 ^ (8 - k) % 2)),
          wlongread := (if k = 0 then true else false),
          header := updf s.header 127 (x / 2 ^ (8 - k)),
          wsecbits := 8 * 127 + k, whightime := 0,
          wchkbits := u16 (s.wchkbits + onesByte (x / 2 ^ (8 - k))) }
        (x / 2 ^ (7 - k) % 2) (by simp [h2])
        (by
          rintro ⟨ha, hb⟩
          simp only at ha hb
          rcases Nat.eq_zero_or_pos k with hk0 | hk0
          · rw [if_pos hk0] at hb
            exact absurd hb (by decide)
          · omega)
        (by show ¬ 8 * 127 + k = 1024; omega)
        (by show ¬ 8 * 127 + k + 1 = 1024; omega)
        (bit01 x k)
      rw [hstep, Prod.mk.injEq]
      refine ⟨?_, rfl⟩
      have hidx : bodyIdx (8 * 127 + k) = 127 := by unfold bodyIdx; omega
      have h78 : 8 - (k + 1) = 7 - k := by omega
      have hhead : updf (updf s.header 127 (x / 2 ^ (8 - k)))
          (bodyIdx (8 * 127 + k))
          (u8 (u8 (updf s.header 127 (x / 2 ^ (8 - k))
            (bodyIdx (8 * 127 + k))) * 2 + x / 2 ^ (7 - k) % 2)) =
          updf s.header 127 (x / 2 ^ (8 - (k + 1))) := by
        rw [hidx, updf_self, shiftacc_step x k hx (by omega), updf_updf]
      ext
      all_goals try rfl
      · exact congrFun hhead _
      · show durOf (x / 2 ^ (7 - k) % 2) =
          (if k + 1 = 0 then s.wlowtime
           else durOf (x / 2 ^ (8 - (k + 1)) % 2))
        simp [h78]
      · show u16 (u16 (s.wchkbits + onesByte (x / 2 ^ (8 - k))) +
            x / 2 ^ (7 - k) % 2) =
          u16 (s.wchkbits + onesByte (x / 2 ^ (8 - (k + 1))))
        simp only [u16, Nat.mod_add_mod]
        rw [Nat.add_assoc, ← onesByte_step _ k hx (by omega)]) c
  have hx0 : x / 2 ^ (8 - 0) = 0 := Nat.div_eq_of_lt (by omega)
  have hx0n : x / 256 = 0 := Nat.div_eq_of_lt hx
  have hf0 : s = { s with
      wlowtime := (if 0 = 0 then s.wlowtime else durOf (x / 2 ^ (8 - 0) % 2)),
      wlongread := (if 0 = 0 then true else false),
      header := updf s.header 127 (x / 2 ^ (8 - 0)),
      wsecbits := 8 * 127 + 0, whightime := 0,
      wchkbits := u16 (s.wchkbits + onesByte (x / 2 ^ (8 - 0))) } := by
    ext
    all_goals first
      | rfl
      | exact hht
      | (simp only [updf, hx0, hx0n]
         split <;> simp_all [hz])
      | (simp [hx0, hx0n, onesByte_zero, u16, Nat.mod_eq_of_lt hchk, hl, hs]
         done)
  conv_lhs => rw [hf0]
  rw [hchain]
  simp only [List.length_map, List.length_range]
  rfl

lemma wbyte2_last (s : MZState) (x : Nat) (h2 : s.cwstate = 2)
    (hs : s.wsecbits = 8 * 127) (hl : s.wlongread = false)
    (hx : x < 256) (hchk : s.wchkbits < 65536) (c : Nat) :
    wfeedAux s (encByte x) c =
      ({ s with whightime := 0, wlowtime := durOf (x / 2 ^ (7 - 7) % 2),
                header := updf s.header 127 x,
                wchkbits := u16 (s.wchkbits + onesByte x),
                cwstate := 3, wsecbits := 0, wlongread := false }, c) := by
  have hidx : bodyIdx s.wsecbits = 127 := by unfold bodyIdx; omega
  have hsync := wstep2_sync s h2 (by omega) hl (by omega)
  have hsplitE : (1 :: bits8 x : List Nat) =
      (1 :: (List.range 7).map fun k => x / 2 ^ (7 - k) % 2) ++
        [x / 2 ^ (7 - 7) % 2] := by
    rw [bits8_split]
    rfl
  show wfeedAux s (1 :: bits8 x) c = _
  rw [hsplitE]
  have hseven := wbits2_last7
    { s with whightime := 0, wlowtime := 600,
             header := updf s.header (bodyIdx s.wsecbits) 0,
             wlongread := true }
    x (by simp [h2]) (by simp [hs]) (by simp) hx (by simp [hchk])
    (by show updf s.header (bodyIdx s.wsecbits) 0 127 = 0
        rw [hidx, updf_self])
    (by simp) c
  have hfin := wstep2_fin
    { s with whightime := 0, wlowtime := durOf (x / 2 ^ (8 - 7) % 2),
             header := updf (updf s.header (bodyIdx s.wsecbits) 0) 127
               (x / 2 ^ (8 - 7)),
             wlongread := false, wsecbits := 8 * 127 + 7,
             wchkbits := u16 (s.wchkbits + onesByte (x / 2 ^ (8 - 7))) }
    (x / 2 ^ (7 - 7) % 2) (by simp [h2])
    (by
      rintro ⟨ha, hb⟩
      simp only at ha
      omega)
    (by show 8 * 127 + 7 + 1 = 1024; omega)
    (bit01 x 7)
  refine wfeedAux_append_eq _ _ _
    { s with whightime := 0, wlowtime := durOf (x / 2 ^ (8 - 7) % 2),
             header := updf (updf s.header (bodyIdx s.wsecbits) 0) 127
               (x / 2 ^ (8 - 7)),
             wlongread := false, wsecbits := 8 * 127 + 7,
             wchkbits := u16 (s.wchkbits + onesByte (x / 2 ^ (8 - 7))) }
    _ c c _ ?_ ?_
  · rw [wfeedAux_cons_np s 1 _ c _ hsync]
    exact hseven
  · rw [wfeedAux_cons_np _ _ [] c _ hfin, wfeedAux_nil, Prod.mk.injEq]
    refine ⟨?_, rfl⟩
    have hidx2 : bodyIdx (8 * 127 + 7) = 127 := by unfold bodyIdx; omega
    have hhead : updf (updf (updf s.header (bodyIdx s.wsecbits) 0) 127
        (x / 2 ^ (8 - 7))) (bodyIdx (8 * 127 + 7))
        (u8 (u8 (updf (updf s.header (bodyIdx s.wsecbits) 0) 127
          (x / 2 ^ (8 - 7)) (bodyIdx (8 * 127 + 7))) * 2 +
          x / 2 ^ (7 - 7) % 2)) = updf s.header 127 x := by
      rw [hidx2, updf_self, shiftacc_step x 7 hx (by omega), hidx,
          updf_updf, updf_updf]
      norm_num
    simp only []
    ext
    all_goals try rfl
    · exact congrFun hhead _
    · show u16 (u16 (s.wchkbits + onesByte (x / 2 ^ (8 - 7))) +
          x / 2 ^ (7 - 7) % 2) = u16 (s.wchkbits + onesByte x)
      simp only [u16, Nat.mod_add_mod]
      rw [Nat.add_assoc, ← onesByte_step _ 7 hx (by omega)]
      norm_num

lemma wbits8 (s : MZState) (i x : Nat) (h8 : s.cwstate = 8)
    (hs : s.wsecbits = 8 * i) (hl : s.wlongread = true)
    (hi1 : i + 1 < s.wbodybytes)
    (hx : x < 256) (hchk : s.wchkbits < 65536) (hz : s.body i = 0)
    (hht : s.whightime = 0) (c : Nat) :
    wfeedAux s (bits8 x) c =
      ({ s with whightime := 0, wlowtime := durOf (x / 2 ^ (7 - 7) % 2),
                body := updf s.body i x, wlongread := false,
                wsecbits := 8 * i + 8,
                wchkbits := u16 (s.wchkbits + onesByte x) }, c) := by
  have hchain := wfeed_chain (bits8 x)
    (fun k => { s with
      wlowtime := (if k = 0 then s.wlowtime else durOf (x / 2 ^ (8 - k) % 2)),
      wlongread := (if k = 0 then true else false),
      body := updf s.body i (x / 2 ^ (8 - k)),
      wsecbits := 8 * i + k, whightime := 0,
      wchkbits := u16 (s.wchkbits + onesByte (x / 2 ^ (8 - k))) })
    (fun k hk => by
      have hk8 : k < 8 := by simpa [bits8_length] using hk
      rw [bits8_get x k hk]
      have hstep := wstep8_bit
        { s with
          wlowtime :=
            (if k = 0 then s.wlowtime else durOf (x / 2 ^ (8 - k) % 2)),
          wlongread := (if k = 0 then true else false),
          body := updf s.body i (x / 2 ^ (8 - k)),
          wsecbits := 8 * i + k, whightime := 0,
          wchkbits := u16 (s.wchkbits + onesByte (x / 2 ^ (8 - k))) }
        (x / 2 ^ (7 - k) % 2) (by simp [h8])
        (by
          rintro ⟨ha, hb⟩
          simp only at ha hb
          rcases Nat.eq_zero_or_pos k with hk0 | hk0
          · rw [if_pos hk0] at hb
            exact absurd hb (by decide)
          · omega)
        (by show ¬ 8 * i + k = s.wbodybytes * 8; omega)
        (by show ¬ 8 * i + k + 1 = s.wbodybytes * 8; omega)
        (bit01 x k)
      rw [hstep, Prod.mk.injEq]
      refine ⟨?_, rfl⟩
      have hidx : bodyIdx (8 * i + k) = i := by unfold bodyIdx; omega
      have h78 : 8 - (k + 1) = 7 - k := by omega
      have hhead : updf (updf s.body i (x / 2 ^ (8 - k)))
          (bodyIdx (8 * i + k))
          (u8 (u8 (updf s.body i (x / 2 ^ (8 - k))
            (bodyIdx (8 * i + k))) * 2 + x / 2 ^ (7 - k) % 2)) =
          updf s.body i (x / 2 ^ (8 - (k + 1))) := by
        rw [hidx, updf_self, shiftacc_step x k hx hk8, updf_updf]
      ext
      all_goals try rfl
      · exact congrFun hhead _
      · show durOf (x / 2 ^ (7 - k) % 2) =
          (if k + 1 = 0 then s.wlowtime
           else durOf (x / 2 ^ (8 - (k + 1)) % 2))
        simp [h78]
      · show u16 (u16 (s.wchkbits + onesByte (x / 2 ^ (8 - k))) +
            x / 2 ^ (7 - k) % 2) =
          u16 (s.wchkbits + onesByte (x / 2 ^ (8 - (k + 1))))
        simp only [u16, Nat.mod_add_mod]
        rw [Nat.add_assoc, ← onesByte_step _ k hx hk8]) c
  have hx0 : x / 2 ^ (8 - 0) = 0 := Nat.div_eq_of_lt (by omega)
  have hx0n : x / 256 = 0 := Nat.div_eq_of_lt hx
  have hf0 : s = { s with
      wlowtime := (if 0 = 0 then s.wlowtime else durOf (x / 2 ^ (8 - 0) % 2)),
      wlongread := (if 0 = 0 then true else false),
      body := updf s.body i (x / 2 ^ (8 - 0)),
      wsecbits := 8 * i + 0, whightime := 0,
      wchkbits := u16 (s.wchkbits + onesByte (x / 2 ^ (8 - 0))) } := by
    ext
    all_goals first
      | rfl
      | exact hht
      | (simp only [updf, hx0, hx0n]
         split <;> simp_all [hz])
      | (simp [hx0, hx0n, onesByte_zero, u16, Nat.mod_eq_of_lt hchk, hl, hs]
         done)
  have hrun : wfeedAux s (bits8 x) c =
      ({ s with
         wlowtime :=
           (if 8 = 0 then s.wlowtime else durOf (x / 2 ^ (8 - 8) % 2)),
         wlongread := (if 8 = 0 then true else false),
         body := updf s.body i (x / 2 ^ (8 - 8)),
         wsecbits := 8 * i + 8, whightime := 0,
         wchkbits := u16 (s.wchkbits + onesByte (x / 2 ^ (8 - 8))) }, c) := by
    conv_lhs => rw [hf0]
    rw [hchain, bits8_length]
  rw [hrun, Prod.mk.injEq]
  refine ⟨?_, rfl⟩
  ext
  all_goals try rfl
  · exact congrFun (show updf s.body i (x / 2 ^ (8 - 8)) =
      updf s.body i x by norm_num) _
  · show u16 (s.wchkbits + onesByte (x / 2 ^ (8 - 8))) =
      u16 (s.wchkbits + onesByte x)
    norm_num

lemma wbyte8 (s : MZState) (i x : Nat) (h8 : s.cwstate = 8)
    (hs : s.wsecbits = 8 * i) (hl : s.wlongread = false)
    (hi1 : i + 1 < s.wbodybytes)
    (hx : x < 256) (hchk : s.wchkbits < 65536) (c : Nat) :
    wfeedAux s (encByte x) c =
      ({ s with whightime := 0, wlowtime := durOf (x / 2 ^ (7 - 7) % 2),
                body := updf s.body i x, wlongread := false,
                wsecbits := 8 * i + 8,
                wchkbits := u16 (s.wchkbits + onesByte x) }, c) := by
  have hidx : bodyIdx s.wsecbits = i := by unfold bodyIdx; omega
  have hsync := wstep8_sync s h8 (by omega) hl (by omega)
  show wfeedAux s (1 :: bits8 x) c = _
  rw [wfeedAux_cons_np s 1 (bits8 x) c _ hsync]
  have hbits := wbits8
    { s with whightime := 0, wlowtime := 600,
             body := updf s.body (bodyIdx s.wsecbits) 0,
             wlongread := true }
    i x (by simp [h8]) (by simp [hs]) (by simp) (by simpa using hi1) hx
    (by simp [hchk])
    (by show updf s.body (bodyIdx s.wsecbits) 0 i = 0
        rw [hidx, updf_self])
    (by simp) c
  rw [hbits, Prod.mk.injEq]
  refine ⟨?_, rfl⟩
  ext
  all_goals try rfl
  exact congrFun (by rw [hidx, updf_updf]) _

lemma wbits8_last7 (s : MZState) (i x : Nat) (h8 : s.cwstate = 8)
    (hs : s.wsecbits = 8 * i) (hl : s.wlongread = true)
    (hlast : i + 1 = s.wbodybytes)
    (hx : x < 256) (hchk : s.wchkbits < 65536) (hz : s.body i = 0)
    (hht : s.whightime = 0) (c : Nat) :
    wfeedAux s ((List.range 7).map fun k => x / 2 ^ (7 - k) % 2) c =
      ({ s with whightime := 0, wlowtime := durOf (x / 2 ^ (8 - 7) % 2),
                body := updf s.body i (x / 2 ^ (8 - 7)),
                wlongread := false, wsecbits := 8 * i + 7,
                wchkbits := u16 (s.wchkbits +
                  onesByte (x / 2 ^ (8 - 7))) }, c) := by
  have hchain := wfeed_chain ((List.range 7).map fun k => x / 2 ^ (7 - k) % 2)
    (fun k => { s with
      wlowtime := (if k = 0 then s.wlowtime else durOf (x / 2 ^ (8 - k) % 2)),
      wlongread := (if k = 0 then true else false),
      body := updf s.body i (x / 2 ^ (8 - k)),
      wsecbits := 8 * i + k, whightime := 0,
      wchkbits := u16 (s.wchkbits + onesByte (x / 2 ^ (8 - k))) })
    (fun k hk => by
      have hk7 : k < 7 := by simpa using hk
      rw [range_map_get 7 _ k hk]
      have hstep := wstep8_bit
        { s with
          wlowtime :=
            (if k = 0 then s.wlowtime else durOf (x / 2 ^ (8 - k) % 2)),
          wlongread := (if k = 0 then true else false),
          body := updf s.body i (x / 2 ^ (8 - k)),
          wsecbits := 8 * i + k, whightime := 0,
          wchkbits := u16 (s.wchkbits + onesByte (x / 2 ^ (8 - k))) }
        (x / 2 ^ (7 - k) % 2) (by simp [h8])
        (by
          rintro ⟨ha, hb⟩
          simp only at ha hb
          rcases Nat.eq_zero_or_pos k with hk0 | hk0
          · rw [if_pos hk0] at hb
            exact absurd hb (by decide)
          · omega)
        (by show ¬ 8 * i + k = s.wbodybytes * 8; omega)
        (by show ¬ 8 * i + k + 1 = s.wbodybytes * 8; omega)
        (bit01 x k)
      rw [hstep, Prod.mk.injEq]
      refine ⟨?_, rfl⟩
      have hidx : bodyIdx (8 * i + k) = i := by unfold bodyIdx; omega
      have h78 : 8 - (k + 1) = 7 - k := by omega
      have hhead : updf (updf s.body i (x / 2 ^ (8 - k)))
          (bodyIdx (8 * i + k))
          (u8 (u8 (updf s.body i (x / 2 ^ (8 - k))
            (bodyIdx (8 * i + k))) * 2 + x / 2 ^ (7 - k) % 2)) =
          updf s.body i (x / 2 ^ (8 - (k + 1))) := by
        rw [hidx, updf_self, shiftacc_step x k hx (by omega), updf_updf]
      ext
      all_goals try rfl
      · exact congrFun hhead _
      · show durOf (x / 2 ^ (7 - k) % 2) =
          (if k + 1 = 0 then s.wlowtime
           else durOf (x / 2 ^ (8 - (k + 1)) % 2))
        simp [h78]
      · show u16 (u16 (s.wchkbits + onesByte (x / 2 ^ (8 - k))) +
            x / 2 ^ (7 - k) % 2) =
          u16 (s.wchkbits + onesByte (x / 2 ^ (8 - (k + 1))))
        simp only [u16, Nat.mod_add_mod]
        rw [Nat.add_assoc, ← onesByte_step _ k hx (by omega)]) c
  have hx0 : x / 2 ^ (8 - 0) = 0 := Nat.div_eq_of_lt (by omega)
  have hx0n : x / 256 = 0 := Nat.div_eq_of_lt hx
  have hf0 : s = { s with
      wlowtime := (if 0 = 0 then s.wlowtime else durOf (x / 2 ^ (8 - 0) % 2)),
      wlongread := (if 0 = 0 then true else false),
      body := updf s.body i (x / 2 ^ (8 - 0)),
      wsecbits := 8 * i + 0, whightime := 0,
      wchkbits := u16 (s.wchkbits + onesByte (x / 2 ^ (8 - 0))) } := by
    ext
    all_goals first
      | rfl
      | exact hht
      | (simp only [updf, hx0, hx0n]
         split <;> simp_all [hz])
      | (simp [hx0, hx0n, onesByte_zero, u16, Nat.mod_eq_of_lt hchk, hl, hs]
         done)
  conv_lhs => rw [hf0]
  rw [hchain]
  simp only [List.length_map, List.length_range]
  rfl

lemma wbyte8_last (s : MZState) (i x : Nat) (h8 : s.cwstate = 8)
    (hs : s.wsecbits = 8 * i) (hl : s.wlongread = false)
    (hlast : i + 1 = s.wbodybytes)
    (hx : x < 256) (hchk : s.wchkbits < 65536) (c : Nat) :
    wfeedAux s (encByte x) c =
      ({ s with whightime := 0, wlowtime := durOf (x / 2 ^ (7 - 7) % 2),
                body := updf s.body i x,
                wchkbits := u16 (s.wchkbits + onesByte x),
                cwstate := 9, wsecbits := 0, wlongread := false }, c) := by
  have hidx : bodyIdx s.wsecbits = i := by unfold bodyIdx; omega
  have hsync := wstep8_sync s h8 (by omega) hl (by omega)
  have hsplitE : (1 :: bits8 x : List Nat) =
      (1 :: (List.range 7).map fun k => x / 2 ^ (7 - k) % 2) ++
        [x / 2 ^ (7 - 7) % 2] := by
    rw [bits8_split]
    rfl
  show wfeedAux s (1 :: bits8 x) c = _
  rw [hsplitE]
  have hseven := wbits8_last7
    { s with whightime := 0, wlowtime := 600,
             body := updf s.body (bodyIdx s.wsecbits) 0,
             wlongread := true }
    i x (by simp [h8]) (by simp [hs]) (by simp) (by simpa using hlast) hx
    (by simp [hchk])
    (by show updf s.body (bodyIdx s.wsecbits) 0 i = 0
        rw [hidx, updf_self])
    (by simp) c
  have hfin := wstep8_fin
    { s with whightime := 0, wlowtime := durOf (x / 2 ^ (8 - 7) % 2),
             body := updf (updf s.body (bodyIdx s.wsecbits) 0) i
               (x / 2 ^ (8 - 7)),
             wlongread := false, wsecbits := 8 * i + 7,
             wchkbits := u16 (s.wchkbits + onesByte (x / 2 ^ (8 - 7))) }
    (x / 2 ^ (7 - 7) % 2) (by simp [h8])
    (by
      rintro ⟨ha, hb⟩
      simp only at ha
      omega)
    (by show 8 * i + 7 + 1 = s.wbodybytes * 8; omega)
    (bit01 x 7)
  refine wfeedAux_append_eq _ _ _
    { s with whightime := 0, wlowtime := durOf (x / 2 ^ (8 - 7) % 2),
             body := updf (updf s.body (bodyIdx s.wsecbits) 0) i
               (x / 2 ^ (8 - 7)),
             wlongread := false, wsecbits := 8 * i + 7,
             wchkbits := u16 (s.wchkbits + onesByte (x / 2 ^ (8 - 7))) }
    _ c c _ ?_ ?_
  · rw [wfeedAux_cons_np s 1 _ c _ hsync]
    exact hseven
  · rw [wfeedAux_cons_np _ _ [] c _ hfin, wfeedAux_nil, Prod.mk.injEq]
    refine ⟨?_, rfl⟩
    have hidx2 : bodyIdx (8 * i + 7) = i := by unfold bodyIdx; omega
    have hhead : updf (updf (updf s.body (bodyIdx s.wsecbits) 0) i
        (x / 2 ^ (8 - 7))) (bodyIdx (8 * i + 7))
        (u8 (u8 (updf (updf s.body (bodyIdx s.wsecbits) 0) i
          (x / 2 ^ (8 - 7)) (bodyIdx (8 * i + 7))) * 2 +
          x / 2 ^ (7 - 7) % 2)) = updf s.body i x := by
      rw [hidx2, updf_self, shiftacc_step x 7 hx (by omega), hidx,
          updf_updf, updf_updf]
      norm_num
    simp only []
    ext
    all_goals try rfl
    · exact congrFun hhead _
    · show u16 (u16 (s.wchkbits + onesByte (x / 2 ^ (8 - 7))) +
          x / 2 ^ (7 - 7) % 2) = u16 (s.wchkbits + onesByte x)
      simp only [u16, Nat.mod_add_mod]
      rw [Nat.add_assoc, ← onesByte_step _ 7 hx (by omega)]
      norm_num

lemma wchkbits3_0 (s : MZState) (x : Nat) (h3 : s.cwstate = 3)
    (hs : s.wsecbits = 0) (hl : s.wlongread = true)
    (hcs : s.wchecksum0 = 0) (hht : s.whightime = 0)
    (hx : x < 256) (c : Nat) :
    wfeedAux s (bits8 x) c =
      ({ s with whightime := 0, wlowtime := durOf (x / 2 ^ (7 - 7) % 2),
                wchecksum0 := x, wlongread := false, wsecbits := 8 }, c) := by
  have hchain := wfeed_chain (bits8 x)
    (fun k => { s with
      wlowtime := (if k = 0 then s.wlowtime else durOf (x / 2 ^ (8 - k) % 2)),
      wlongread := (if k = 0 then true else false),
      wchecksum0 := x / 2 ^ (8 - k),
      wsecbits := k, whightime := 0 })
    (fun k hk => by
      have hk8 : k < 8 := by simpa [bits8_length] using hk
      rw [bits8_get x k hk]
      have hstep := wstep3_bit0
        { s with
          wlowtime :=
            (if k = 0 then s.wlowtime else durOf (x / 2 ^ (8 - k) % 2)),
          wlongread := (if k = 0 then true else false),
          wchecksum0 := x / 2 ^ (8 - k),
          wsecbits := k, whightime := 0 }
        (x / 2 ^ (7 - k) % 2) (by simp [h3])
        (by show bodyIdx k = 0; unfold bodyIdx; omega)
        (by
          rintro ⟨ha, hb⟩
          simp only at ha hb
          rcases Nat.eq_zero_or_pos k with hk0 | hk0
          · rw [if_pos hk0] at hb
            exact absurd hb (by decide)
          · omega)
        (by show ¬ k + 1 = 16; omega)
        (bit01 x k)
      rw [hstep, Prod.mk.injEq]
      refine ⟨?_, rfl⟩
      have h78 : 8 - (k + 1) = 7 - k := by omega
      ext
      all_goals try rfl
      · show durOf (x / 2 ^ (7 - k) % 2) =
          (if k + 1 = 0 then s.wlowtime
           else durOf (x / 2 ^ (8 - (k + 1)) % 2))
        simp [h78]
      · show u8 (u8 (x / 2 ^ (8 - k)) * 2 + x / 2 ^ (7 - k) % 2) =
          x / 2 ^ (8 - (k + 1))
        exact shiftacc_step x k hx hk8) c
  have hx0 : x / 2 ^ (8 - 0) = 0 := Nat.div_eq_of_lt (by omega)
  have hx0n : x / 256 = 0 := Nat.div_eq_of_lt hx
  have hf0 : s = { s with
      wlowtime := (if 0 = 0 then s.wlowtime else durOf (x / 2 ^ (8 - 0) % 2)),
      wlongread := (if 0 = 0 then true else false),
      wchecksum0 := x / 2 ^ (8 - 0),
      wsecbits := 0, whightime := 0 } := by
    ext
    all_goals first
      | rfl
      | exact hht
      | (simp [hx0, hx0n, hl, hs, hcs]
         done)
  conv_lhs => rw [hf0]
  rw [hchain, bits8_length, Prod.mk.injEq]
  refine ⟨?_, rfl⟩
  ext
  all_goals try rfl
  show x / 2 ^ (8 - 8) = x
  norm_num

lemma wchkbyte3_0 (s : MZState) (x : Nat) (h3 : s.cwstate = 3)
    (hs : s.wsecbits = 0) (hl : s.wlongread = false)
    (hx : x < 256) (c : Nat) :
    wfeedAux s (encByte x) c =
      ({ s with whightime := 0, wlowtime := durOf (x / 2 ^ (7 - 7) % 2),
                wchecksum0 := x, wlongread := false, wsecbits := 8 }, c) := by
  have hsync := wstep3_sync0 s h3 hs hl
  show wfeedAux s (1 :: bits8 x) c = _
  rw [wfeedAux_cons_np s 1 (bits8 x) c _ hsync]
  have hbits := wchkbits3_0
    { s with whightime := 0, wlowtime := 600,
             wchecksum0 := 0, wlongread := true }
    x (by simp [h3]) (by simp [hs]) (by simp) (by simp) (by simp) hx c
  rw [hbits, Prod.mk.injEq]
  refine ⟨?_, rfl⟩
  ext <;> rfl

lemma wchkbits3_1 (s : MZState) (x : Nat) (h3 : s.cwstate = 3)
    (hs : s.wsecbits = 8) (hl : s.wlongread = true)
    (hcs : s.wchecksum1 = 0) (hht : s.whightime = 0)
    (hx : x < 256) (c : Nat) :
    wfeedAux s ((List.range 7).map fun k => x / 2 ^ (7 - k) % 2) c =
      ({ s with whightime := 0, wlowtime := durOf (x / 2 ^ (8 - 7) % 2),
                wchecksum1 := x / 2 ^ (8 - 7), wlongread := false,
                wsecbits := 8 + 7 }, c) := by
  have hchain := wfeed_chain ((List.range 7).map fun k => x / 2 ^ (7 - k) % 2)
    (fun k => { s with
      wlowtime := (if k = 0 then s.wlowtime else durOf (x / 2 ^ (8 - k) % 2)),
      wlongread := (if k = 0 then true else false),
      wchecksum1 := x / 2 ^ (8 - k),
      wsecbits := 8 + k, whightime := 0 })
    (fun k hk => by
      have hk7 : k < 7 := by simpa using hk
      rw [range_map_get 7 _ k hk]
      have hstep := wstep3_bit1
        { s with
          wlowtime :=
            (if k = 0 then s.wlowtime else durOf (x / 2 ^ (8 - k) % 2)),
          wlongread := (if k = 0 then true else false),
          wchecksum1 := x / 2 ^ (8 - k),
          wsecbits := 8 + k, whightime := 0 }
        (x / 2 ^ (7 - k) % 2) (by simp [h3])
        (by show ¬ bodyIdx (8 + k) = 0; unfold bodyIdx; omega)
        (by
          rintro ⟨ha, hb⟩
          simp only at ha hb
          rcases Nat.eq_zero_or_pos k with hk0 | hk0
          · rw [if_pos hk0] at hb
            exact absurd hb (by decide)
          · omega)
        (by show ¬ 8 + k = 16; omega)
        (by show ¬ 8 + k + 1 = 16; omega)
        (bit01 x k)
      rw [hstep, Prod.mk.injEq]
      refine ⟨?_, rfl⟩
      have h78 : 8 - (k + 1) = 7 - k := by omega
      ext
      all_goals try rfl
      · show durOf (x / 2 ^ (7 - k) % 2) =
          (if k + 1 = 0 then s.wlowtime
           else durOf (x / 2 ^ (8 - (k + 1)) % 2))
        simp [h78]
      · show u8 (u8 (x / 2 ^ (8 - k)) * 2 + x / 2 ^ (7 - k) % 2) =
          x / 2 ^ (8 - (k + 1))
        exact shiftacc_step x k hx (by omega)) c
  have hx0 : x / 2 ^ (8 - 0) = 0 := Nat.div_eq_of_lt (by omega)
  have hx0n : x / 256 = 0 := Nat.div_eq_of_lt hx
  have hf0 : s = { s with
      wlowtime := (if 0 = 0 then s.wlowtime else durOf (x / 2 ^ (8 - 0) % 2)),
      wlongread := (if 0 = 0 then true else false),
      wchecksum1 := x / 2 ^ (8 - 0),
      wsecbits := 8 + 0, whightime := 0 } := by
    ext
    all_goals first
      | rfl
      | exact hht
      | (simp [hx0, hx0n, hl, hs, hcs]
         done)
  conv_lhs => rw [hf0]
  rw [hchain]
  simp only [List.length_map, List.length_range]
  rfl

lemma wchkbyte3_1 (s : MZState) (x : Nat) (h3 : s.cwstate = 3)
    (hs : s.wsecbits = 8) (hl : s.wlongread = false)
    (hx : x < 256) (c : Nat) :
    wfeedAux s (encByte x) c =
      ({ s with whightime := 0, wlowtime := durOf (x / 2 ^ (7 - 7) % 2),
                wchecksum1 := x, wbodybytes := decodeLen s.header,
                cwstate := 4, wchkbits := 0, wsecbits := 0,
                wlongread := false }, c) := by
  have hsync := wstep3_sync1 s h3 hs hl
  have hsplitE : (1 :: bits8 x : List Nat) =
      (1 :: (List.range 7).map fun k => x / 2 ^ (7 - k) % 2) ++
        [x / 2 ^ (7 - 7) % 2] := by
    rw [bits8_split]
    rfl
  show wfeedAux s (1 :: bits8 x) c = _
  rw [hsplitE]
  have hseven := wchkbits3_1
    { s with whightime := 0, wlowtime := 600,
             wchecksum1 := 0, wlongread := true }
    x (by simp [h3]) (by simp [hs]) (by simp) (by simp) (by simp) hx c
  have hfin := wstep3_fin
    { s with whightime := 0, wlowtime := durOf (x / 2 ^ (8 - 7) % 2),
             wchecksum1 := x / 2 ^ (8 - 7), wlongread := false,
             wsecbits := 8 + 7 }
    (x / 2 ^ (7 - 7) % 2) (by simp [h3])
    (by show ¬ bodyIdx (8 + 7) = 0; unfold bodyIdx; omega)
    (by
      rintro ⟨ha, hb⟩
      simp only at ha
      omega)
    (by show 8 + 7 + 1 = 16; omega)
    (bit01 x 7)
  refine wfeedAux_append_eq _ _ _
    { s with whightime := 0, wlowtime := durOf (x / 2 ^ (8 - 7) % 2),
             wchecksum1 := x / 2 ^ (8 - 7), wlongread := false,
             wsecbits := 8 + 7 }
    _ c c _ ?_ ?_
  · rw [wfeedAux_cons_np s 1 _ c _ hsync]
    exact hseven
  · rw [wfeedAux_cons_np _ _ [] c _ hfin, wfeedAux_nil, Prod.mk.injEq]
    refine ⟨?_, rfl⟩
    simp only []
    ext
    all_goals try rfl
    show u8 (u8 (x / 2 ^ (8 - 7)) * 2 + x / 2 ^ (7 - 7) % 2) = x
    rw [shiftacc_step x 7 hx (by omega)]
    norm_num

lemma wchkbits9_0 (s : MZState) (x : Nat) (h9 : s.cwstate = 9)
    (hs : s.wsecbits = 0) (hl : s.wlongread = true)
    (hcs : s.wchecksum0 = 0) (hht : s.whightime = 0)
    (hx : x < 256) (c : Nat) :
    wfeedAux s (bits8 x) c =
      ({ s with whightime := 0, wlowtime := durOf (x / 2 ^ (7 - 7) % 2),
                wchecksum0 := x, wlongread := false, wsecbits := 8 }, c) := by
  have hchain := wfeed_chain (bits8 x)
    (fun k => { s with
      wlowtime := (if k = 0 then s.wlowtime else durOf (x / 2 ^ (8 - k) % 2)),
      wlongread := (if k = 0 then true else false),
      wchecksum0 := x / 2 ^ (8 - k),
      wsecbits := k, whightime := 0 })
    (fun k hk => by
      have hk8 : k < 8 := by simpa [bits8_length] using hk
      rw [bits8_get x k hk]
      have hstep := wstep9_bit0
        { s with
          wlowtime :=
            (if k = 0 then s.wlowtime else durOf (x / 2 ^ (8 - k) % 2)),
          wlongread := (if k = 0 then true else false),
          wchecksum0 := x / 2 ^ (8 - k),
          wsecbits := k, whightime := 0 }
        (x / 2 ^ (7 - k) % 2) (by simp [h9])
        (by show bodyIdx k = 0; unfold bodyIdx; omega)
        (by
          rintro ⟨ha, hb⟩
          simp only at ha hb
          rcases Nat.eq_zero_or_pos k with hk0 | hk0
          · rw [if_pos hk0] at hb
            exact absurd hb (by decide)
          · omega)
        (by show ¬ k + 1 = 16; omega)
        (bit01 x k)
      rw [hstep, Prod.mk.injEq]
      refine ⟨?_, rfl⟩
      have h78 : 8 - (k + 1) = 7 - k := by omega
      ext
      all_goals try rfl
      · show durOf (x / 2 ^ (7 - k) % 2) =
          (if k + 1 = 0 then s.wlowtime
           else durOf (x / 2 ^ (8 - (k + 1)) % 2))
        simp [h78]
      · show u8 (u8 (x / 2 ^ (8 - k)) * 2 + x / 2 ^ (7 - k) % 2) =
          x / 2 ^ (8 - (k + 1))
        exact shiftacc_step x k hx hk8) c
  have hx0 : x / 2 ^ (8 - 0) = 0 := Nat.div_eq_of_lt (by omega)
  have hx0n : x / 256 = 0 := Nat.div_eq_of_lt hx
  have hf0 : s = { s with
      wlowtime := (if 0 = 0 then s.wlowtime else durOf (x / 2 ^ (8 - 0) % 2)),
      wlongread := (if 0 = 0 then true else false),
      wchecksum0 := x / 2 ^ (8 - 0),
      wsecbits := 0, whightime := 0 } := by
    ext
    all_goals first
      | rfl
      | exact hht
      | (simp [hx0, hx0n, hl, hs, hcs]
         done)
  conv_lhs => rw [hf0]
  rw [hchain, bits8_length, Prod.mk.injEq]
  refine ⟨?_, rfl⟩
  ext
  all_goals try rfl
  show x / 2 ^ (8 - 8) = x
  norm_num

lemma wchkbyte9_0 (s : MZState) (x : Nat) (h9 : s.cwstate = 9)
    (hs : s.wsecbits = 0) (hl : s.wlongread = false)
    (hx : x < 256) (c : Nat) :
    wfeedAux s (encByte x) c =
      ({ s with whightime := 0, wlowtime := durOf (x / 2 ^ (7 - 7) % 2),
                wchecksum0 := x, wlongread := false, wsecbits := 8 }, c) := by
  have hsync := wstep9_sync0 s h9 hs hl
  show wfeedAux s (1 :: bits8 x) c = _
  rw [wfeedAux_cons_np s 1 (bits8 x) c _ hsync]
  have hbits := wchkbits9_0
    { s with whightime := 0, wlowtime := 600,
             wchecksum0 := 0, wlongread := true }
    x (by simp [h9]) (by simp [hs]) (by simp) (by simp) (by simp) hx c
  rw [hbits, Prod.mk.injEq]
  refine ⟨?_, rfl⟩
  ext <;> rfl

lemma wchkbits9_1 (s : MZState) (x : Nat) (h9 : s.cwstate = 9)
    (hs : s.wsecbits = 8) (hl : s.wlongread = true)
    (hcs : s.wchecksum1 = 0) (hht : s.whightime = 0)
    (hx : x < 256) (c : Nat) :
    wfeedAux s ((List.range 7).map fun k => x / 2 ^ (7 - k) % 2) c =
      ({ s with whightime := 0, wlowtime := durOf (x / 2 ^ (8 - 7) % 2),
                wchecksum1 := x / 2 ^ (8 - 7), wlongread := false,
                wsecbits := 8 + 7 }, c) := by
  have hchain := wfeed_chain ((List.range 7).map fun k => x / 2 ^ (7 - k) % 2)
    (fun k => { s with
      wlowtime := (if k = 0 then s.wlowtime else durOf (x / 2 ^ (8 - k) % 2)),
      wlongread := (if k = 0 then true else false),
      wchecksum1 := x / 2 ^ (8 - k),
      wsecbits := 8 + k, whightime := 0 })
    (fun k hk => by
      have hk7 : k < 7 := by simpa using hk
      rw [range_map_get 7 _ k hk]
      have hstep := wstep9_bit1
        { s with
          wlowtime :=
            (if k = 0 then s.wlowtime else durOf (x / 2 ^ (8 - k) % 2)),
          wlongread := (if k = 0 then true else false),
          wchecksum1 := x / 2 ^ (8 - k),
          wsecbits := 8 + k, whightime := 0 }
        (x / 2 ^ (7 - k) % 2) (by simp [h9])
        (by show ¬ bodyIdx (8 + k) = 0; unfold bodyIdx; omega)
        (by
          rintro ⟨ha, hb⟩
          simp only at ha hb
          rcases Nat.eq_zero_or_pos k with hk0 | hk0
          · rw [if_pos hk0] at hb
            exact absurd hb (by decide)
          · omega)
        (by show ¬ 8 + k = 16; omega)
        (by show ¬ 8 + k + 1 = 16; omega)
        (bit01 x k)
      rw [hstep, Prod.mk.injEq]
      refine ⟨?_, rfl⟩
      have h78 : 8 - (k + 1) = 7 - k := by omega
      ext
      all_goals try rfl
      · show durOf (x / 2 ^ (7 - k) % 2) =
          (if k + 1 = 0 then s.wlowtime
           else durOf (x / 2 ^ (8 - (k + 1)) % 2))
        simp [h78]
      · show u8 (u8 (x / 2 ^ (8 - k)) * 2 + x / 2 ^ (7 - k) % 2) =
          x / 2 ^ (8 - (k + 1))
        exact shiftacc_step x k hx (by omega)) c
  have hx0 : x / 2 ^ (8 - 0) = 0 := Nat.div_eq_of_lt (by omega)
  have hx0n : x / 256 = 0 := Nat.div_eq_of_lt hx
  have hf0 : s = { s with
      wlowtime := (if 0 = 0 then s.wlowtime else durOf (x / 2 ^ (8 - 0) % 2)),
      wlongread := (if 0 = 0 then true else false),
      wchecksum1 := x / 2 ^ (8 - 0),
      wsecbits := 8 + 0, whightime := 0 } := by
    ext
    all_goals first
      | rfl
      | exact hht
      | (simp [hx0, hx0n, hl, hs, hcs]
         done)
  conv_lhs => rw [hf0]
  rw [hchain]
  simp only [List.length_map, List.length_range]
  rfl

lemma wchkbyte9_1 (s : MZState) (x : Nat) (h9 : s.cwstate = 9)
    (hs : s.wsecbits = 8) (hl : s.wlongread = false)
    (hx : x < 256) (c : Nat) :
    wfeedAux s (encByte x) c =
      ({ s with whightime := 0, wlowtime := durOf (x / 2 ^ (7 - 7) % 2),
                wchecksum1 := x, cwstate := 10, wchkbits := 0, wsecbits := 0,
                wlongread := false }, c) := by
  have hsync := wstep9_sync1 s h9 hs hl
  have hsplitE : (1 :: bits8 x : List Nat) =
      (1 :: (List.range 7).map fun k => x / 2 ^ (7 - k) % 2) ++
        [x / 2 ^ (7 - 7) % 2] := by
    rw [bits8_split]
    rfl
  show wfeedAux s (1 :: bits8 x) c = _
  rw [hsplitE]
  have hseven := wchkbits9_1
    { s with whightime := 0, wlowtime := 600,
             wchecksum1 := 0, wlongread := true }
    x (by simp [h9]) (by simp [hs]) (by simp) (by simp) (by simp) hx c
  have hfin := wstep9_fin
    { s with whightime := 0, wlowtime := durOf (x / 2 ^ (8 - 7) % 2),
             wchecksum1 := x / 2 ^ (8 - 7), wlongread := false,
             wsecbits := 8 + 7 }
    (x / 2 ^ (7 - 7) % 2) (by simp [h9])
    (by show ¬ bodyIdx (8 + 7) = 0; unfold bodyIdx; omega)
    (by
      rintro ⟨ha, hb⟩
      simp only at ha
      omega)
    (by show 8 + 7 + 1 = 16; omega)
    (bit01 x 7)
  refine wfeedAux_append_eq _ _ _
    { s with whightime := 0, wlowtime := durOf (x / 2 ^ (8 - 7) % 2),
             wchecksum1 := x / 2 ^ (8 - 7), wlongread := false,
             wsecbits := 8 + 7 }
    _ c c _ ?_ ?_
  · rw [wfeedAux_cons_np s 1 _ c _ hsync]
    exact hseven
  · rw [wfeedAux_cons_np _ _ [] c _ hfin, wfeedAux_nil, Prod.mk.injEq]
    refine ⟨?_, rfl⟩
    simp only []
    ext
    all_goals try rfl
    show u8 (u8 (x / 2 ^ (8 - 7)) * 2 + x / 2 ^ (7 - 7) % 2) = x
    rw [shiftacc_step x 7 hx (by omega)]
    norm_num

lemma wrPrefix_zero (g f : Nat → Nat) : wrPrefix g f 0 = g := by
  funext t
  simp [wrPrefix]

lemma wrPrefix_step (g f : Nat → Nat) (j : Nat) :
    updf (wrPrefix g f j) j (u8 (f j)) = wrPrefix g f (j + 1) := by
  funext t
  simp only [updf, wrPrefix]
  by_cases h : t = j
  · subst h
    simp
  · rw [if_neg h]
    by_cases h2 : t < j
    · rw [if_pos h2, if_pos (by omega)]
    · rw [if_neg h2, if_neg (by omega)]

lemma wfeed_preamble (s : MZState) (h0 : s.cwstate = 0) (c : Nat) :
    wfeedAux s wpreamble c =
      ({ s with crstate := 0, cwstate := 2, whightime := 0, wlowtime := 600,
                wlow := 0, whigh := 0, wsecbits := 0, wchkbits := 0 }, c) := by
  have hpre : wpreamble =
      0 :: (List.replicate 21999 0 ++ (List.replicate 40 1 ++
            (List.replicate 40 0 ++ [1]))) := by
    simp only [wpreamble, WBGAP_L, BTM_L]
    norm_num
    rw [show (22000 : Nat) = 21999 + 1 by norm_num, List.replicate_succ]
    simp only [List.cons_append, List.append_assoc]
  rw [hpre, wfeedAux_cons_np s 0 _ c _ (wstep0 s h0)]
  have hA := wfeed_replicate 21999 0
    (fun k => { s with crstate := 0, cwstate := 1, whightime := 0,
                       wlowtime := 100, wlow := 1 + k, whigh := 0,
                       wsecbits := 1 + k })
    (fun k hk => by
      have hstep := wstep1_zero
        { s with crstate := 0, cwstate := 1, whightime := 0,
                 wlowtime := 100, wlow := 1 + k, whigh := 0,
                 wsecbits := 1 + k }
        (by simp) (by show ¬ 1 + k = 22081; omega)
        (by show ¬ 1 + k + 1 = 22081; omega)
      rw [hstep, Prod.mk.injEq]
      refine ⟨?_, rfl⟩
      simp only []
      ext
      all_goals rfl) c
  have hB := wfeed_replicate 40 1
    (fun k => { s with crstate := 0, cwstate := 1, whightime := 0,
                       wlowtime := (if k = 0 then 100 else 600),
                       wlow := 22000, whigh := k,
                       wsecbits := 22000 + k })
    (fun k hk => by
      have hstep := wstep1_one
        { s with crstate := 0, cwstate := 1, whightime := 0,
                 wlowtime := (if k = 0 then 100 else 600),
                 wlow := 22000, whigh := k,
                 wsecbits := 22000 + k }
        (by simp) (by show ¬ 22000 + k = 22081; omega)
        (by show ¬ 22000 + k + 1 = 22081; omega)
      rw [hstep, Prod.mk.injEq]
      refine ⟨?_, rfl⟩
      simp only []
      ext
      all_goals rfl) c
  have hC := wfeed_replicate 40 0
    (fun k => { s with crstate := 0, cwstate := 1, whightime := 0,
                       wlowtime := (if k = 0 then 600 else 100),
                       wlow := 22000 + k, whigh := 40,
                       wsecbits := 22040 + k })
    (fun k hk => by
      have hstep := wstep1_zero
        { s with crstate := 0, cwstate := 1, whightime := 0,
                 wlowtime := (if k = 0 then 600 else 100),
                 wlow := 22000 + k, whigh := 40,
                 wsecbits := 22040 + k }
        (by simp) (by show ¬ 22040 + k = 22081; omega)
        (by show ¬ 22040 + k + 1 = 22081; omega)
      rw [hstep, Prod.mk.injEq]
      refine ⟨?_, rfl⟩
      simp only []
      ext
      all_goals rfl) c
  refine wfeedAux_append_eq _ _ _
    { s with crstate := 0, cwstate := 1, whightime := 0, wlowtime := 100,
             wlow := 22000, whigh := 0, wsecbits := 22000 }
    _ c c _ ?_ ?_
  · exact hA
  · refine wfeedAux_append_eq _ _ _
      { s with crstate := 0, cwstate := 1, whightime := 0, wlowtime := 600,
               wlow := 22000, whigh := 40, wsecbits := 22040 }
      _ c c _ ?_ ?_
    · exact hB
    · refine wfeedAux_append_eq _ _ _
        { s with crstate := 0, cwstate := 1, whightime := 0, wlowtime := 100,
                 wlow := 22040, whigh := 40, wsecbits := 22080 }
        _ c c _ ?_ ?_
      · exact hC
      · have hfin := wstep1_fin
          { s with crstate := 0, cwstate := 1, whightime := 0,
                   wlowtime := 100, wlow := 22040, whigh := 40,
                   wsecbits := 22080 }
          (by simp) (by simp) (by simp)
        rw [wfeedAux_cons_np _ 1 [] c _ hfin, wfeedAux_nil, Prod.mk.injEq]
        refine ⟨?_, rfl⟩
        ext
        all_goals rfl

lemma wskip4 (s : MZState) (h4 : s.cwstate = 4) (hs : s.wsecbits = 0)
    (c : Nat) :
    wfeedAux s (List.replicate 12469 0) c =
      ({ s with cwstate := 8, wsecbits := 0 }, c) := by
  have hsplit : List.replicate 12469 (0 : Nat) =
      List.replicate 12468 0 ++ [0] := by
    rw [show (12469 : Nat) = 12468 + 1 by norm_num]
    exact List.replicate_succ' 12468 0
  rw [hsplit]
  have hchain := wfeed_replicate 12468 0
    (fun k => { s with wsecbits := 2 * k })
    (fun k hk => by
      have hstep := wstep4 { s with wsecbits := 2 * k } 0
        (by simp [h4]) (by show ¬ 2 * k + 1 = 24938; omega)
        (by show ¬ 2 * k + 2 = 24938; omega)
      rw [hstep, Prod.mk.injEq]
      refine ⟨?_, rfl⟩
      simp only []
      ext
      all_goals rfl) c
  have hf0 : s = { s with wsecbits := 2 * 0 } := by
    ext
    all_goals first
      | rfl
      | (show s.wsecbits = 2 * 0
         omega)
  refine wfeedAux_append_eq _ _ _ { s with wsecbits := 2 * 12468 } _ c c _
    ?_ ?_
  · conv_lhs => rw [hf0]
    exact hchain
  · have hfin := wstep4_fin { s with wsecbits := 2 * 12468 } 0
      (by simp [h4]) (by show 2 * 12468 + 2 = 24938; norm_num)
    rw [wfeedAux_cons_np _ 0 [] c _ hfin, wfeedAux_nil, Prod.mk.injEq]
    refine ⟨?_, rfl⟩
    ext
    all_goals rfl

lemma wskip10 (s : MZState) (h10 : s.cwstate = 10) (hs : s.wsecbits = 0)
    (c : Nat) :
    wfeedAux s
      (List.replicate
        (L_L + S256_L + s.wbodybytes * 8 + s.wbodybytes + CHK_L + 2) 0) c =
      ({ s with cwstate := 13, wsecbits := 0 }, c) := by
  have hN : L_L + S256_L + s.wbodybytes * 8 + s.wbodybytes + CHK_L + 2 =
      (274 + 9 * s.wbodybytes) + 1 := by
    simp only [L_L, S256_L, CHK_L]
    omega
  rw [hN, List.replicate_succ']
  have hchain := wfeed_replicate (274 + 9 * s.wbodybytes) 0
    (fun k => { s with wsecbits := 2 * k })
    (fun k hk => by
      have hstep := wstep10 { s with wsecbits := 2 * k } 0
        (by simp [h10])
        (by
          show ¬ 2 * k + 1 =
            (L_L + S256_L + s.wbodybytes * 8 + s.wbodybytes + CHK_L + 2) * 2
          simp only [L_L, S256_L, CHK_L]
          omega)
        (by
          show ¬ 2 * k + 2 =
            (L_L + S256_L + s.wbodybytes * 8 + s.wbodybytes + CHK_L + 2) * 2
          simp only [L_L, S256_L, CHK_L]
          omega)
      rw [hstep, Prod.mk.injEq]
      refine ⟨?_, rfl⟩
      simp only []
      ext
      all_goals rfl) c
  have hf0 : s = { s with wsecbits := 2 * 0 } := by
    ext
    all_goals first
      | rfl
      | (show s.wsecbits = 2 * 0
         omega)
  refine wfeedAux_append_eq _ _ _
    { s with wsecbits := 2 * (274 + 9 * s.wbodybytes) } _ c c _ ?_ ?_
  · conv_lhs => rw [hf0]
    exact hchain
  · have hfin := wstep10_fin
      { s with wsecbits := 2 * (274 + 9 * s.wbodybytes) } 0 (by simp [h10])
      (by
        show 2 * (274 + 9 * s.wbodybytes) + 2 =
          (L_L + S256_L + s.wbodybytes * 8 + s.wbodybytes + CHK_L + 2) * 2
        simp only [L_L, S256_L, CHK_L]
        omega)
    rw [wfeedAux_cons_np _ 0 [] c _ hfin, wfeedAux_nil, Prod.mk.injEq]
    refine ⟨?_, rfl⟩
    ext
    all_goals rfl

lemma u16_add_mod (a b : Nat) : u16 (u16 a + b) = u16 (a + b) := by
  simp [u16, Nat.mod_add_mod]

lemma decodeLen_wrPrefix (g h : Nat → Nat) :
    decodeLen (wrPrefix g h 128) = decodeLen h := by
  simp [decodeLen, wrPrefix, u8, Nat.mod_mod]

lemma whdr_upto (s : MZState) (h : Nat → Nat) (j : Nat) (h2 : s.cwstate = 2)
    (hs : s.wsecbits = 0) (hl : s.wlongread = false) (hchk : s.wchkbits = 0)
    (hj : j ≤ 127) (c : Nat) :
    wfeedAux s (encBytes h j) c =
      ({ s with whightime := (if j = 0 then s.whightime else 0),
                wlowtime := (if j = 0 then s.wlowtime
                             else durOf (u8 (h (j - 1)) / 2 ^ (7 - 7) % 2)),
                header := wrPrefix s.header h j,
                wlongread := false, wsecbits := 8 * j,
                wchkbits := u16 (chkSum h j) }, c) := by
  induction j with
  | zero =>
    show wfeedAux s [] c = _
    rw [wfeedAux_nil, Prod.mk.injEq]
    refine ⟨?_, rfl⟩
    ext
    all_goals first
      | rfl
      | exact hl
      | (rw [wrPrefix_zero]
         done)
      | (show s.wsecbits = 8 * 0
         omega)
      | (show s.wchkbits = u16 (chkSum h 0)
         simp [hchk, chkSum, u16])
  | succ j ih =>
    have hj' : j ≤ 127 := by omega
    rw [show encBytes h (j + 1) = encBytes h j ++ encByte (u8 (h j)) from rfl]
    refine wfeedAux_append_eq _ _ _
      { s with whightime := (if j = 0 then s.whightime else 0),
               wlowtime := (if j = 0 then s.wlowtime
                            else durOf (u8 (h (j - 1)) / 2 ^ (7 - 7) % 2)),
               header := wrPrefix s.header h j,
               wlongread := false, wsecbits := 8 * j,
               wchkbits := u16 (chkSum h j) }
      _ c c _ (ih hj') ?_
    have hb := wbyte2
      { s with whightime := (if j = 0 then s.whightime else 0),
               wlowtime := (if j = 0 then s.wlowtime
                            else durOf (u8 (h (j - 1)) / 2 ^ (7 - 7) % 2)),
               header := wrPrefix s.header h j,
               wlongread := false, wsecbits := 8 * j,
               wchkbits := u16 (chkSum h j) }
      j (u8 (h j)) (by simp [h2]) (by simp) (by simp) (by omega)
      (u8_lt (h j)) (by simpa using u16_lt (chkSum h j)) c
    rw [hb, Prod.mk.injEq]
    refine ⟨?_, rfl⟩
    simp only []
    ext
    all_goals try rfl
    · exact congrFun (wrPrefix_step s.header h j) _
    · show u16 (u16 (chkSum h j) + onesByte (u8 (h j))) =
        u16 (chkSum h (j + 1))
      show u16 (u16 (chkSum h j) + onesByte (u8 (h j))) =
        u16 (chkSum h j + onesByte (u8 (h j)))
      exact u16_add_mod _ _

lemma whdr_all (s : MZState) (h : Nat → Nat) (h2 : s.cwstate = 2)
    (hs : s.wsecbits = 0) (hl : s.wlongread = false) (hchk : s.wchkbits = 0)
    (c : Nat) :
    wfeedAux s (encBytes h 128) c =
      ({ s with whightime := 0,
                wlowtime := durOf (u8 (h 127) / 2 ^ (7 - 7) % 2),
                header := wrPrefix s.header h 128,
                wchkbits := u16 (chkSum h 128),
                cwstate := 3, wsecbits := 0, wlongread := false }, c) := by
  rw [show encBytes h 128 = encBytes h 127 ++ encByte (u8 (h 127)) from rfl]
  refine wfeedAux_append_eq _ _ _
    { s with whightime := (if 127 = 0 then s.whightime else 0),
             wlowtime := (if 127 = 0 then s.wlowtime
                          else durOf (u8 (h (127 - 1)) / 2 ^ (7 - 7) % 2)),
             header := wrPrefix s.header h 127,
             wlongread := false, wsecbits := 8 * 127,
             wchkbits := u16 (chkSum h 127) }
    _ c c _ (whdr_upto s h 127 h2 hs hl hchk (by omega) c) ?_
  have hb := wbyte2_last
    { s with whightime := (if 127 = 0 then s.whightime else 0),
             wlowtime := (if 127 = 0 then s.wlowtime
                          else durOf (u8 (h (127 - 1)) / 2 ^ (7 - 7) % 2)),
             header := wrPrefix s.header h 127,
             wlongread := false, wsecbits := 8 * 127,
             wchkbits := u16 (chkSum h 127) }
    (u8 (h 127)) (by simp [h2]) (by simp) (by simp)
    (u8_lt (h 127)) (by simpa using u16_lt (chkSum h 127)) c
  rw [hb, Prod.mk.injEq]
  refine ⟨?_, rfl⟩
  simp only []
  ext
  all_goals try rfl
  · exact congrFun (wrPrefix_step s.header h 127) _
  · show u16 (u16 (chkSum h 127) + onesByte (u8 (h 127))) =
      u16 (chkSum h 128)
    show u16 (u16 (chkSum h 127) + onesByte (u8 (h 127))) =
      u16 (chkSum h 127 + onesByte (u8 (h 127)))
    exact u16_add_mod _ _

lemma wbody_upto (s : MZState) (b : Nat → Nat) (j : Nat)
    (h8 : s.cwstate = 8) (hs : s.wsecbits = 0) (hl : s.wlongread = false)
    (hchk : s.wchkbits = 0) (hj : j < s.wbodybytes) (c : Nat) :
    wfeedAux s (encBytes b j) c =
      ({ s with whightime := (if j = 0 then s.whightime else 0),
                wlowtime := (if j = 0 then s.wlowtime
                             else durOf (u8 (b (j - 1)) / 2 ^ (7 - 7) % 2)),
                body := wrPrefix s.body b j,
                wlongread := false, wsecbits := 8 * j,
                wchkbits := u16 (chkSum b j) }, c) := by
  induction j with
  | zero =>
    show wfeedAux s [] c = _
    rw [wfeedAux_nil, Prod.mk.injEq]
    refine ⟨?_, rfl⟩
    ext
    all_goals first
      | rfl
      | exact hl
      | (rw [wrPrefix_zero]
         done)
      | (show s.wsecbits = 8 * 0
         omega)
      | (show s.wchkbits = u16 (chkSum b 0)
         simp [hchk, chkSum, u16])
  | succ j ih =>
    have hj' : j < s.wbodybytes := by omega
    rw [show encBytes b (j + 1) = encBytes b j ++ encByte (u8 (b j)) from rfl]
    refine wfeedAux_append_eq _ _ _
      { s with whightime := (if j = 0 then s.whightime else 0),
               wlowtime := (if j = 0 then s.wlowtime
                            else durOf (u8 (b (j - 1)) / 2 ^ (7 - 7) % 2)),
               body := wrPrefix s.body b j,
               wlongread := false, wsecbits := 8 * j,
               wchkbits := u16 (chkSum b j) }
      _ c c _ (ih hj') ?_
    have hb := wbyte8
      { s with whightime := (if j = 0 then s.whightime else 0),
               wlowtime := (if j = 0 then s.wlowtime
                            else durOf (u8 (b (j - 1)) / 2 ^ (7 - 7) % 2)),
               body := wrPrefix s.body b j,
               wlongread := false, wsecbits := 8 * j,
               wchkbits := u16 (chkSum b j) }
      j (u8 (b j)) (by simp [h8]) (by simp) (by simp) (by simpa using hj)
      (u8_lt (b j)) (by simpa using u16_lt (chkSum b j)) c
    rw [hb, Prod.mk.injEq]
    refine ⟨?_, rfl⟩
    simp only []
    ext
    all_goals try rfl
    · exact congrFun (wrPrefix_step s.body b j) _
    · show u16 (u16 (chkSum b j) + onesByte (u8 (b j))) =
        u16 (chkSum b (j + 1))
      show u16 (u16 (chkSum b j) + onesByte (u8 (b j))) =
        u16 (chkSum b j + onesByte (u8 (b j)))
      exact u16_add_mod _ _

lemma wbody_all (s : MZState) (b : Nat → Nat) (B : Nat)
    (h8 : s.cwstate = 8) (hs : s.wsecbits = 0) (hl : s.wlongread = false)
    (hchk : s.wchkbits = 0) (hB : s.wbodybytes = B + 1) (c : Nat) :
    wfeedAux s (encBytes b (B + 1)) c =
      ({ s with whightime := 0,
                wlowtime := durOf (u8 (b B) / 2 ^ (7 - 7) % 2),
                body := wrPrefix s.body b (B + 1),
                wchkbits := u16 (chkSum b (B + 1)),
                cwstate := 9, wsecbits := 0, wlongread := false }, c) := by
  rw [show encBytes b (B + 1) = encBytes b B ++ encByte (u8 (b B)) from rfl]
  refine wfeedAux_append_eq _ _ _
    { s with whightime := (if B = 0 then s.whightime else 0),
             wlowtime := (if B = 0 then s.wlowtime
                          else durOf (u8 (b (B - 1)) / 2 ^ (7 - 7) % 2)),
             body := wrPrefix s.body b B,
             wlongread := false, wsecbits := 8 * B,
             wchkbits := u16 (chkSum b B) }
    _ c c _ (wbody_upto s b B h8 hs hl hchk (by omega) c) ?_
  have hb := wbyte8_last
    { s with whightime := (if B = 0 then s.whightime else 0),
             wlowtime := (if B = 0 then s.wlowtime
                          else durOf (u8 (b (B - 1)) / 2 ^ (7 - 7) % 2)),
             body := wrPrefix s.body b B,
             wlongread := false, wsecbits := 8 * B,
             wchkbits := u16 (chkSum b B) }
    B (u8 (b B)) (by simp [h8]) (by simp) (by simp)
    (by simpa using hB.symm) (u8_lt (b B))
    (by simpa using u16_lt (chkSum b B)) c
  rw [hb, Prod.mk.injEq]
  refine ⟨?_, rfl⟩
  simp only []
  ext
  all_goals try rfl
  · exact congrFun (wrPrefix_step s.body b B) _
  · show u16 (u16 (chkSum b B) + onesByte (u8 (b B))) =
      u16 (chkSum b (B + 1))
    show u16 (u16 (chkSum b B) + onesByte (u8 (b B))) =
      u16 (chkSum b B + onesByte (u8 (b B)))
    exact u16_add_mod _ _

lemma wchkpair3 (s : MZState) (v : Nat) (h3 : s.cwstate = 3)
    (hs : s.wsecbits = 0) (hl : s.wlongread = false) (c : Nat) :
    wfeedAux s (encBytes (chkBytes v) 2) c =
      ({ s with whightime := 0,
                wlowtime := durOf (u8 (chkBytes v 1) / 2 ^ (7 - 7) % 2),
                wchecksum0 := u8 (chkBytes v 0),
                wchecksum1 := u8 (chkBytes v 1),
                wbodybytes := decodeLen s.header, cwstate := 4,
                wchkbits := 0, wsecbits := 0, wlongread := false }, c) := by
  have hsplit : encBytes (chkBytes v) 2 =
      encByte (u8 (chkBytes v 0)) ++ encByte (u8 (chkBytes v 1)) := by
    show encBytes (chkBytes v) 1 ++ encByte (u8 (chkBytes v 1)) = _
    rw [show encBytes (chkBytes v) 1 =
        [] ++ encByte (u8 (chkBytes v 0)) from rfl]
    simp
  rw [hsplit]
  refine wfeedAux_append_eq _ _ _
    { s with whightime := 0,
             wlowtime := durOf (u8 (chkBytes v 0) / 2 ^ (7 - 7) % 2),
             wchecksum0 := u8 (chkBytes v 0), wlongread := false,
             wsecbits := 8 }
    _ c c _
    (wchkbyte3_0 s (u8 (chkBytes v 0)) h3 hs hl (u8_lt _) c) ?_
  have hb := wchkbyte3_1
    { s with whightime := 0,
             wlowtime := durOf (u8 (chkBytes v 0) / 2 ^ (7 - 7) % 2),
             wchecksum0 := u8 (chkBytes v 0), wlongread := false,
             wsecbits := 8 }
    (u8 (chkBytes v 1)) (by simp [h3]) (by simp) (by simp) (u8_lt _) c
  rw [hb, Prod.mk.injEq]
  refine ⟨?_, rfl⟩
  simp only []

lemma wchkpair9 (s : MZState) (v : Nat) (h9 : s.cwstate = 9)
    (hs : s.wsecbits = 0) (hl : s.wlongread = false) (c : Nat) :
    wfeedAux s (encBytes (chkBytes v) 2) c =
      ({ s with whightime := 0,
                wlowtime := durOf (u8 (chkBytes v 1) / 2 ^ (7 - 7) % 2),
                wchecksum0 := u8 (chkBytes v 0),
                wchecksum1 := u8 (chkBytes v 1),
                cwstate := 10, wchkbits := 0, wsecbits := 0,
                wlongread := false }, c) := by
  have hsplit : encBytes (chkBytes v) 2 =
      encByte (u8 (chkBytes v 0)) ++ encByte (u8 (chkBytes v 1)) := by
    show encBytes (chkBytes v) 1 ++ encByte (u8 (chkBytes v 1)) = _
    rw [show encBytes (chkBytes v) 1 =
        [] ++ encByte (u8 (chkBytes v 0)) from rfl]
    simp
  rw [hsplit]
  refine wfeedAux_append_eq _ _ _
    { s with whightime := 0,
             wlowtime := durOf (u8 (chkBytes v 0) / 2 ^ (7 - 7) % 2),
             wchecksum0 := u8 (chkBytes v 0), wlongread := false,
             wsecbits := 8 }
    _ c c _
    (wchkbyte9_0 s (u8 (chkBytes v 0)) h9 hs hl (u8_lt _) c) ?_
  have hb := wchkbyte9_1
    { s with whightime := 0,
             wlowtime := durOf (u8 (chkBytes v 0) / 2 ^ (7 - 7) % 2),
             wchecksum0 := u8 (chkBytes v 0), wlongread := false,
             wsecbits := 8 }
    (u8 (chkBytes v 1)) (by simp [h9]) (by simp) (by simp) (u8_lt _) c
  rw [hb, Prod.mk.injEq]
  refine ⟨?_, rfl⟩
  simp only []

lemma wfeed_writerAdjusted (s : MZState) (h b : Nat → Nat)
    (h0 : s.cwstate = 0) (hl : s.wlongread = false)
    (hn : 1 ≤ decodeLen h) (c : Nat) :
    wfeedAux s (writerAdjusted h b) c =
      ({ s with crstate := 0, cwstate := 0, whightime := 0, wlowtime := 600,
                wlow := 0, whigh := 0, wsecbits := 0,
                header := wrPrefix s.header h 128,
                body := wrPrefix s.body b (decodeLen h),
                wbodybytes := decodeLen h, wlongread := false, wchkbits := 0,
                wchecksum0 := u8 (chkBytes (bchk h b) 0),
                wchecksum1 := u8 (chkBytes (bchk h b) 1) }, c + 1) := by
  obtain ⟨B, hB⟩ : ∃ B, decodeLen h = B + 1 := ⟨decodeLen h - 1, by omega⟩
  have hW : writerAdjusted h b =
      wpreamble ++ (encBytes h 128 ++ (encBytes (chkBytes (hchk h)) 2 ++
        (List.replicate 12469 0 ++ (encBytes b (decodeLen h) ++
        (encBytes (chkBytes (bchk h b)) 2 ++
        (List.replicate (L_L + S256_L + decodeLen h * 8 + decodeLen h +
          CHK_L + 2) 0 ++ [1])))))) := by
    simp only [writerAdjusted, TAPEHEADERSIZE, SKIP_L, List.append_assoc]
  rw [hW, hB]
  refine wfeedAux_append_eq _ _ _ _ _ c c _ (wfeed_preamble s h0 c) ?_
  refine wfeedAux_append_eq _ _ _
    { s with crstate := 0, cwstate := 3, whightime := 0,
             wlowtime := durOf (u8 (h 127) / 2 ^ (7 - 7) % 2),
             wlow := 0, whigh := 0, wsecbits := 0,
             wchkbits := u16 (chkSum h 128),
             header := wrPrefix s.header h 128, wlongread := false }
    _ c c _ ?_ ?_
  · have hst := whdr_all
      { s with crstate := 0, cwstate := 2, whightime := 0, wlowtime := 600,
               wlow := 0, whigh := 0, wsecbits := 0, wchkbits := 0 }
      h rfl rfl hl rfl c
    rw [hst, Prod.mk.injEq]
    refine ⟨?_, rfl⟩
    first
      | (simp only []
         done)
      | (simp only []
         ext
         all_goals rfl)
  refine wfeedAux_append_eq _ _ _
    { s with crstate := 0, cwstate := 4, whightime := 0,
             wlowtime := durOf (u8 (chkBytes (hchk h) 1) / 2 ^ (7 - 7) % 2),
             wlow := 0, whigh := 0, wsecbits := 0, wchkbits := 0,
             header := wrPrefix s.header h 128, wlongread := false,
             wchecksum0 := u8 (chkBytes (hchk h) 0),
             wchecksum1 := u8 (chkBytes (hchk h) 1),
             wbodybytes := B + 1 }
    _ c c _ ?_ ?_
  · have hst := wchkpair3
      { s with crstate := 0, cwstate := 3, whightime := 0,
               wlowtime := durOf (u8 (h 127) / 2 ^ (7 - 7) % 2),
               wlow := 0, whigh := 0, wsecbits := 0,
               wchkbits := u16 (chkSum h 128),
               header := wrPrefix s.header h 128, wlongread := false }
      (hchk h) rfl rfl rfl c
    rw [hst, Prod.mk.injEq]
    refine ⟨?_, rfl⟩
    simp only []
    ext
    all_goals try rfl
    show decodeLen (wrPrefix s.header h 128) = B + 1
    rw [decodeLen_wrPrefix]
    omega
  refine wfeedAux_append_eq _ _ _
    { s with crstate := 0, cwstate := 8, whightime := 0,
             wlowtime := durOf (u8 (chkBytes (hchk h) 1) / 2 ^ (7 - 7) % 2),
             wlow := 0, whigh := 0, wsecbits := 0, wchkbits := 0,
             header := wrPrefix s.header h 128, wlongread := false,
             wchecksum0 := u8 (chkBytes (hchk h) 0),
             wchecksum1 := u8 (chkBytes (hchk h) 1),
             wbodybytes := B + 1 }
    _ c c _ ?_ ?_
  · have hst := wskip4
      { s with crstate := 0, cwstate := 4, whightime := 0,
               wlowtime := durOf (u8 (chkBytes (hchk h) 1) / 2 ^ (7 - 7) % 2),
               wlow := 0, whigh := 0, wsecbits := 0, wchkbits := 0,
               header := wrPrefix s.header h 128, wlongread := false,
               wchecksum0 := u8 (chkBytes (hchk h) 0),
               wchecksum1 := u8 (chkBytes (hchk h) 1),
               wbodybytes := B + 1 }
      rfl rfl c
    rw [hst, Prod.mk.injEq]
    refine ⟨?_, rfl⟩
    first
      | (simp only []
         done)
      | (simp only []
         ext
         all_goals rfl)
  refine wfeedAux_append_eq _ _ _
    { s with crstate := 0, cwstate := 9, whightime := 0,
             wlowtime := durOf (u8 (b B) / 2 ^ (7 - 7) % 2),
             wlow := 0, whigh := 0, wsecbits := 0,
             wchkbits := u16 (chkSum b (B + 1)),
             header := wrPrefix s.header h 128,
             body := wrPrefix s.body b (B + 1), wlongread := false,
             wchecksum0 := u8 (chkBytes (hchk h) 0),
             wchecksum1 := u8 (chkBytes (hchk h) 1),
             wbodybytes := B + 1 }
    _ c c _ ?_ ?_
  · have hst := wbody_all
      { s with crstate := 0, cwstate := 8, whightime := 0,
               wlowtime := durOf (u8 (chkBytes (hchk h) 1) / 2 ^ (7 - 7) % 2),
               wlow := 0, whigh := 0, wsecbits := 0, wchkbits := 0,
               header := wrPrefix s.header h 128, wlongread := false,
               wchecksum0 := u8 (chkBytes (hchk h) 0),
               wchecksum1 := u8 (chkBytes (hchk h) 1),
               wbodybytes := B + 1 }
      b B rfl rfl rfl rfl rfl c
    rw [hst, Prod.mk.injEq]
    refine ⟨?_, rfl⟩
    first
      | (simp only []
         done)
      | (simp only []
         ext
         all_goals rfl)
  refine wfeedAux_append_eq _ _ _
    { s with crstate := 0, cwstate := 10, whightime := 0,
             wlowtime := durOf (u8 (chkBytes (bchk h b) 1) / 2 ^ (7 - 7) % 2),
             wlow := 0, whigh := 0, wsecbits := 0, wchkbits := 0,
             header := wrPrefix s.header h 128,
             body := wrPrefix s.body b (B + 1), wlongread := false,
             wchecksum0 := u8 (chkBytes (bchk h b) 0),
             wchecksum1 := u8 (chkBytes (bchk h b) 1),
             wbodybytes := B + 1 }
    _ c c _ ?_ ?_
  · have hst := wchkpair9
      { s with crstate := 0, cwstate := 9, whightime := 0,
               wlowtime := durOf (u8 (b B) / 2 ^ (7 - 7) % 2),
               wlow := 0, whigh := 0, wsecbits := 0,
               wchkbits := u16 (chkSum b (B + 1)),
               header := wrPrefix s.header h 128,
               body := wrPrefix s.body b (B + 1), wlongread := false,
               wchecksum0 := u8 (chkBytes (hchk h) 0),
               wchecksum1 := u8 (chkBytes (hchk h) 1),
               wbodybytes := B + 1 }
      (bchk h b) rfl rfl rfl c
    rw [hst, Prod.mk.injEq]
    refine ⟨?_, rfl⟩
    first
      | (simp only []
         done)
      | (simp only []
         ext
         all_goals rfl)
  refine wfeedAux_append_eq _ _ _
    { s with crstate := 0, cwstate := 13, whightime := 0,
             wlowtime := durOf (u8 (chkBytes (bchk h b) 1) / 2 ^ (7 - 7) % 2),
             wlow := 0, whigh := 0, wsecbits := 0, wchkbits := 0,
             header := wrPrefix s.header h 128,
             body := wrPrefix s.body b (B + 1), wlongread := false,
             wchecksum0 := u8 (chkBytes (bchk h b) 0),
             wchecksum1 := u8 (chkBytes (bchk h b) 1),
             wbodybytes := B + 1 }
    _ c c _ ?_ ?_
  · have hst := wskip10
      { s with crstate := 0, cwstate := 10, whightime := 0,
               wlowtime := durOf (u8 (chkBytes (bchk h b) 1) / 2 ^ (7 - 7) % 2),
               wlow := 0, whigh := 0, wsecbits := 0, wchkbits := 0,
               header := wrPrefix s.header h 128,
               body := wrPrefix s.body b (B + 1), wlongread := false,
               wchecksum0 := u8 (chkBytes (bchk h b) 0),
               wchecksum1 := u8 (chkBytes (bchk h b) 1),
               wbodybytes := B + 1 }
      rfl rfl c
    simp only [] at hst
    rw [hst, Prod.mk.injEq]
    refine ⟨?_, rfl⟩
    first
      | rfl
      | (ext
         all_goals rfl)
  · have hfin := wstep13_fin
      { s with crstate := 0, cwstate := 13, whightime := 0,
               wlowtime := durOf (u8 (chkBytes (bchk h b) 1) / 2 ^ (7 - 7) % 2),
               wlow := 0, whigh := 0, wsecbits := 0, wchkbits := 0,
               header := wrPrefix s.header h 128,
               body := wrPrefix s.body b (B + 1), wlongread := false,
               wchecksum0 := u8 (chkBytes (bchk h b) 0),
               wchecksum1 := u8 (chkBytes (bchk h b) 1),
               wbodybytes := B + 1 }
      rfl rfl rfl
    rw [wfeedAux_cons_persist _ 1 [] c _ hfin, wfeedAux_nil, Prod.mk.injEq]
    refine ⟨?_, rfl⟩
    first
      | (simp only []
         done)
      | (simp only []
         ext
         all_goals rfl)

lemma wstep1_any (s : MZState) (p : Nat) (h1 : s.cwstate = 1)
    (hlt : ¬ s.wsecbits = 22081) (hlt1 : ¬ s.wsecbits + 1 = 22081) :
    wfeedPulse s p =
      ({ s with whightime := 0, wlowtime := durOf p,
                wlow := (if p = 1 then s.wlow else s.wlow + 1),
                whigh := (if p = 1 then s.whigh + 1 else s.whigh),
                wsecbits := s.wsecbits + 1 }, false) := by
  by_cases hp : p = 1 <;>
    simp [wfeedPulse, cwrite, cwrite1, h1, classify, durOf, READPT,
          WBGAP_L, BTM_L, L_L, hlt, hlt1, hp]

lemma wstuck1 (ps : List Nat) : ∀ (s : MZState) (c : Nat), s.cwstate = 1 →
    s.wsecbits + ps.length ≤ 22080 →
    (wfeedAux s ps c).2 = c ∧ (wfeedAux s ps c).1.cwstate = 1 ∧
    (wfeedAux s ps c).1.header = s.header ∧
    (wfeedAux s ps c).1.body = s.body := by
  induction ps with
  | nil =>
    intro s c h1 _
    exact ⟨rfl, h1, rfl, rfl⟩
  | cons p rest ih =>
    intro s c h1 hle
    simp only [List.length_cons] at hle
    have hstep := wstep1_any s p h1 (by omega) (by omega)
    rw [wfeedAux_cons_np s p rest c _ hstep]
    have hnext := ih
      { s with whightime := 0, wlowtime := durOf p,
               wlow := (if p = 1 then s.wlow else s.wlow + 1),
               whigh := (if p = 1 then s.whigh + 1 else s.whigh),
               wsecbits := s.wsecbits + 1 }
      c h1 (by show s.wsecbits + 1 + rest.length ≤ 22080; omega)
    exact hnext

end PicoMZ
